import Mathlib

/-!
Vulkan clear-screen example: frame loop, swapchain negotiation, synchronisation.

A shallow embedding of `src/vulkanbase/VulkanHelper.h`,
`src/vulkanbase/SwapChainHelper.h`, `src/windowmanager/XCBWindowHelper.h`,
`src/utils/ErrorHelper.h` and `examples/clearscreen/main.cpp`.

Conventions of the embedding.

* Every call into the Vulkan driver or into XCB is an entry of a trace
  (`Call`).  What the driver answers (result codes, written handles, polled
  events) is an input of the model, so every theorem quantifies over all
  driver behaviours.
* A program is a value of `Run α`: the calls it issued and either its result
  or the way the process ended (`Halt`).
* Vulkan enums and flag words are numbers with the values of `vulkan.h`;
  `uint32_t` arithmetic is `Nat` arithmetic modulo `2 ^ 32`.
* `std::vector` elements are addressed by slot number; a `Call` that takes
  `&v[i]` records the slot `i`.
* `assert` is the active one of `<cassert>` (the sources never define
  `NDEBUG`): a failing assertion ends the process.
* Informational `std::cout`/`printf` lines are left out of the trace; the
  `Fatal` line of `VK_CHECK_RESULT` and the `std::cerr` line of
  `ct::error::exit` are kept.
-/

namespace ct

/-! ## Values of `vulkan.h` and `xcb.h` -/

abbrev VkResult := Int
abbrev Handle := Nat
abbrev VkFormat := Nat
abbrev VkColorSpaceKHR := Nat
abbrev VkBool32 := Nat
abbrev VkFlags := Nat

def VK_SUCCESS : VkResult := 0
def VK_SUBOPTIMAL_KHR : VkResult := 1000001003
def VK_ERROR_OUT_OF_HOST_MEMORY : VkResult := -1
def VK_ERROR_DEVICE_LOST : VkResult := -4
def VK_ERROR_OUT_OF_DATE_KHR : VkResult := -1000001004

def VK_NULL_HANDLE : Handle := 0
def VK_TRUE : VkBool32 := 1
def VK_FALSE : VkBool32 := 0
def UINT32_MAX : Nat := 4294967295
def UINT64_MAX : Nat := 18446744073709551615

def VK_FORMAT_UNDEFINED : VkFormat := 0
def VK_FORMAT_B8G8R8A8_UNORM : VkFormat := 44
def VK_FORMAT_D16_UNORM : VkFormat := 124
def VK_FORMAT_D32_SFLOAT : VkFormat := 126
def VK_FORMAT_D16_UNORM_S8_UINT : VkFormat := 128
def VK_FORMAT_D24_UNORM_S8_UINT : VkFormat := 129
def VK_FORMAT_D32_SFLOAT_S8_UINT : VkFormat := 130

def VK_FORMAT_FEATURE_DEPTH_STENCIL_ATTACHMENT_BIT : VkFlags := 0x200
def VK_FENCE_CREATE_SIGNALED_BIT : VkFlags := 1
def VK_PIPELINE_STAGE_COLOR_ATTACHMENT_OUTPUT_BIT : VkFlags := 0x400
def VK_QUEUE_GRAPHICS_BIT : VkFlags := 1
def VK_QUEUE_COMPUTE_BIT : VkFlags := 2
def VK_QUEUE_TRANSFER_BIT : VkFlags := 4
def VK_SURFACE_TRANSFORM_IDENTITY_BIT_KHR : VkFlags := 1
def VK_COMPOSITE_ALPHA_OPAQUE_BIT_KHR : VkFlags := 1
def VK_COMPOSITE_ALPHA_PRE_MULTIPLIED_BIT_KHR : VkFlags := 2
def VK_COMPOSITE_ALPHA_POST_MULTIPLIED_BIT_KHR : VkFlags := 4
def VK_COMPOSITE_ALPHA_INHERIT_BIT_KHR : VkFlags := 8
def VK_IMAGE_USAGE_TRANSFER_SRC_BIT : VkFlags := 1
def VK_IMAGE_USAGE_TRANSFER_DST_BIT : VkFlags := 2
def VK_IMAGE_USAGE_COLOR_ATTACHMENT_BIT : VkFlags := 0x10
def VK_PRESENT_MODE_FIFO_KHR : Nat := 2
def VK_SHARING_MODE_EXCLUSIVE : Nat := 0
def VK_COMMAND_BUFFER_LEVEL_PRIMARY : Nat := 0
def VK_MEMORY_PROPERTY_DEVICE_LOCAL_BIT : VkFlags := 1

def XCB_CLIENT_MESSAGE : Nat := 33

/-- The source files whose lines `VK_CHECK_RESULT` can name through `__FILE__`. -/
inductive SourceFile where
  | VulkanHelper
  | SwapChainHelper
  | XCBWindowHelper
  | main
  deriving DecidableEq, Repr

/-- An `xcb_generic_event_t` as far as `handle_events` reads it: the response
type byte and the first 32-bit data word of a client message. -/
structure XcbEvent where
  response_type : Nat
  data32_0 : Nat
  deriving DecidableEq, Repr

structure VkSurfaceFormatKHR where
  format : VkFormat
  colorSpace : VkColorSpaceKHR
  deriving DecidableEq, Repr

structure VkSurfaceCapabilitiesKHR where
  minImageCount : Nat
  maxImageCount : Nat
  supportedTransforms : VkFlags
  currentTransform : VkFlags
  supportedCompositeAlpha : VkFlags
  supportedUsageFlags : VkFlags
  deriving DecidableEq, Repr

structure VkSwapchainCreateInfoKHR where
  surface : Handle
  minImageCount : Nat
  imageFormat : VkFormat
  imageColorSpace : VkColorSpaceKHR
  imageExtent : Nat × Nat
  imageUsage : VkFlags
  preTransform : VkFlags
  imageArrayLayers : Nat
  imageSharingMode : Nat
  queueFamilyIndexCount : Nat
  presentMode : Nat
  oldSwapchain : Handle
  clipped : VkBool32
  compositeAlpha : VkFlags
  deriving DecidableEq, Repr

/-- Source `vulkan.h`, `VkFramebufferCreateInfo` as `setup_framebuffer_from_swapchain`
fills it: `pAttachments` with `attachmentCount` entries is the list `attachments`. -/
structure VkFramebufferCreateInfo where
  renderPass : Handle
  attachments : List Handle
  width : Nat
  height : Nat
  layers : Nat
  deriving DecidableEq, Repr

/-- Source `vulkan.h`, `VkRenderPassBeginInfo` as `build_command_buffer` fills it. -/
structure VkRenderPassBeginInfo where
  renderPass : Handle
  framebuffer : Handle
  renderArea : (Nat × Nat) × (Nat × Nat)
  clearValueCount : Nat
  deriving DecidableEq, Repr

/-! ## Traces -/

/-- One observable step of the program: a call into the driver or into XCB
with the arguments the program passed and the answer it got, an application
hook, or a diagnostic line. -/
inductive Call where
  /-- Call `xcb_poll_for_event`; `none` is the `NULL` that ends the drain. -/
  | pollForEvent (event : Option XcbEvent)
  /-- Call `free(event)` on a polled XCB event. -/
  | freeEvent
  /-- Call `world.advance(iteration_counter++, ...)`. -/
  | advance (iteration : Nat)
  /-- Call `world.draw()`. -/
  | draw
  /-- Call `fpAcquireNextImageKHR(device, swapchain, timeout, semaphore, fence, &current_buffer)`;
  `written` is the index the driver stored, if it stored one. -/
  | acquireNextImage (swapchain : Handle) (timeout : Nat) (semaphore : Handle) (fence : Handle)
      (res : VkResult) (written : Option Nat)
  /-- Call `vkWaitForFences(device, 1, &wait_fences[slot], VK_TRUE, timeout)`. -/
  | waitForFences (slot : Nat) (timeout : Nat) (res : VkResult)
  /-- Call `vkResetFences(device, 1, &wait_fences[slot])`. -/
  | resetFences (slot : Nat) (res : VkResult)
  /-- Call `vkQueueSubmit(queue, 1, &submitInfo, wait_fences[fenceSlot])` with the
  one command buffer `command_buffer[cmdSlot]`. -/
  | queueSubmit (queue : Handle) (cmdSlot : Nat) (waitSemaphores : List Handle)
      (waitStages : List VkFlags) (signalSemaphores : List Handle) (fenceSlot : Nat)
      (res : VkResult)
  /-- Call `fpQueuePresentKHR(queue, &presentInfo)`. -/
  | queuePresent (queue : Handle) (swapchain : Handle) (imageIndex : Nat)
      (waitSemaphores : List Handle) (res : VkResult)
  /-- Call `vkDeviceWaitIdle(device)`. -/
  | deviceWaitIdle (device : Handle)
  /-- Call `vkAllocateCommandBuffers` with `commandBufferCount = count`. -/
  | allocateCommandBuffers (pool : Handle) (level : Nat) (count : Nat) (res : VkResult)
  /-- Call `vkCreateSemaphore`. -/
  | createSemaphore (res : VkResult)
  /-- Call `vkCreateFence` with the given create flags. -/
  | createFence (flags : VkFlags) (res : VkResult)
  /-- Call `vkDestroyFence`. -/
  | destroyFence
  /-- Call `vkFreeCommandBuffers`. -/
  | freeCommandBuffers (count : Nat)
  /-- Call `fpGetPhysicalDeviceSurfaceFormatsKHR`. -/
  | getSurfaceFormats (res : VkResult)
  /-- Call `fpGetPhysicalDeviceSurfaceCapabilitiesKHR`. -/
  | getSurfaceCapabilities (res : VkResult)
  /-- Call `fpGetPhysicalDeviceSurfacePresentModesKHR`. -/
  | getSurfacePresentModes (res : VkResult)
  /-- Call `fpCreateSwapchainKHR(device, &swapchainCI, nullptr, &swapchain.swapchain)`. -/
  | createSwapchain (info : VkSwapchainCreateInfoKHR) (res : VkResult)
  /-- Call `fpGetSwapchainImagesKHR`. -/
  | getSwapchainImages (res : VkResult)
  /-- Call `vkCreateImageView` for swapchain image `slot` with the given format. -/
  | createImageView (slot : Nat) (format : VkFormat) (res : VkResult)
  /-- Output of `VK_CHECK_RESULT`: the line `Fatal : VkResult is ... in <file> at line <line>`. -/
  | fatalDiag (res : VkResult) (file : SourceFile) (line : Nat)
  /-- Call `ct::windowmanager::xcb::flush(connection)`, i.e. `xcb_flush`. -/
  | xcbFlush
  /-- Output of `ct::error::exit`: the message written to `std::cerr`. -/
  | stderr (message : String)
  /-- Call `vkCreateCommandPool` for the given queue family. -/
  | createCommandPool (queueFamilyIndex : Nat) (res : VkResult)
  /-- Call `vkGetDeviceQueue(device, family, 0, &queue)`. -/
  | getDeviceQueue (queueFamilyIndex : Nat)
  /-- Call `vkCreateImage` for the depth-stencil image. -/
  | createImage (format : VkFormat) (width : Nat) (height : Nat) (res : VkResult)
  /-- Call `vkGetImageMemoryRequirements` for the depth-stencil image. -/
  | getImageMemoryRequirements
  /-- Call `vkAllocateMemory` with the given size and memory type index. -/
  | allocateMemory (allocationSize : Nat) (memoryTypeIndex : Nat) (res : VkResult)
  /-- Call `vkBindImageMemory`. -/
  | bindImageMemory (res : VkResult)
  /-- Call `vkCreateImageView` for the depth-stencil image. -/
  | createDepthStencilView (format : VkFormat) (res : VkResult)
  /-- Call `vkCreateRenderPass` with the color and depth attachment formats. -/
  | createRenderPass (colorFormat : VkFormat) (depthFormat : VkFormat) (res : VkResult)
  /-- Call `vkCreateFramebuffer(device, &frameBufferCreateInfo, nullptr, &framebuffer[i])`. -/
  | createFramebuffer (info : VkFramebufferCreateInfo) (res : VkResult)
  /-- Call `vkBeginCommandBuffer(command_buffer[cmdSlot], ...)`. -/
  | beginCommandBuffer (cmdSlot : Nat) (res : VkResult)
  /-- Call `vkCmdBeginRenderPass(command_buffer[cmdSlot], &renderPassBeginInfo, ...)`. -/
  | cmdBeginRenderPass (cmdSlot : Nat) (info : VkRenderPassBeginInfo)
  /-- Call `vkCmdEndRenderPass(command_buffer[cmdSlot])`. -/
  | cmdEndRenderPass (cmdSlot : Nat)
  /-- Call `vkEndCommandBuffer(command_buffer[cmdSlot])`. -/
  | endCommandBuffer (cmdSlot : Nat) (res : VkResult)
  /-- Call `vkCreateDevice`; each queue create-info is given by its
  `queueFamilyIndex` and its `queueCount`. -/
  | createDevice (queueCreateInfos : List (Nat × Nat)) (res : VkResult)
  deriving DecidableEq, Repr

/-- How a process ends other than by returning from `main`. -/
inductive Halt where
  /-- Abnormal end by a failed `assert`. -/
  | abort
  /-- Call `std::exit(code)`. -/
  | exit (code : Int)
  /-- Abnormal end by a C++ exception that nothing catches; `what` is its message. -/
  | uncaught (what : String)
  deriving DecidableEq, Repr

/-- A run of a piece of the program: the calls issued, in order, and either
the value it returned or the way the process ended inside it. -/
structure Run (α : Type) where
  trace : List Call
  result : Except Halt α

namespace Run

def pure {α : Type} (a : α) : Run α := ⟨[], .ok a⟩

/-- Sequencing: the second part runs only if the first one returned. -/
def bind {α β : Type} (x : Run α) (f : α → Run β) : Run β :=
  match x.result with
  | .ok a => ⟨x.trace ++ (f a).trace, (f a).result⟩
  | .error h => ⟨x.trace, .error h⟩

instance : Monad Run where
  pure := Run.pure
  bind := Run.bind

/-- Issue one call. -/
def emit (c : Call) : Run Unit := ⟨[c], .ok ()⟩

/-- End the process. -/
def halt {α : Type} (h : Halt) : Run α := ⟨[], .error h⟩

end Run

open Run

namespace error

/-- Source `ErrorHelper.h`, `ct::error::exit`: the message goes to `std::cerr`
and the process exits with `exitcode` (the non-Android branch). -/
def exit {α : Type} (message : String) (exitcode : Int) : Run α := do
  emit (.stderr message)
  halt (.exit exitcode)

end error

namespace vulkan

/-- Source `VulkanHelper.h`, macro `VK_CHECK_RESULT` (the non-Android branch),
applied to the result `res` of the call it wraps: on anything but
`VK_SUCCESS` it prints the `Fatal` line and `assert(res == VK_SUCCESS)` fails. -/
def VK_CHECK_RESULT (file : SourceFile) (line : Nat) (res : VkResult) : Run Unit :=
  if res ≠ VK_SUCCESS then do
    emit (.fatalDiag res file line)
    halt .abort
  else
    Run.pure ()

/-- Source `<cassert>`, `assert(cond)`. -/
def assert (cond : Bool) : Run Unit :=
  if cond then Run.pure () else halt .abort

/-! ## `VulkanHelper.h` -/

/-- Source `get_supported_depth_format`, the probing order. -/
def depthFormats : List VkFormat :=
  [VK_FORMAT_D32_SFLOAT_S8_UINT, VK_FORMAT_D32_SFLOAT, VK_FORMAT_D24_UNORM_S8_UINT,
   VK_FORMAT_D16_UNORM_S8_UINT, VK_FORMAT_D16_UNORM]

/-- Source `get_supported_depth_format`, the loop body's test: the optimal
tiling features of `format` include the depth-stencil attachment bit. -/
def depthFormatOk (optimalTilingFeatures : VkFormat → VkFlags) (format : VkFormat) : Bool :=
  optimalTilingFeatures format &&& VK_FORMAT_FEATURE_DEPTH_STENCIL_ATTACHMENT_BIT != 0

/-- Source `get_supported_depth_format`, the `for` loop over the remaining
formats: the first qualifying format, or `none` when the loop falls through. -/
def get_supported_depth_format.probe (optimalTilingFeatures : VkFormat → VkFlags) :
    List VkFormat → Option VkFormat
  | [] => none
  | format :: rest =>
    if depthFormatOk optimalTilingFeatures format then some format
    else get_supported_depth_format.probe optimalTilingFeatures rest

/-- Source `get_supported_depth_format`: the returned `VkBool32` and the value
of the reference parameter `depthFormat` afterwards.  The device is given by
its table of optimal-tiling features per format. -/
def get_supported_depth_format (optimalTilingFeatures : VkFormat → VkFlags)
    (depthFormat : VkFormat) : VkBool32 × VkFormat :=
  match get_supported_depth_format.probe optimalTilingFeatures depthFormats with
  | some format => (VK_TRUE, format)
  | none => (VK_FALSE, depthFormat)

/-- Source `vulkan.h`, `VkPhysicalDeviceMemoryProperties` as `get_memory_type`
reads it: the count and the `propertyFlags` of the entries of `memoryTypes`. -/
structure VkPhysicalDeviceMemoryProperties where
  memoryTypeCount : Nat
  memoryTypes : List VkFlags
  deriving DecidableEq, Repr

/-- Source `VulkanHelper.h`, the member `queue_family_indices` of `LogicalDevice`. -/
structure QueueFamilyIndices where
  graphics : Nat
  compute : Nat
  transfer : Nat
  deriving DecidableEq, Repr

/-- Source `VulkanHelper.h`, `struct LogicalDevice`, the fields the modelled
functions touch. -/
structure LogicalDevice where
  physical_device : Handle
  device : Handle
  command_pool : Handle
  command_buffer : List Handle
  queue_graphics : Handle
  queue_compute : Handle
  memory_properties : VkPhysicalDeviceMemoryProperties := ⟨0, []⟩
  queue_family_indices : QueueFamilyIndices := ⟨0, 0, 0⟩
  deriving DecidableEq, Repr

/-- Source `VulkanHelper.h`, `struct DepthStencil`. -/
structure DepthStencil where
  image : Handle
  mem : Handle
  view : Handle
  depth_format : VkFormat
  deriving DecidableEq, Repr

/-- Source `VulkanHelper.h`, `struct Color`. -/
structure Color where
  color_format : VkFormat
  color_space : VkColorSpaceKHR
  deriving DecidableEq, Repr

/-- Source `VulkanHelper.h`, `struct Framebuffer`. -/
structure Framebuffer where
  width : Nat
  height : Nat
  size : Nat
  render_pass : Handle
  framebuffer : List Handle
  depth_stencil : DepthStencil
  color : Color
  deriving DecidableEq, Repr

/-- Source `VulkanHelper.h`, `struct Synchronization`. -/
structure Synchronization where
  present_complete : Handle
  render_complete : Handle
  overlay_complete : Handle
  wait_fences : List Handle
  deriving DecidableEq, Repr

/-- Model of `std::vector<T>::resize(n)` for a vector of handles: the first `n`
elements are kept and new slots are value-initialised. -/
def resize (v : List Handle) (n : Nat) : List Handle :=
  v.take n ++ List.replicate (n - v.length) VK_NULL_HANDLE

/-- What the driver answers to `vkAllocateCommandBuffers`: the result and the
handle it stores in each slot. -/
structure AllocateAnswer where
  res : VkResult
  handle : Nat → Handle

/-- Source `create_command_buffer`: returns the vector `command_buffer`. -/
def create_command_buffer (imagecount : Nat) (command_pool : Handle)
    (command_buffer : List Handle) (env : AllocateAnswer) : Run (List Handle) := do
  let command_buffer := resize command_buffer imagecount
  emit (.allocateCommandBuffers command_pool VK_COMMAND_BUFFER_LEVEL_PRIMARY imagecount env.res)
  let command_buffer := (List.range imagecount).map env.handle ++ command_buffer.drop imagecount
  VK_CHECK_RESULT .VulkanHelper 315 env.res
  Run.pure command_buffer

/-- What the driver answers to the calls of `create_synchronization`: for each
of the three semaphores the result and the handle it stored (if any), and for
the fence of each slot the result and the handle. -/
structure SynchronizationAnswer where
  present_complete : VkResult × Option Handle
  render_complete : VkResult × Option Handle
  overlay_complete : VkResult × Option Handle
  fence : Nat → VkResult × Handle

/-- Source `create_synchronization`, the range-`for` over `sync.wait_fences`:
`todo` are the slots still to visit, `i` is the number of the first of them. -/
def create_synchronization.fences (fence : Nat → VkResult × Handle) :
    List Handle → Nat → Run (List Handle)
  | [], _ => Run.pure []
  | _ :: todo, i => do
    emit (.createFence VK_FENCE_CREATE_SIGNALED_BIT (fence i).1)
    VK_CHECK_RESULT .VulkanHelper 332 (fence i).1
    let rest ← create_synchronization.fences fence todo (i + 1)
    Run.pure ((fence i).2 :: rest)

/-- Source `create_synchronization`: returns `sync`. -/
def create_synchronization (command_buffer : List Handle) (sync : Synchronization)
    (env : SynchronizationAnswer) : Run Synchronization := do
  emit (.createSemaphore env.present_complete.1)
  let sync := { sync with present_complete := env.present_complete.2.getD sync.present_complete }
  emit (.createSemaphore env.render_complete.1)
  let sync := { sync with render_complete := env.render_complete.2.getD sync.render_complete }
  emit (.createSemaphore env.overlay_complete.1)
  let sync := { sync with overlay_complete := env.overlay_complete.2.getD sync.overlay_complete }
  let wait_fences := resize sync.wait_fences command_buffer.length
  let wait_fences ← create_synchronization.fences env.fence wait_fences 0
  Run.pure { sync with wait_fences := wait_fences }

/-- Source `get_memory_type`, the `for` loop with `n` passes left, at index `i`
with the current value of `typeBits`: the index returned from inside the loop,
or `none` when the loop runs out. -/
def get_memory_type.loop (memory_properties : VkPhysicalDeviceMemoryProperties)
    (properties : VkFlags) : Nat → Nat → Nat → Option Nat
  | 0, _, _ => none
  | n + 1, i, typeBits =>
    if typeBits &&& 1 = 1 then
      if memory_properties.memoryTypes.getD i 0 &&& properties = properties then
        some i
      else
        get_memory_type.loop memory_properties properties n (i + 1) (typeBits >>> 1)
    else
      get_memory_type.loop memory_properties properties n (i + 1) (typeBits >>> 1)

/-- Source `get_memory_type`. -/
def get_memory_type (memory_properties : VkPhysicalDeviceMemoryProperties) (typeBits : Nat)
    (properties : VkFlags) : Run Nat :=
  match get_memory_type.loop memory_properties properties
      memory_properties.memoryTypeCount 0 typeBits with
  | some i => Run.pure i
  | none => error.exit "Could not find a matching memory type" 1

/-- Source `get_queue_family_index`, one of its three `for` loops from family
`i` on: the index at which the loop returns, that of the first family whose
`queueFlags` pass `test`, or `none` when the loop runs out. -/
def get_queue_family_index.search (test : VkFlags → Bool) : List VkFlags → Nat → Option Nat
  | [], _ => none
  | flags :: rest, i =>
    if test flags then some i else get_queue_family_index.search test rest (i + 1)

/-- Source `get_queue_family_index`, the test of the first loop: the family
supports one of the requested flags and not graphics. -/
def get_queue_family_index.dedicatedCompute (queueFlags flags : VkFlags) : Bool :=
  flags &&& queueFlags != 0 && flags &&& VK_QUEUE_GRAPHICS_BIT == 0

/-- Source `get_queue_family_index`, the test of the second loop: the family
supports one of the requested flags and neither graphics nor compute. -/
def get_queue_family_index.dedicatedTransfer (queueFlags flags : VkFlags) : Bool :=
  flags &&& queueFlags != 0 && flags &&& VK_QUEUE_GRAPHICS_BIT == 0 &&
    flags &&& VK_QUEUE_COMPUTE_BIT == 0

/-- Source `get_queue_family_index`, the test of the third loop: the family
supports one of the requested flags. -/
def get_queue_family_index.anyMatch (queueFlags flags : VkFlags) : Bool :=
  flags &&& queueFlags != 0

/-- Source `get_queue_family_index`, after the assertion: the index returned,
or `none` where the source throws. -/
def get_queue_family_index.lookup (queueFamilyProperties : List VkFlags) (queueFlags : VkFlags) :
    Option Nat :=
  let dedicatedCompute :=
    if queueFlags &&& VK_QUEUE_COMPUTE_BIT != 0 then
      get_queue_family_index.search (get_queue_family_index.dedicatedCompute queueFlags)
        queueFamilyProperties 0
    else none
  match dedicatedCompute with
  | some i => some i
  | none =>
    let dedicatedTransfer :=
      if queueFlags &&& VK_QUEUE_TRANSFER_BIT != 0 then
        get_queue_family_index.search (get_queue_family_index.dedicatedTransfer queueFlags)
          queueFamilyProperties 0
      else none
    match dedicatedTransfer with
    | some i => some i
    | none =>
      get_queue_family_index.search (get_queue_family_index.anyMatch queueFlags)
        queueFamilyProperties 0

/-- Source `get_queue_family_index`: the physical device is given by the
`queueFlags` of its queue families.  The `std::runtime_error` it throws is
caught nowhere in the sources. -/
def get_queue_family_index (queueFamilyProperties : List VkFlags) (queueFlags : VkFlags) :
    Run Nat := do
  assert (queueFamilyProperties.length > 0)
  match get_queue_family_index.lookup queueFamilyProperties queueFlags with
  | some i => Run.pure i
  | none => halt (.uncaught "Could not find a matching queue family index")

/-- Source `create_device`: the physical device is given by the `queueFlags` of
its queue families, the driver's answer is the result and the device handle it
stored, if it stored one; returns `logical_device`.  The extension lists are
not modelled. -/
def create_device (queueFamilyProperties : List VkFlags) (answer : VkResult × Option Handle)
    (logical_device : LogicalDevice) : Run LogicalDevice := do
  let graphics ← get_queue_family_index queueFamilyProperties VK_QUEUE_GRAPHICS_BIT
  let queueCreateInfos := [(graphics, 1)]
  let compute ← get_queue_family_index queueFamilyProperties VK_QUEUE_COMPUTE_BIT
  let queueCreateInfos := queueCreateInfos ++ [(compute, 1)]
  let logical_device :=
    { logical_device with
      queue_family_indices := { graphics := graphics, compute := compute, transfer := graphics } }
  emit (.createDevice queueCreateInfos answer.1)
  let logical_device := { logical_device with device := answer.2.getD logical_device.device }
  VK_CHECK_RESULT .VulkanHelper 286 answer.1
  Run.pure logical_device

/-- Source `create_command_pool`: the driver's answer is the result and the
handle it stored, if it stored one; returns `command_pool`. -/
def create_command_pool (queue_family_index : Nat) (command_pool : Handle)
    (answer : VkResult × Option Handle) : Run Handle := do
  emit (.createCommandPool queue_family_index answer.1)
  let command_pool := answer.2.getD command_pool
  VK_CHECK_RESULT .VulkanHelper 302 answer.1
  Run.pure command_pool

/-- Source `create_queues`, called with the two queue members of
`logical_device` itself: returns `logical_device`. -/
def create_queues (logical_device : LogicalDevice) (queue_graphics queue_compute : Handle) :
    Run LogicalDevice := do
  emit (.getDeviceQueue logical_device.queue_family_indices.graphics)
  let logical_device := { logical_device with queue_graphics := queue_graphics }
  emit (.getDeviceQueue logical_device.queue_family_indices.compute)
  Run.pure { logical_device with queue_compute := queue_compute }

/-- What the device answers inside `setup_depth_stencil`. -/
structure DepthStencilAnswer where
  optimalTilingFeatures : VkFormat → VkFlags
  imageRes : VkResult
  image : Option Handle
  memReqsSize : Nat
  memoryTypeBits : Nat
  allocRes : VkResult
  mem : Option Handle
  bindRes : VkResult
  viewRes : VkResult
  view : Option Handle

/-- Source `setup_depth_stencil`: returns `depth_stencil`. -/
def setup_depth_stencil (width height : Nat)
    (memory_properties : VkPhysicalDeviceMemoryProperties) (env : DepthStencilAnswer)
    (depth_stencil : DepthStencil) : Run DepthStencil := do
  let probed := get_supported_depth_format env.optimalTilingFeatures depth_stencil.depth_format
  let validDepthFormat := probed.1
  let depth_stencil := { depth_stencil with depth_format := probed.2 }
  assert (validDepthFormat != 0)
  emit (.createImage depth_stencil.depth_format width height env.imageRes)
  let depth_stencil := { depth_stencil with image := env.image.getD depth_stencil.image }
  VK_CHECK_RESULT .VulkanHelper 377 env.imageRes
  emit .getImageMemoryRequirements
  let memoryTypeIndex ← get_memory_type memory_properties env.memoryTypeBits
    VK_MEMORY_PROPERTY_DEVICE_LOCAL_BIT
  emit (.allocateMemory env.memReqsSize memoryTypeIndex env.allocRes)
  let depth_stencil := { depth_stencil with mem := env.mem.getD depth_stencil.mem }
  VK_CHECK_RESULT .VulkanHelper 381 env.allocRes
  emit (.bindImageMemory env.bindRes)
  VK_CHECK_RESULT .VulkanHelper 382 env.bindRes
  emit (.createDepthStencilView depth_stencil.depth_format env.viewRes)
  let depth_stencil := { depth_stencil with view := env.view.getD depth_stencil.view }
  VK_CHECK_RESULT .VulkanHelper 385 env.viewRes
  Run.pure depth_stencil

/-- Source `setup_render_pass`: the driver's answer is the result and the
handle it stored, if it stored one; returns `render_pass`. -/
def setup_render_pass (color_format depth_format : VkFormat) (render_pass : Handle)
    (answer : VkResult × Option Handle) : Run Handle := do
  emit (.createRenderPass color_format depth_format answer.1)
  let render_pass := answer.2.getD render_pass
  VK_CHECK_RESULT .VulkanHelper 457 answer.1
  Run.pure render_pass

/-- Source `setup_framebuffer_from_swapchain`, the `for` loop over the slots of
`framebuffer.framebuffer` with `n` slots left, at slot `i`: returns the handles
written.  A read of `color_views[i]` past the end of the vector, undefined in
the source, gives `VK_NULL_HANDLE` here. -/
def setup_framebuffer_from_swapchain.loop (answer : Nat → VkResult × Handle)
    (render_pass depthView : Handle) (width height : Nat) (color_views : List Handle) :
    Nat → Nat → Run (List Handle)
  | 0, _ => Run.pure []
  | n + 1, i => do
    let attachments := [color_views.getD i VK_NULL_HANDLE, depthView]
    emit (.createFramebuffer
      { renderPass := render_pass, attachments := attachments, width := width,
        height := height, layers := 1 } (answer i).1)
    VK_CHECK_RESULT .VulkanHelper 496 (answer i).1
    let rest ← setup_framebuffer_from_swapchain.loop answer render_pass depthView width height
      color_views n (i + 1)
    Run.pure ((answer i).2 :: rest)

/-- Source `setup_framebuffer_from_swapchain`: the driver's answer for slot `i`
is `answer i`; returns `framebuffer`. -/
def setup_framebuffer_from_swapchain (width height imagecount : Nat) (color_views : List Handle)
    (color_format : VkFormat) (color_space : VkColorSpaceKHR) (framebuffer : Framebuffer)
    (answer : Nat → VkResult × Handle) : Run Framebuffer := do
  let framebuffer :=
    { framebuffer with
      color := { color_format := color_format, color_space := color_space }
      size := imagecount, width := width, height := height }
  let slots := resize framebuffer.framebuffer imagecount
  let written ← setup_framebuffer_from_swapchain.loop answer framebuffer.render_pass
    framebuffer.depth_stencil.view width height color_views slots.length 0
  Run.pure { framebuffer with framebuffer := written ++ slots.drop written.length }

namespace swapchain

/-- Source `SwapChainHelper.h`, `struct SwapChain` without the loaded entry
points. -/
structure SwapChain where
  current_buffer : Nat
  swapchain : Handle
  color_format : VkFormat
  color_space : VkColorSpaceKHR
  imagecount : Nat
  images : List Handle
  views : List Handle
  deriving DecidableEq, Repr

/-- Source `check_present_support`, first queue loop from family `i` on:
`graphicsQueueNodeIndex` so far is `g`; returns
`(graphicsQueueNodeIndex, presentQueueNodeIndex)` after the loop.  A family is
its `queueFlags` and its `supportsPresent` entry. -/
def check_present_support.firstLoop : List (VkFlags × VkBool32) → Nat → Nat → Nat × Nat
  | [], _, g => (g, UINT32_MAX)
  | (queueFlags, supportsPresent) :: rest, i, g =>
    let g := if queueFlags &&& VK_QUEUE_GRAPHICS_BIT != 0 then
               (if g = UINT32_MAX then i else g) else g
    if supportsPresent = VK_TRUE then (i, i)
    else check_present_support.firstLoop rest (i + 1) g

/-- Source `check_present_support`, second queue loop from family `i` on: the
value of `presentQueueNodeIndex` after it. -/
def check_present_support.secondLoop : List (VkFlags × VkBool32) → Nat → Nat
  | [], _ => UINT32_MAX
  | (_, supportsPresent) :: rest, i =>
    if supportsPresent = VK_TRUE then i
    else check_present_support.secondLoop rest (i + 1)

/-- Source `check_present_support`, the queue part: the two node indices at the
point where they are tested. -/
def check_present_support.queueIndices (families : List (VkFlags × VkBool32)) : Nat × Nat :=
  let (g, p) := check_present_support.firstLoop families 0 UINT32_MAX
  let p := if p = UINT32_MAX then check_present_support.secondLoop families 0 else p
  (g, p)

/-- Source `check_present_support`, the range-`for` that looks for
`VK_FORMAT_B8G8R8A8_UNORM`: the entry at which it breaks. -/
def check_present_support.findB8G8R8A8 : List VkSurfaceFormatKHR → Option VkSurfaceFormatKHR
  | [] => none
  | surfaceFormat :: rest =>
    if surfaceFormat.format = VK_FORMAT_B8G8R8A8_UNORM then some surfaceFormat
    else check_present_support.findB8G8R8A8 rest

/-- Source `check_present_support`, the format selection (from the test of
`formatCount == 1` on) for the non-empty format list `first :: rest`. -/
def check_present_support.selectFormat (first : VkSurfaceFormatKHR)
    (rest : List VkSurfaceFormatKHR) (swapchain : SwapChain) : SwapChain :=
  let surfaceFormats := first :: rest
  if surfaceFormats.length = 1 ∧ first.format = VK_FORMAT_UNDEFINED then
    { swapchain with color_format := VK_FORMAT_B8G8R8A8_UNORM, color_space := first.colorSpace }
  else
    match check_present_support.findB8G8R8A8 surfaceFormats with
    | some surfaceFormat =>
      { swapchain with color_format := surfaceFormat.format,
                       color_space := surfaceFormat.colorSpace }
    | none =>
      { swapchain with color_format := first.format, color_space := first.colorSpace }

/-- What the device answers inside `check_present_support`: the queue families
with their present support, the results of the two format queries and the
format list. -/
structure PresentSupportAnswer where
  families : List (VkFlags × VkBool32)
  formatsRes1 : VkResult
  formatsRes2 : VkResult
  surfaceFormats : List VkSurfaceFormatKHR

/-- Source `check_present_support`: returns `swapchain`. -/
def check_present_support (env : PresentSupportAnswer) (swapchain : SwapChain) :
    Run SwapChain := do
  assert (env.families.length ≥ 1)
  let (graphicsQueueNodeIndex, presentQueueNodeIndex) :=
    check_present_support.queueIndices env.families
  if graphicsQueueNodeIndex = UINT32_MAX ∨ presentQueueNodeIndex = UINT32_MAX then
    error.exit "Could not find a graphics and/or presenting queue!" (-1)
  if graphicsQueueNodeIndex ≠ presentQueueNodeIndex then
    error.exit "Separate graphics and presenting queues are not supported yet!" (-1)
  emit (.getSurfaceFormats env.formatsRes1)
  VK_CHECK_RESULT .SwapChainHelper 117 env.formatsRes1
  assert (env.surfaceFormats.length > 0)
  emit (.getSurfaceFormats env.formatsRes2)
  VK_CHECK_RESULT .SwapChainHelper 121 env.formatsRes2
  match env.surfaceFormats with
  | [] => halt .abort
  | first :: rest => Run.pure (check_present_support.selectFormat first rest swapchain)

/-- Source `create`, lines 178-180: the value of
`desiredNumberOfSwapchainImages` (a `uint32_t`) after the clamp. -/
def create.desiredNumberOfSwapchainImages (surfCaps : VkSurfaceCapabilitiesKHR) : Nat :=
  let desiredNumberOfSwapchainImages := (surfCaps.minImageCount + 1) % 2 ^ 32
  if surfCaps.maxImageCount > 0 ∧ desiredNumberOfSwapchainImages > surfCaps.maxImageCount then
    surfCaps.maxImageCount
  else
    desiredNumberOfSwapchainImages

/-- Source `create`, lines 183-187: `preTransform`. -/
def create.preTransform (surfCaps : VkSurfaceCapabilitiesKHR) : VkFlags :=
  if surfCaps.supportedTransforms &&& VK_SURFACE_TRANSFORM_IDENTITY_BIT_KHR != 0 then
    VK_SURFACE_TRANSFORM_IDENTITY_BIT_KHR
  else
    surfCaps.currentTransform

/-- Source `create`, lines 198-203: the loop over `compositeAlphaFlags`. -/
def create.compositeAlphaLoop (supportedCompositeAlpha : VkFlags) (compositeAlpha : VkFlags) :
    List VkFlags → VkFlags
  | [] => compositeAlpha
  | compositeAlphaFlag :: rest =>
    if supportedCompositeAlpha &&& compositeAlphaFlag != 0 then compositeAlphaFlag
    else create.compositeAlphaLoop supportedCompositeAlpha compositeAlpha rest

/-- Source `create`, lines 190-203: `compositeAlpha`. -/
def create.compositeAlpha (surfCaps : VkSurfaceCapabilitiesKHR) : VkFlags :=
  create.compositeAlphaLoop surfCaps.supportedCompositeAlpha VK_COMPOSITE_ALPHA_OPAQUE_BIT_KHR
    [VK_COMPOSITE_ALPHA_OPAQUE_BIT_KHR, VK_COMPOSITE_ALPHA_PRE_MULTIPLIED_BIT_KHR,
     VK_COMPOSITE_ALPHA_POST_MULTIPLIED_BIT_KHR, VK_COMPOSITE_ALPHA_INHERIT_BIT_KHR]

/-- Source `create`, lines 214 and 228-233: `swapchainCI.imageUsage`. -/
def create.imageUsage (surfCaps : VkSurfaceCapabilitiesKHR) : VkFlags :=
  let imageUsage := VK_IMAGE_USAGE_COLOR_ATTACHMENT_BIT
  let imageUsage :=
    if surfCaps.supportedUsageFlags &&& VK_IMAGE_USAGE_TRANSFER_SRC_BIT != 0 then
      imageUsage ||| VK_IMAGE_USAGE_TRANSFER_SRC_BIT else imageUsage
  if surfCaps.supportedUsageFlags &&& VK_IMAGE_USAGE_TRANSFER_DST_BIT != 0 then
    imageUsage ||| VK_IMAGE_USAGE_TRANSFER_DST_BIT else imageUsage

/-- Source `create`, lines 206-233: the create-info handed to
`fpCreateSwapchainKHR`. -/
def create.swapchainCI (width height : Nat) (surface : Handle)
    (surfCaps : VkSurfaceCapabilitiesKHR) (swapchain : SwapChain) : VkSwapchainCreateInfoKHR :=
  { surface := surface
    minImageCount := create.desiredNumberOfSwapchainImages surfCaps
    imageFormat := swapchain.color_format
    imageColorSpace := swapchain.color_space
    imageExtent := (width, height)
    imageUsage := create.imageUsage surfCaps
    preTransform := create.preTransform surfCaps
    imageArrayLayers := 1
    imageSharingMode := VK_SHARING_MODE_EXCLUSIVE
    queueFamilyIndexCount := 0
    presentMode := VK_PRESENT_MODE_FIFO_KHR
    oldSwapchain := swapchain.swapchain
    clipped := VK_TRUE
    compositeAlpha := create.compositeAlpha surfCaps }

/-- What the device answers inside `create`.  The image count is the one the
first query of the swapchain images stores; the second query, made with that
count, is taken to leave it as it is. -/
structure CreateAnswer where
  capsRes : VkResult
  surfCaps : VkSurfaceCapabilitiesKHR
  presentModesRes1 : VkResult
  presentModeCount : Nat
  presentModesRes2 : VkResult
  createRes : VkResult
  newSwapchain : Option Handle
  imagesRes1 : VkResult
  imagecount : Option Nat
  imagesRes2 : VkResult
  image : Nat → Handle
  view : Nat → VkResult × Handle

/-- Source `create`, the loop creating one image view per swapchain image,
from image `i` on with `n` images left; returns the views written. -/
def create.viewLoop (color_format : VkFormat) (view : Nat → VkResult × Handle) :
    Nat → Nat → Run (List Handle)
  | 0, _ => Run.pure []
  | n + 1, i => do
    emit (.createImageView i color_format (view i).1)
    VK_CHECK_RESULT .SwapChainHelper 268 (view i).1
    let rest ← create.viewLoop color_format view n (i + 1)
    Run.pure ((view i).2 :: rest)

/-- Source `create`: returns `swapchain`. -/
def create (width height : Nat) (surface : Handle) (env : CreateAnswer)
    (swapchain : SwapChain) : Run SwapChain := do
  emit (.getSurfaceCapabilities env.capsRes)
  VK_CHECK_RESULT .SwapChainHelper 162 env.capsRes
  emit (.getSurfacePresentModes env.presentModesRes1)
  VK_CHECK_RESULT .SwapChainHelper 166 env.presentModesRes1
  assert (env.presentModeCount > 0)
  emit (.getSurfacePresentModes env.presentModesRes2)
  VK_CHECK_RESULT .SwapChainHelper 170 env.presentModesRes2
  let swapchainCI := create.swapchainCI width height surface env.surfCaps swapchain
  emit (.createSwapchain swapchainCI env.createRes)
  let swapchain := { swapchain with swapchain := env.newSwapchain.getD swapchain.swapchain }
  VK_CHECK_RESULT .SwapChainHelper 235 env.createRes
  emit (.getSwapchainImages env.imagesRes1)
  let swapchain := { swapchain with imagecount := env.imagecount.getD swapchain.imagecount }
  VK_CHECK_RESULT .SwapChainHelper 238 env.imagesRes1
  let views := resize swapchain.views swapchain.imagecount
  emit (.getSwapchainImages env.imagesRes2)
  let swapchain := { swapchain with images := (List.range swapchain.imagecount).map env.image }
  VK_CHECK_RESULT .SwapChainHelper 243 env.imagesRes2
  let written ← create.viewLoop swapchain.color_format env.view swapchain.imagecount 0
  Run.pure { swapchain with views := written ++ views.drop written.length }

/-- Source `acquire_next_image`: the driver's answer is the result `res` and
the index it stored into `swapchain.current_buffer`, if it stored one. -/
def acquire_next_image (present_complete : Handle) (res : VkResult) (written : Option Nat)
    (swapchain : SwapChain) : Run SwapChain := do
  emit (.acquireNextImage swapchain.swapchain UINT64_MAX present_complete VK_NULL_HANDLE
    res written)
  let swapchain := { swapchain with current_buffer := written.getD swapchain.current_buffer }
  VK_CHECK_RESULT .SwapChainHelper 273 res
  Run.pure swapchain

/-- The driver's results for the four calls of `render_and_swap`. -/
structure RenderAnswer where
  waitRes : VkResult
  resetRes : VkResult
  submitRes : VkResult
  presentRes : VkResult
  deriving DecidableEq, Repr

/-- Source `render_and_swap`. -/
def render_and_swap (logical_device : LogicalDevice) (swapchain : SwapChain)
    (synchronization : Synchronization) (env : RenderAnswer) : Run Unit := do
  emit (.waitForFences swapchain.current_buffer UINT64_MAX env.waitRes)
  VK_CHECK_RESULT .SwapChainHelper 279 env.waitRes
  emit (.resetFences swapchain.current_buffer env.resetRes)
  VK_CHECK_RESULT .SwapChainHelper 280 env.resetRes
  let waitStageMask := VK_PIPELINE_STAGE_COLOR_ATTACHMENT_OUTPUT_BIT
  emit (.queueSubmit logical_device.queue_graphics swapchain.current_buffer
    [synchronization.present_complete] [waitStageMask] [synchronization.render_complete]
    swapchain.current_buffer env.submitRes)
  VK_CHECK_RESULT .SwapChainHelper 296 env.submitRes
  let pWaitSemaphores :=
    if synchronization.render_complete ≠ VK_NULL_HANDLE then [synchronization.render_complete]
    else []
  emit (.queuePresent logical_device.queue_graphics swapchain.swapchain
    swapchain.current_buffer pWaitSemaphores env.presentRes)
  VK_CHECK_RESULT .SwapChainHelper 310 env.presentRes

end swapchain
end vulkan

namespace windowmanager
namespace xcb

/-- Source `XCBWindowHelper.h`, `struct Window`; `atom_wm_delete_window` is
the atom of the stored reply. -/
structure Window where
  is_alive : Bool
  surface : Handle
  connection : Handle
  screen : Handle
  window : Nat
  atom_wm_delete_window : Nat
  deriving DecidableEq, Repr

/-- Source `handle_events`: returns `window`. -/
def handle_events (event : XcbEvent) (window : Window) : Window :=
  if event.response_type &&& 0x7f = XCB_CLIENT_MESSAGE then
    if event.data32_0 = window.atom_wm_delete_window then
      { window with is_alive := false }
    else window
  else window

end xcb
end windowmanager

namespace clearscreen

open vulkan vulkan.swapchain windowmanager.xcb

/-- What one pass of the `while` loop of `main` receives from outside: the
events `xcb_poll_for_event` hands out before it returns `NULL`, and the
driver's answers to the acquire and to the calls of `render_and_swap`. -/
structure FrameInput where
  events : List XcbEvent
  acquireRes : VkResult
  acquireWritten : Option Nat
  render : RenderAnswer
  deriving DecidableEq, Repr

/-- The variables of `main` that the `while` loop changes. -/
structure LoopState where
  window : Window
  swapchain : SwapChain
  iteration_counter : Nat
  deriving DecidableEq, Repr

/-- Source `main`, lines 133-136: the inner `while` that polls and handles
events until `xcb_poll_for_event` returns `NULL`. -/
def drainEvents : List XcbEvent → Window → Run Window
  | [], window => do
    emit (.pollForEvent none)
    Run.pure window
  | event :: rest, window => do
    emit (.pollForEvent (some event))
    let window := handle_events event window
    emit .freeEvent
    drainEvents rest window

/-- Source `main`, lines 131-147: one pass of the body of `while (window.is_alive)`.
The clock readings and the `ms_per_frame` line are not modelled. -/
def loopBody (logical_device : LogicalDevice) (synchronization : Synchronization)
    (inp : FrameInput) (st : LoopState) : Run LoopState := do
  let window ← drainEvents inp.events st.window
  emit (.advance st.iteration_counter)
  let iteration_counter := (st.iteration_counter + 1) % 2 ^ 64
  let swapchain ← acquire_next_image synchronization.present_complete
    inp.acquireRes inp.acquireWritten st.swapchain
  emit .draw
  render_and_swap logical_device swapchain synchronization inp.render
  Run.pure { window := window, swapchain := swapchain, iteration_counter := iteration_counter }

/-- Where the `while` loop of `main` stands after the given inputs. -/
inductive LoopEnd where
  /-- The condition `window.is_alive` was tested and found false. -/
  | left (st : LoopState)
  /-- The condition was true and the inputs given to the model are used up:
  the loop is still going. -/
  | going (st : LoopState)
  deriving DecidableEq, Repr

/-- Source `main`, line 130: `while (window.is_alive)` over the given per-pass
inputs. -/
def mainLoop (logical_device : LogicalDevice) (synchronization : Synchronization) :
    List FrameInput → LoopState → Run LoopEnd
  | [], st => Run.pure (if st.window.is_alive then .going st else .left st)
  | inp :: rest, st =>
    if st.window.is_alive then do
      let st ← loopBody logical_device synchronization inp st
      mainLoop logical_device synchronization rest st
    else
      Run.pure (.left st)

/-- Source `main`, lines 124-154, after the setup: returns `some 0` when
`main` returns and `none` when the loop is still going after the inputs. -/
def mainFromLoop (logical_device : LogicalDevice) (synchronization : Synchronization)
    (inputs : List FrameInput) (st : LoopState) : Run (Option Int) := do
  let st := { st with window := { st.window with is_alive := true } }
  emit .xcbFlush
  let fin ← mainLoop logical_device synchronization inputs st
  match fin with
  | .going _ => Run.pure none
  | .left _ =>
    if logical_device.device ≠ VK_NULL_HANDLE then
      emit (.deviceWaitIdle logical_device.device)
    Run.pure (some 0)

/-- Source `main.cpp`, `WINDOW_WIDTH`. -/
def WINDOW_WIDTH : Nat := 1280

/-- Source `main.cpp`, `WINDOW_HEIGHT`. -/
def WINDOW_HEIGHT : Nat := 960

/-- Source `ToyWorld::build_command_buffer`, the `for` loop over the command
buffers with `n` of them left, at command buffer `i`; `answer i` are the
driver's results for `vkBeginCommandBuffer` and `vkEndCommandBuffer` on it.  A
read of `framebuffer->framebuffer[i]` past the end of the vector, undefined in
the source, gives `VK_NULL_HANDLE` here. -/
def ToyWorld.build_command_buffer.loop (framebuffer : Framebuffer)
    (answer : Nat → VkResult × VkResult) : Nat → Nat → Run Unit
  | 0, _ => Run.pure ()
  | n + 1, i => do
    let renderPassBeginInfo : VkRenderPassBeginInfo :=
      { renderPass := framebuffer.render_pass
        framebuffer := framebuffer.framebuffer.getD i VK_NULL_HANDLE
        renderArea := ((0, 0), (framebuffer.width, framebuffer.height))
        clearValueCount := 2 }
    emit (.beginCommandBuffer i (answer i).1)
    VK_CHECK_RESULT .main 58 (answer i).1
    emit (.cmdBeginRenderPass i renderPassBeginInfo)
    emit (.cmdEndRenderPass i)
    emit (.endCommandBuffer i (answer i).2)
    VK_CHECK_RESULT .main 69 (answer i).2
    ToyWorld.build_command_buffer.loop framebuffer answer n (i + 1)

/-- Source `ToyWorld::build_command_buffer` (called by `ToyWorld::init`). -/
def ToyWorld.build_command_buffer (logical_device : LogicalDevice) (framebuffer : Framebuffer)
    (answer : Nat → VkResult × VkResult) : Run Unit :=
  ToyWorld.build_command_buffer.loop framebuffer answer logical_device.command_buffer.length 0

/-- The objects `main` declares in lines 92-96. -/
structure MainState where
  framebuffer : Framebuffer
  logical_device : LogicalDevice
  synchronization : Synchronization
  swapchain : SwapChain
  window : Window
  deriving DecidableEq, Repr

/-- What the device and the driver answer during lines 108-121 of `main`. -/
structure SetupAnswer where
  create : CreateAnswer
  command_pool : VkResult × Option Handle
  queue_graphics : Handle
  queue_compute : Handle
  command_buffers : AllocateAnswer
  synchronization : SynchronizationAnswer
  depth_stencil : DepthStencilAnswer
  render_pass : VkResult × Option Handle
  framebuffer : Nat → VkResult × Handle
  record : Nat → VkResult × VkResult

/-- Source `main`, lines 108-121: from the creation of the swapchain to
`world.init`; returns the objects of `main`. -/
def mainSetup (env : SetupAnswer) (m : MainState) : Run MainState := do
  let swapchain ← create WINDOW_WIDTH WINDOW_HEIGHT m.window.surface env.create m.swapchain
  let command_pool ← create_command_pool m.logical_device.queue_family_indices.graphics
    m.logical_device.command_pool env.command_pool
  let logical_device := { m.logical_device with command_pool := command_pool }
  let logical_device ← create_queues logical_device env.queue_graphics env.queue_compute
  let command_buffer ← create_command_buffer swapchain.imagecount logical_device.command_pool
    logical_device.command_buffer env.command_buffers
  let logical_device := { logical_device with command_buffer := command_buffer }
  let synchronization ← create_synchronization logical_device.command_buffer m.synchronization
    env.synchronization
  let depth_stencil ← setup_depth_stencil WINDOW_WIDTH WINDOW_HEIGHT
    logical_device.memory_properties env.depth_stencil m.framebuffer.depth_stencil
  let framebuffer := { m.framebuffer with depth_stencil := depth_stencil }
  let render_pass ← setup_render_pass swapchain.color_format
    framebuffer.depth_stencil.depth_format framebuffer.render_pass env.render_pass
  let framebuffer := { framebuffer with render_pass := render_pass }
  let framebuffer ← setup_framebuffer_from_swapchain WINDOW_WIDTH WINDOW_HEIGHT
    swapchain.imagecount swapchain.views swapchain.color_format swapchain.color_space
    framebuffer env.framebuffer
  ToyWorld.build_command_buffer logical_device framebuffer env.record
  Run.pure
    { framebuffer := framebuffer, logical_device := logical_device,
      synchronization := synchronization, swapchain := swapchain, window := m.window }

end clearscreen

/-! ## Reading traces -/

namespace trace

/-- The slots of the per-image vectors (`wait_fences`, `command_buffer`, the
swapchain images) that a call addresses. -/
def slotsOf : Call → List Nat
  | .waitForFences slot _ _ => [slot]
  | .resetFences slot _ => [slot]
  | .queueSubmit _ cmdSlot _ _ _ fenceSlot _ => [cmdSlot, fenceSlot]
  | .queuePresent _ _ imageIndex _ _ => [imageIndex]
  | _ => []

/-- The steps of one pass of the frame loop that the ordering claims speak of. -/
inductive Step where
  | polledEvent
  | polledNull
  | advance
  | acquire
  | draw
  | wait (slot : Nat)
  | reset (slot : Nat)
  | submit (cmdSlot : Nat) (fenceSlot : Nat)
  | present (imageIndex : Nat)
  deriving DecidableEq, Repr

/-- The step a call stands for, if it is one of them. -/
def stepOf : Call → Option Step
  | .pollForEvent (some _) => some .polledEvent
  | .pollForEvent none => some .polledNull
  | .advance _ => some .advance
  | .acquireNextImage _ _ _ _ _ _ => some .acquire
  | .draw => some .draw
  | .waitForFences slot _ _ => some (.wait slot)
  | .resetFences slot _ => some (.reset slot)
  | .queueSubmit _ cmdSlot _ _ _ fenceSlot _ => some (.submit cmdSlot fenceSlot)
  | .queuePresent _ _ imageIndex _ _ => some (.present imageIndex)
  | _ => none

/-- The graphics calls among the steps. -/
def Step.isGraphics : Step → Bool
  | .acquire | .wait _ | .reset _ | .submit _ _ | .present _ => true
  | _ => false

/-- What is known on the host about the fence of a slot. -/
inductive FenceState where
  /-- Signaled: created so, or a wait on it has returned `VK_SUCCESS`. -/
  | signaled
  /-- Unsignaled and not handed to a submission: reset after being signaled. -/
  | unsignaled
  /-- Handed to a queue submission that has not been waited for since. -/
  | pending
  deriving DecidableEq, Repr

/-- One call seen by the fence monitor.  A successful wait on a slot makes its
fence signaled, a successful reset makes a signaled fence unsignaled, and a
submission is accepted only if it pairs the command buffer of a slot with the
fence of the same slot and that fence is unsignaled; it then leaves the fence
pending.  `none` means the call was not accepted. -/
def fenceStep (fences : Nat → FenceState) : Call → Option (Nat → FenceState)
  | .waitForFences slot _ res =>
    some (if res = VK_SUCCESS then Function.update fences slot .signaled else fences)
  | .resetFences slot res =>
    some (if res = VK_SUCCESS ∧ fences slot = .signaled then
            Function.update fences slot .unsignaled else fences)
  | .queueSubmit _ cmdSlot _ _ _ fenceSlot _ =>
    if cmdSlot = fenceSlot ∧ fences fenceSlot = .unsignaled then
      some (Function.update fences fenceSlot .pending)
    else none
  | _ => some fences

/-- The fence monitor run over a trace. -/
def fenceMonitor : List Call → (Nat → FenceState) → Option (Nat → FenceState)
  | [], fences => some fences
  | c :: rest, fences =>
    match fenceStep fences c with
    | some fences => fenceMonitor rest fences
    | none => none

/-- The calls one pass of the frame loop can issue. -/
def isFrameCall : Call → Bool
  | .pollForEvent _ | .freeEvent | .advance _ | .draw => true
  | .acquireNextImage _ _ _ _ _ _ | .waitForFences _ _ _ | .resetFences _ _ => true
  | .queueSubmit _ _ _ _ _ _ _ | .queuePresent _ _ _ _ _ | .fatalDiag _ _ _ => true
  | _ => false

/-- Calls that release a pooled Vulkan object.  The sources make such calls
only in `flush_command_buffer`. -/
def isRelease : Call → Bool
  | .destroyFence => true
  | .freeCommandBuffers _ => true
  | _ => false

/-- Calls by which a swapchain or its image views are (re)built; the sources
make them only in `create`. -/
def isRebuild : Call → Bool
  | .createSwapchain _ _ => true
  | .getSwapchainImages _ => true
  | .createImageView _ _ _ => true
  | _ => false

/-- The calls of the event drain of `main` when the given events are polled. -/
def drainCalls : List XcbEvent → List Call
  | [] => [.pollForEvent none]
  | event :: rest => .pollForEvent (some event) :: .freeEvent :: drainCalls rest

/-- The window after `handle_events` has seen the given events in order. -/
def handleAll : List XcbEvent → windowmanager.xcb.Window → windowmanager.xcb.Window
  | [], window => window
  | event :: rest, window => handleAll rest (windowmanager.xcb.handle_events event window)

/-- The `minImageCount` of the create-info of each swapchain creation in a
trace, in order. -/
def requestedImageCounts : List Call → List Nat
  | [] => []
  | .createSwapchain info _ :: rest => info.minImageCount :: requestedImageCounts rest
  | _ :: rest => requestedImageCounts rest

/-- The create-info of a framebuffer creation. -/
def framebufferInfoOf : Call → Option VkFramebufferCreateInfo
  | .createFramebuffer info _ => some info
  | _ => none

/-- The create-infos of the framebuffer creations in a trace, in order. -/
def framebufferInfos (t : List Call) : List VkFramebufferCreateInfo :=
  t.filterMap framebufferInfoOf

/-- The slot of the command buffer and the framebuffer targeted, for the begin
of a render pass. -/
def renderTargetOf : Call → Option (Nat × Handle)
  | .cmdBeginRenderPass cmdSlot info => some (cmdSlot, info.framebuffer)
  | _ => none

/-- The render passes begun in a trace, in order: the slot of the command
buffer recorded into and the framebuffer targeted. -/
def renderTargets (t : List Call) : List (Nat × Handle) :=
  t.filterMap renderTargetOf

/-- The slot of the image and the format, for the creation of a swapchain image
view. -/
def imageViewOf : Call → Option (Nat × VkFormat)
  | .createImageView slot format _ => some (slot, format)
  | _ => none

/-- The swapchain image views created in a trace, in order: the slot of the
image and the format of the view. -/
def imageViews (t : List Call) : List (Nat × VkFormat) :=
  t.filterMap imageViewOf

/-- The format and color space of the create-info of a swapchain creation. -/
def requestedFormatOf : Call → Option (VkFormat × VkColorSpaceKHR)
  | .createSwapchain info _ => some (info.imageFormat, info.imageColorSpace)
  | _ => none

/-- The format and color space of the create-info of each swapchain creation
in a trace, in order. -/
def requestedFormats (t : List Call) : List (VkFormat × VkColorSpaceKHR) :=
  t.filterMap requestedFormatOf

/-- Calls that none of `framebufferInfos`, `renderTargets` and `imageViews` reads. -/
def isOtherSetupCall : Call → Bool
  | .createFramebuffer _ _ | .cmdBeginRenderPass _ _ | .createImageView _ _ _ => false
  | _ => true

/-- The calls of the frame loop that take semaphores: the acquire, the queue
submission and the present. -/
def takesSemaphores : Call → Bool
  | .acquireNextImage _ _ _ _ _ _ | .queueSubmit _ _ _ _ _ _ _ | .queuePresent _ _ _ _ _ => true
  | _ => false

/-- The semaphores of one call of the frame loop are those of the chain built
on `present_complete` and `render_complete`: the acquire signals
`present_complete` and no fence; a submission waits on `present_complete` alone,
at the color-attachment-output stage, signals `render_complete` alone and the
fence of the slot of its command buffer; a present waits on the semaphores
`presentWaits`. -/
def semaphoreChain (present_complete render_complete : Handle) (presentWaits : List Handle) :
    Call → Bool
  | .acquireNextImage _ _ semaphore fence _ _ =>
    decide (semaphore = present_complete ∧ fence = VK_NULL_HANDLE)
  | .queueSubmit _ cmdSlot waitSemaphores waitStages signalSemaphores fenceSlot _ =>
    decide (waitSemaphores = [present_complete] ∧
      waitStages = [VK_PIPELINE_STAGE_COLOR_ATTACHMENT_OUTPUT_BIT] ∧
      signalSemaphores = [render_complete] ∧ fenceSlot = cmdSlot)
  | .queuePresent _ _ _ waitSemaphores _ => decide (waitSemaphores = presentWaits)
  | _ => true

/-- The number of queries of the surface formats in a trace. -/
def formatQueries : List Call → Nat
  | [] => 0
  | .getSurfaceFormats _ :: rest => formatQueries rest + 1
  | _ :: rest => formatQueries rest

/-- The queue family indices named by the queue create-infos of each device
creation in a trace, in order. -/
def requestedQueueFamilies : List Call → List (List Nat)
  | [] => []
  | .createDevice queueCreateInfos _ :: rest =>
    queueCreateInfos.map Prod.fst :: requestedQueueFamilies rest
  | _ :: rest => requestedQueueFamilies rest

/-- The create flags of the fences created in a trace, in order. -/
def fenceFlags : List Call → List VkFlags
  | [] => []
  | .createFence flags _ :: rest => flags :: fenceFlags rest
  | _ :: rest => fenceFlags rest

end trace

/-! ## Concrete inputs -/

namespace sample

open vulkan vulkan.swapchain windowmanager.xcb clearscreen

/-- A logical device with three command buffers. -/
def device : LogicalDevice :=
  { physical_device := 1, device := 2, command_pool := 3, command_buffer := [10, 11, 12],
    queue_graphics := 4, queue_compute := 5 }

/-- Semaphores and three fences. -/
def sync : Synchronization :=
  { present_complete := 20, render_complete := 21, overlay_complete := 22,
    wait_fences := [30, 31, 32] }

/-- The loop variables of `main` before the first pass, for a swapchain of
three images; the `WM_DELETE_WINDOW` atom is 99. -/
def state : LoopState :=
  { window := { is_alive := false, surface := 40, connection := 41, screen := 42, window := 43,
                atom_wm_delete_window := 99 }
    swapchain := { current_buffer := 0, swapchain := 50, color_format := VK_FORMAT_B8G8R8A8_UNORM,
                   color_space := 0, imagecount := 3, images := [60, 61, 62],
                   views := [70, 71, 72] }
    iteration_counter := 0 }

/-- All four calls of `render_and_swap` succeed. -/
def renderOk : RenderAnswer :=
  { waitRes := VK_SUCCESS, resetRes := VK_SUCCESS, submitRes := VK_SUCCESS,
    presentRes := VK_SUCCESS }

/-- A pass without events in which image `i` is acquired and every call succeeds. -/
def frame (i : Nat) : FrameInput :=
  { events := [], acquireRes := VK_SUCCESS, acquireWritten := some i, render := renderOk }

/-- A pass like `frame i` in which the close message of the window manager is
polled first. -/
def closeFrame (i : Nat) : FrameInput :=
  { frame i with events := [{ response_type := XCB_CLIENT_MESSAGE, data32_0 := 99 }] }

/-- A pass in which the acquire reports `VK_ERROR_OUT_OF_DATE_KHR`. -/
def outOfDateAcquire : FrameInput :=
  { events := [], acquireRes := VK_ERROR_OUT_OF_DATE_KHR, acquireWritten := none,
    render := renderOk }

/-- A pass in which image `i` is acquired and the present call reports
`VK_ERROR_OUT_OF_DATE_KHR`. -/
def outOfDatePresent (i : Nat) : FrameInput :=
  { frame i with render := { renderOk with presentRes := VK_ERROR_OUT_OF_DATE_KHR } }

/-- Semaphores of which `render_complete` is `VK_NULL_HANDLE`, and three fences. -/
def syncNoRender : Synchronization :=
  { present_complete := 20, render_complete := VK_NULL_HANDLE, overlay_complete := 22,
    wait_fences := [30, 31, 32] }

/-- The loop variables of `sample.state` with `window.is_alive` set, as at the
head of a pass. -/
def aliveState : LoopState :=
  { state with window := { state.window with is_alive := true } }

/-- A capability report whose `minImageCount` is the largest `uint32_t` and
which names no maximum. -/
def wrapCaps : VkSurfaceCapabilitiesKHR :=
  { minImageCount := UINT32_MAX, maxImageCount := 0, supportedTransforms := 1,
    currentTransform := 1, supportedCompositeAlpha := 1, supportedUsageFlags := 0 }

/-- A capability report of a usual device: at least two images, at most three. -/
def usualCaps : VkSurfaceCapabilitiesKHR :=
  { minImageCount := 2, maxImageCount := 3, supportedTransforms := 1,
    currentTransform := 1, supportedCompositeAlpha := 1, supportedUsageFlags := 0 }

/-- Answers of a device inside `create` with the given capability report: all
calls succeed and the swapchain gets three images. -/
def createAnswer (surfCaps : VkSurfaceCapabilitiesKHR) : CreateAnswer :=
  { capsRes := VK_SUCCESS, surfCaps := surfCaps, presentModesRes1 := VK_SUCCESS,
    presentModeCount := 1, presentModesRes2 := VK_SUCCESS, createRes := VK_SUCCESS,
    newSwapchain := some 51, imagesRes1 := VK_SUCCESS, imagecount := some 3,
    imagesRes2 := VK_SUCCESS, image := fun i => 60 + i, view := fun i => (VK_SUCCESS, 70 + i) }

/-- Answers of a driver inside `create_synchronization`: every creation succeeds. -/
def syncAnswer : SynchronizationAnswer :=
  { present_complete := (VK_SUCCESS, some 20), render_complete := (VK_SUCCESS, some 21),
    overlay_complete := (VK_SUCCESS, some 22), fence := fun i => (VK_SUCCESS, 30 + i) }

/-- Answer of a driver to `vkAllocateCommandBuffers`: success. -/
def allocAnswer : AllocateAnswer :=
  { res := VK_SUCCESS, handle := fun i => 10 + i }

/-- A `Framebuffer` object with a render pass and a depth-stencil view, before
any framebuffer is created. -/
def framebuffer : Framebuffer :=
  { width := 0, height := 0, size := 0, render_pass := 80, framebuffer := []
    depth_stencil := { image := 81, mem := 82, view := 83, depth_format := VK_FORMAT_D16_UNORM }
    color := { color_format := VK_FORMAT_UNDEFINED, color_space := 0 } }

/-- Answers of a driver to the framebuffer creations: success, with handle
`90 + i` for slot `i`. -/
def framebufferAnswer : Nat → VkResult × Handle := fun i => (VK_SUCCESS, 90 + i)

/-- Answers of a device inside `setup_depth_stencil`: only D16_UNORM qualifies,
the image may live in memory type 0, and every call succeeds. -/
def depthAnswer : DepthStencilAnswer :=
  { optimalTilingFeatures := fun f => if f = VK_FORMAT_D16_UNORM then 0x200 else 0
    imageRes := VK_SUCCESS, image := some 81, memReqsSize := 4096, memoryTypeBits := 1
    allocRes := VK_SUCCESS, mem := some 82, bindRes := VK_SUCCESS
    viewRes := VK_SUCCESS, view := some 83 }

/-- The objects of `main` before line 108: nothing created yet, one memory
type that is device local, and the negotiated color format. -/
def mainState : MainState :=
  { framebuffer :=
      { width := 0, height := 0, size := 0, render_pass := 0, framebuffer := []
        depth_stencil := { image := 0, mem := 0, view := 0, depth_format := 0 }
        color := { color_format := 0, color_space := 0 } }
    logical_device :=
      { physical_device := 1, device := 2, command_pool := 0, command_buffer := []
        queue_graphics := 0, queue_compute := 0
        memory_properties := { memoryTypeCount := 1, memoryTypes := [1] } }
    synchronization :=
      { present_complete := 0, render_complete := 0, overlay_complete := 0, wait_fences := [] }
    swapchain :=
      { current_buffer := 0, swapchain := 0, color_format := VK_FORMAT_B8G8R8A8_UNORM,
        color_space := 0, imagecount := 0, images := [], views := [] }
    window := state.window }

/-- Answers of the device and the driver during lines 108-121 of `main`: every
call succeeds and the swapchain gets three images. -/
def setupAnswer : SetupAnswer :=
  { create := createAnswer usualCaps
    command_pool := (VK_SUCCESS, some 3)
    queue_graphics := 4
    queue_compute := 5
    command_buffers := allocAnswer
    synchronization := syncAnswer
    depth_stencil := depthAnswer
    render_pass := (VK_SUCCESS, some 80)
    framebuffer := framebufferAnswer
    record := fun _ => (VK_SUCCESS, VK_SUCCESS) }

end sample
end ct

/-! ## Laws of `Run` -/

namespace ct
namespace Run

theorem bind_def {α β : Type} (x : Run α) (f : α → Run β) : (x >>= f) = Run.bind x f := rfl

theorem pure_def {α : Type} (a : α) : (Pure.pure a : Run α) = Run.pure a := rfl

@[simp] theorem run_pure_bind {α β : Type} (a : α) (f : α → Run β) :
    (Run.pure a >>= f) = f a := by
  simp [bind_def, Run.bind, Run.pure]

@[simp] theorem emit_bind {β : Type} (c : Call) (f : Unit → Run β) :
    (emit c >>= f) = ⟨c :: (f ()).trace, (f ()).result⟩ := by
  simp [bind_def, Run.bind, emit]

@[simp] theorem halt_bind {α β : Type} (h : Halt) (f : α → Run β) :
    ((halt h : Run α) >>= f) = halt h := by
  simp [bind_def, Run.bind, halt]

@[simp] theorem mk_error_bind {α β : Type} (t : List Call) (h : Halt) (f : α → Run β) :
    ((⟨t, .error h⟩ : Run α) >>= f) = ⟨t, .error h⟩ := by
  simp [bind_def, Run.bind]

@[simp] theorem mk_ok_bind {α β : Type} (t : List Call) (a : α) (f : α → Run β) :
    ((⟨t, .ok a⟩ : Run α) >>= f) = ⟨t ++ (f a).trace, (f a).result⟩ := by
  simp [bind_def, Run.bind]

@[simp] theorem trace_pure {α : Type} (a : α) : (Run.pure a).trace = [] := rfl
@[simp] theorem result_pure {α : Type} (a : α) : (Run.pure a).result = .ok a := rfl
@[simp] theorem trace_halt {α : Type} (h : Halt) : (halt h : Run α).trace = [] := rfl
@[simp] theorem result_halt {α : Type} (h : Halt) : (halt h : Run α).result = .error h := rfl

end Run

namespace vulkan
open Run

@[simp] theorem check_bind {β : Type} (file : SourceFile) (line : Nat) (res : VkResult)
    (f : Unit → Run β) :
    (VK_CHECK_RESULT file line res >>= f) =
      if res = VK_SUCCESS then f () else ⟨[.fatalDiag res file line], .error .abort⟩ := by
  unfold VK_CHECK_RESULT
  by_cases h : res = VK_SUCCESS
  · simp [h]
  · simp [h, halt]

theorem check_eq (file : SourceFile) (line : Nat) (res : VkResult) :
    VK_CHECK_RESULT file line res =
      if res = VK_SUCCESS then Run.pure () else ⟨[.fatalDiag res file line], .error .abort⟩ := by
  unfold VK_CHECK_RESULT
  by_cases h : res = VK_SUCCESS
  · simp [h]
  · simp [h, halt]

@[simp] theorem assert_bind {β : Type} (cond : Bool) (f : Unit → Run β) :
    (assert cond >>= f) = if cond then f () else ⟨[], .error .abort⟩ := by
  unfold assert
  cases cond <;> simp [halt]

/-! ### Depth format -/

theorem probe_none_iff (features : VkFormat → VkFlags) (formats : List VkFormat) :
    get_supported_depth_format.probe features formats = none ↔
      ∀ f ∈ formats, depthFormatOk features f = false := by
  induction formats with
  | nil => simp [get_supported_depth_format.probe]
  | cons f rest ih =>
    by_cases h : depthFormatOk features f = true
    · simp [get_supported_depth_format.probe, h]
    · simp [get_supported_depth_format.probe, h, ih]

theorem probe_first (features : VkFormat → VkFlags) (before : List VkFormat) (f : VkFormat)
    (after : List VkFormat) (hbefore : ∀ g ∈ before, depthFormatOk features g = false)
    (hf : depthFormatOk features f = true) :
    get_supported_depth_format.probe features (before ++ f :: after) = some f := by
  induction before with
  | nil => simp [get_supported_depth_format.probe, hf]
  | cons g rest ih =>
    have hg : depthFormatOk features g = false := hbefore g (List.mem_cons_self _ _)
    simp only [List.cons_append, get_supported_depth_format.probe, hg, Bool.false_eq_true,
      if_false]
    exact ih (fun x hx => hbefore x (List.mem_cons_of_mem _ hx))

/-- C9: `get_supported_depth_format` probes the formats in the fixed order
D32_SFLOAT_S8_UINT, D32_SFLOAT, D24_UNORM_S8_UINT, D16_UNORM_S8_UINT,
D16_UNORM.  For every table of optimal-tiling features it returns `VK_TRUE`
with `depthFormat` set to the first format of that order whose features contain
the depth-stencil attachment bit; it returns `VK_FALSE` with `depthFormat`
unchanged exactly when none of the five qualifies; and a device that supports
only D16_UNORM gets `VK_TRUE` and D16_UNORM. -/
theorem get_supported_depth_format_first_supported (features : VkFormat → VkFlags)
    (depthFormat : VkFormat) :
    depthFormats = [VK_FORMAT_D32_SFLOAT_S8_UINT, VK_FORMAT_D32_SFLOAT,
      VK_FORMAT_D24_UNORM_S8_UINT, VK_FORMAT_D16_UNORM_S8_UINT, VK_FORMAT_D16_UNORM] ∧
    (∀ before f after, depthFormats = before ++ f :: after →
      (∀ g ∈ before, depthFormatOk features g = false) → depthFormatOk features f = true →
      get_supported_depth_format features depthFormat = (VK_TRUE, f)) ∧
    ((∀ f ∈ depthFormats, depthFormatOk features f = false) →
      get_supported_depth_format features depthFormat = (VK_FALSE, depthFormat)) ∧
    ((get_supported_depth_format features depthFormat).1 = VK_FALSE ↔
      ∀ f ∈ depthFormats, depthFormatOk features f = false) ∧
    ((∀ f ∈ depthFormats, depthFormatOk features f = true ↔ f = VK_FORMAT_D16_UNORM) →
      get_supported_depth_format features depthFormat = (VK_TRUE, VK_FORMAT_D16_UNORM)) := by
  have hfirst : ∀ before f after, depthFormats = before ++ f :: after →
      (∀ g ∈ before, depthFormatOk features g = false) → depthFormatOk features f = true →
      get_supported_depth_format features depthFormat = (VK_TRUE, f) := by
    intro before f after hsplit hbefore hf
    unfold get_supported_depth_format
    rw [hsplit, probe_first features before f after hbefore hf]
  refine ⟨rfl, hfirst, ?_, ?_, ?_⟩
  · intro hnone
    unfold get_supported_depth_format
    rw [(probe_none_iff features depthFormats).2 hnone]
  · unfold get_supported_depth_format
    constructor
    · intro h
      cases hp : get_supported_depth_format.probe features depthFormats with
      | none => exact (probe_none_iff features depthFormats).1 hp
      | some f =>
        rw [hp] at h
        simp [VK_TRUE, VK_FALSE] at h
    · intro hnone
      rw [(probe_none_iff features depthFormats).2 hnone]
  · intro honly
    refine hfirst [VK_FORMAT_D32_SFLOAT_S8_UINT, VK_FORMAT_D32_SFLOAT,
      VK_FORMAT_D24_UNORM_S8_UINT, VK_FORMAT_D16_UNORM_S8_UINT] VK_FORMAT_D16_UNORM [] rfl ?_ ?_
    · intro g hg
      have hmem : g ∈ depthFormats := by
        simp only [depthFormats, List.mem_cons] at hg ⊢
        tauto
      have hne : g ≠ VK_FORMAT_D16_UNORM := by
        simp only [List.mem_cons, List.mem_singleton, List.not_mem_nil, or_false] at hg
        rcases hg with rfl | rfl | rfl | rfl <;> decide
      have := honly g hmem
      cases hok : depthFormatOk features g with
      | false => rfl
      | true => exact absurd (this.1 hok) hne
    · exact (honly VK_FORMAT_D16_UNORM (by simp [depthFormats])).2 rfl

theorem get_supported_depth_format_first_supported_witness :
    get_supported_depth_format
        (fun f => if f = VK_FORMAT_D16_UNORM then 0x200 else 0) VK_FORMAT_UNDEFINED =
      (VK_TRUE, VK_FORMAT_D16_UNORM) ∧
    get_supported_depth_format
        (fun f => if f = VK_FORMAT_D24_UNORM_S8_UINT ∨ f = VK_FORMAT_D16_UNORM then 0x200 else 0)
        VK_FORMAT_UNDEFINED = (VK_TRUE, VK_FORMAT_D24_UNORM_S8_UINT) ∧
    get_supported_depth_format (fun _ => 0x1ff) 7 = (VK_FALSE, 7) :=
  ⟨(get_supported_depth_format_first_supported _ _).2.2.2.2 (by decide),
   (get_supported_depth_format_first_supported _ _).2.1
     [VK_FORMAT_D32_SFLOAT_S8_UINT, VK_FORMAT_D32_SFLOAT] VK_FORMAT_D24_UNORM_S8_UINT
     [VK_FORMAT_D16_UNORM_S8_UINT, VK_FORMAT_D16_UNORM] rfl (by decide) (by decide),
   (get_supported_depth_format_first_supported _ _).2.2.1 (by decide)⟩

/-! ### Command buffers and fences -/

theorem length_resize (v : List Handle) (n : Nat) : (resize v n).length = n := by
  simp only [resize, List.length_append, List.length_take, List.length_replicate]
  omega

/-- The run of `create_command_buffer` written out. -/
theorem create_command_buffer_eq (imagecount : Nat) (command_pool : Handle)
    (command_buffer : List Handle) (env : AllocateAnswer) :
    create_command_buffer imagecount command_pool command_buffer env =
      let call := Call.allocateCommandBuffers command_pool VK_COMMAND_BUFFER_LEVEL_PRIMARY
        imagecount env.res
      if env.res ≠ VK_SUCCESS then ⟨[call, .fatalDiag env.res .VulkanHelper 315], .error .abort⟩
      else ⟨[call], .ok ((List.range imagecount).map env.handle ++
        (resize command_buffer imagecount).drop imagecount)⟩ := by
  unfold create_command_buffer
  by_cases h : env.res = VK_SUCCESS
  · simp [h, Run.pure]
  · simp [h]

/-- The fence loop of `create_synchronization`: every fence it creates has the
signaled flag; when it returns it has created one fence per slot; and it
returns when the driver reports success for each slot. -/
theorem fences_spec (fence : Nat → VkResult × Handle) (todo : List Handle) :
    ∀ i,
      (∃ k, k ≤ todo.length ∧
        trace.fenceFlags (create_synchronization.fences fence todo i).trace =
          List.replicate k VK_FENCE_CREATE_SIGNALED_BIT) ∧
      (∀ fs, (create_synchronization.fences fence todo i).result = .ok fs →
        fs.length = todo.length ∧
        trace.fenceFlags (create_synchronization.fences fence todo i).trace =
          List.replicate todo.length VK_FENCE_CREATE_SIGNALED_BIT) ∧
      ((∀ j, j < todo.length → (fence (i + j)).1 = VK_SUCCESS) →
        ∃ fs, (create_synchronization.fences fence todo i).result = .ok fs) := by
  induction todo with
  | nil =>
    intro i
    refine ⟨⟨0, le_refl _, rfl⟩, ?_, fun _ => ⟨[], rfl⟩⟩
    intro fs h
    simp only [create_synchronization.fences, result_pure, Except.ok.injEq] at h
    subst h
    exact ⟨rfl, rfl⟩
  | cons x rest ih =>
    intro i
    obtain ⟨⟨k, hk, hflags⟩, hok, hall⟩ := ih (i + 1)
    unfold create_synchronization.fences
    by_cases h : (fence i).1 = VK_SUCCESS
    · rcases hr : create_synchronization.fences fence rest (i + 1) with ⟨t, r⟩
      rw [hr] at hflags hok hall
      simp only [] at hflags hok hall
      cases r with
      | error e =>
        refine ⟨⟨k + 1, by simp only [List.length_cons]; omega, ?_⟩, ?_, ?_⟩
        · simp [h, trace.fenceFlags, hflags, List.replicate_succ]
        · intro fs hfs
          simp [h] at hfs
        · intro hsucc
          have := hall (fun j hj => by
            have := hsucc (j + 1) (by simp only [List.length_cons]; omega)
            rwa [show i + (j + 1) = i + 1 + j by omega] at this)
          simp at this
      | ok fs' =>
        obtain ⟨hlen, hfl⟩ := hok fs' rfl
        refine ⟨⟨rest.length + 1, by simp, ?_⟩, ?_, ?_⟩
        · simp [h, trace.fenceFlags, hfl, List.replicate_succ, Run.pure]
        · intro fs hfs
          simp only [h, check_bind, if_true, emit_bind, mk_ok_bind, Run.pure,
            List.append_nil, Except.ok.injEq] at hfs ⊢
          subst hfs
          exact ⟨by simp [hlen], by simp [trace.fenceFlags, hfl, List.replicate_succ]⟩
        · intro _
          exact ⟨(fence i).2 :: fs', by simp [h, Run.pure]⟩
    · refine ⟨⟨1, by simp, ?_⟩, ?_, ?_⟩
      · simp [h, trace.fenceFlags]
      · intro fs hfs
        simp [h] at hfs
      · intro hsucc
        exact absurd (hsucc 0 (by simp)) h

/-- The run of `create_synchronization` in terms of its fence loop. -/
theorem create_synchronization_eq (command_buffer : List Handle) (sync : Synchronization)
    (env : SynchronizationAnswer) :
    create_synchronization command_buffer sync env =
      let loop := create_synchronization.fences env.fence
        (resize sync.wait_fences command_buffer.length) 0
      ⟨Call.createSemaphore env.present_complete.1 ::
        Call.createSemaphore env.render_complete.1 ::
        Call.createSemaphore env.overlay_complete.1 :: loop.trace,
       match loop.result with
       | .ok fs => .ok
           { present_complete := env.present_complete.2.getD sync.present_complete
             render_complete := env.render_complete.2.getD sync.render_complete
             overlay_complete := env.overlay_complete.2.getD sync.overlay_complete
             wait_fences := fs }
       | .error h => .error h⟩ := by
  unfold create_synchronization
  rcases hr : create_synchronization.fences env.fence
    (resize sync.wait_fences command_buffer.length) 0 with ⟨t, r⟩
  cases r <;> simp [hr, Run.pure]

/-- C2: for every image count `N`, when `create_command_buffer(N, ...)` has
returned the command buffers, there are `N` of them, and
`create_synchronization` creates every fence with the signaled flag; when it
returns, the pool holds exactly `N` fences, one per command buffer, and exactly
`N` fences were created, all signaled; and it does return whenever the driver
reports success for each of the `N` fences (the semaphore results play no part). -/
theorem fences_one_per_image_and_signaled (imagecount : Nat) (command_pool : Handle)
    (old_buffers : List Handle) (alloc : AllocateAnswer) (sync : Synchronization)
    (env : SynchronizationAnswer) (command_buffer : List Handle)
    (hcb : (create_command_buffer imagecount command_pool old_buffers alloc).result =
      .ok command_buffer) :
    command_buffer.length = imagecount ∧
    (∀ flags ∈ trace.fenceFlags (create_synchronization command_buffer sync env).trace,
      flags = VK_FENCE_CREATE_SIGNALED_BIT) ∧
    (∀ sync', (create_synchronization command_buffer sync env).result = .ok sync' →
      sync'.wait_fences.length = imagecount ∧
      sync'.wait_fences.length = command_buffer.length ∧
      trace.fenceFlags (create_synchronization command_buffer sync env).trace =
        List.replicate imagecount VK_FENCE_CREATE_SIGNALED_BIT) ∧
    ((∀ i, i < imagecount → (env.fence i).1 = VK_SUCCESS) →
      ∃ sync', (create_synchronization command_buffer sync env).result = .ok sync') := by
  have hlen : command_buffer.length = imagecount := by
    rw [create_command_buffer_eq] at hcb
    simp only [] at hcb
    split_ifs at hcb
    simp only [Except.ok.injEq] at hcb
    rw [← hcb]
    simp [length_resize]
  obtain ⟨⟨k, _, hflags⟩, hok, hall⟩ := fences_spec env.fence
    (resize sync.wait_fences command_buffer.length) 0
  rw [length_resize] at hok hall
  rw [create_synchronization_eq]
  simp only [trace.fenceFlags]
  refine ⟨hlen, ?_, ?_, ?_⟩
  · intro flags hf
    rw [hflags] at hf
    exact (List.mem_replicate.1 hf).2
  · intro sync' hs
    split at hs
    · rename_i fs hfs
      obtain ⟨h1, h2⟩ := hok fs hfs
      simp only [Except.ok.injEq] at hs
      subst hs
      simp only []
      rw [h2, h1, hlen]
      exact ⟨rfl, rfl, rfl⟩
    · simp at hs
  · intro hsucc
    obtain ⟨fs, hfs⟩ := hall (fun j hj => by
      have := hsucc j (by omega)
      simpa using this)
    rw [hfs]
    exact ⟨_, rfl⟩

theorem fences_one_per_image_and_signaled_witness :
    (∃ sync', (create_synchronization [10, 11, 12] sample.sync sample.syncAnswer).result =
      .ok sync') ∧
    trace.fenceFlags (create_synchronization [10, 11, 12] sample.sync sample.syncAnswer).trace =
      [VK_FENCE_CREATE_SIGNALED_BIT, VK_FENCE_CREATE_SIGNALED_BIT,
       VK_FENCE_CREATE_SIGNALED_BIT] := by
  have h := fences_one_per_image_and_signaled 3 3 [] sample.allocAnswer sample.sync
    sample.syncAnswer [10, 11, 12] rfl
  obtain ⟨sync', hs⟩ := h.2.2.2 (fun _ _ => rfl)
  exact ⟨⟨sync', hs⟩, (h.2.2.1 sync' hs).2.2⟩

namespace swapchain

/-- The calls of `render_and_swap` when every result is `VK_SUCCESS` up to the
call in question. -/
theorem render_and_swap_eq (ld : LogicalDevice) (sc : SwapChain) (sync : Synchronization)
    (env : RenderAnswer) :
    render_and_swap ld sc sync env =
      let wait := Call.waitForFences sc.current_buffer UINT64_MAX env.waitRes
      let reset := Call.resetFences sc.current_buffer env.resetRes
      let submit := Call.queueSubmit ld.queue_graphics sc.current_buffer
        [sync.present_complete] [VK_PIPELINE_STAGE_COLOR_ATTACHMENT_OUTPUT_BIT]
        [sync.render_complete] sc.current_buffer env.submitRes
      let present := Call.queuePresent ld.queue_graphics sc.swapchain sc.current_buffer
        (if sync.render_complete ≠ VK_NULL_HANDLE then [sync.render_complete] else [])
        env.presentRes
      if env.waitRes ≠ VK_SUCCESS then
        ⟨[wait, .fatalDiag env.waitRes .SwapChainHelper 279], .error .abort⟩
      else if env.resetRes ≠ VK_SUCCESS then
        ⟨[wait, reset, .fatalDiag env.resetRes .SwapChainHelper 280], .error .abort⟩
      else if env.submitRes ≠ VK_SUCCESS then
        ⟨[wait, reset, submit, .fatalDiag env.submitRes .SwapChainHelper 296], .error .abort⟩
      else if env.presentRes ≠ VK_SUCCESS then
        ⟨[wait, reset, submit, present, .fatalDiag env.presentRes .SwapChainHelper 310],
          .error .abort⟩
      else ⟨[wait, reset, submit, present], .ok ()⟩ := by
  unfold render_and_swap
  by_cases h1 : env.waitRes = VK_SUCCESS
  · by_cases h2 : env.resetRes = VK_SUCCESS
    · by_cases h3 : env.submitRes = VK_SUCCESS
      · by_cases h4 : env.presentRes = VK_SUCCESS
        · simp [h1, h2, h3, h4, check_eq, Run.pure]
        · simp [h1, h2, h3, h4, check_eq]
      · simp [h1, h2, h3]
    · simp [h1, h2]
  · simp [h1]

theorem acquire_next_image_eq (present_complete : Handle) (res : VkResult)
    (written : Option Nat) (sc : SwapChain) :
    acquire_next_image present_complete res written sc =
      let acquire := Call.acquireNextImage sc.swapchain UINT64_MAX present_complete
        VK_NULL_HANDLE res written
      if res ≠ VK_SUCCESS then
        ⟨[acquire, .fatalDiag res .SwapChainHelper 273], .error .abort⟩
      else
        ⟨[acquire], .ok { sc with current_buffer := written.getD sc.current_buffer }⟩ := by
  unfold acquire_next_image
  by_cases h : res = VK_SUCCESS
  · simp [h, Run.pure]
  · simp [h]

/-! ### Surface format -/

/-- The body of `check_present_support` written out: each way it can end, and
the swapchain it returns. -/
theorem check_present_support_eq (env : PresentSupportAnswer) (sc : SwapChain) :
    check_present_support env sc =
      let gp := check_present_support.queueIndices env.families
      if env.families.length = 0 then ⟨[], .error .abort⟩
      else if gp.1 = UINT32_MAX ∨ gp.2 = UINT32_MAX then
        ⟨[.stderr "Could not find a graphics and/or presenting queue!"], .error (.exit (-1))⟩
      else if gp.1 ≠ gp.2 then
        ⟨[.stderr "Separate graphics and presenting queues are not supported yet!"],
          .error (.exit (-1))⟩
      else if env.formatsRes1 ≠ VK_SUCCESS then
        ⟨[.getSurfaceFormats env.formatsRes1,
          .fatalDiag env.formatsRes1 .SwapChainHelper 117], .error .abort⟩
      else
        match env.surfaceFormats with
        | [] => ⟨[.getSurfaceFormats env.formatsRes1], .error .abort⟩
        | first :: rest =>
          if env.formatsRes2 ≠ VK_SUCCESS then
            ⟨[.getSurfaceFormats env.formatsRes1, .getSurfaceFormats env.formatsRes2,
              .fatalDiag env.formatsRes2 .SwapChainHelper 121], .error .abort⟩
          else
            ⟨[.getSurfaceFormats env.formatsRes1, .getSurfaceFormats env.formatsRes2],
              .ok (check_present_support.selectFormat first rest sc)⟩ := by
  unfold check_present_support
  rcases hgp : check_present_support.queueIndices env.families with ⟨g, p⟩
  simp only []
  by_cases hlen : env.families.length = 0
  · simp [hlen]
  by_cases hq : g = UINT32_MAX ∨ p = UINT32_MAX
  · have hlen' : env.families.length ≥ 1 := Nat.pos_of_ne_zero hlen
    simp [hlen, hlen', hq, error.exit, halt]
  have hlen' : env.families.length ≥ 1 := Nat.pos_of_ne_zero hlen
  have hg : g ≠ UINT32_MAX := fun h => hq (Or.inl h)
  have hp : p ≠ UINT32_MAX := fun h => hq (Or.inr h)
  by_cases hsep : g = p
  · by_cases h1 : env.formatsRes1 = VK_SUCCESS
    · cases hf : env.surfaceFormats with
      | nil => simp [hlen, hlen', hg, hp, hsep, h1, pure_def]
      | cons first rest =>
        by_cases h2 : env.formatsRes2 = VK_SUCCESS
        · simp [hlen, hlen', hg, hp, hsep, h1, h2, pure_def, Run.pure]
        · simp [hlen, hlen', hg, hp, hsep, h1, h2, pure_def]
    · simp [hlen, hlen', hg, hp, hsep, h1, pure_def]
  · simp [hlen, hlen', hg, hp, hsep, pure_def, error.exit, halt]

/-- Whenever `check_present_support` returns, the format list was not empty and
the swapchain returned is the one the format selection yields. -/
theorem check_present_support_returns (env : PresentSupportAnswer) (sc sc' : SwapChain)
    (h : (check_present_support env sc).result = .ok sc') :
    ∃ first rest, env.surfaceFormats = first :: rest ∧
      sc' = check_present_support.selectFormat first rest sc := by
  rw [check_present_support_eq] at h
  simp only [] at h
  cases hf : env.surfaceFormats with
  | nil =>
    rw [hf] at h
    split_ifs at h
  | cons first rest =>
    rw [hf] at h
    refine ⟨first, rest, rfl, ?_⟩
    split_ifs at h
    simp only [Except.ok.injEq] at h
    exact h.symm

theorem findB8G8R8A8_none_iff (formats : List VkSurfaceFormatKHR) :
    check_present_support.findB8G8R8A8 formats = none ↔
      ∀ g ∈ formats, g.format ≠ VK_FORMAT_B8G8R8A8_UNORM := by
  induction formats with
  | nil => simp [check_present_support.findB8G8R8A8]
  | cons f rest ih =>
    by_cases h : f.format = VK_FORMAT_B8G8R8A8_UNORM
    · simp [check_present_support.findB8G8R8A8, h]
    · simp [check_present_support.findB8G8R8A8, h, ih]

theorem findB8G8R8A8_first (before : List VkSurfaceFormatKHR) (sf : VkSurfaceFormatKHR)
    (after : List VkSurfaceFormatKHR)
    (hbefore : ∀ g ∈ before, g.format ≠ VK_FORMAT_B8G8R8A8_UNORM)
    (hsf : sf.format = VK_FORMAT_B8G8R8A8_UNORM) :
    check_present_support.findB8G8R8A8 (before ++ sf :: after) = some sf := by
  induction before with
  | nil => simp [check_present_support.findB8G8R8A8, hsf]
  | cons g rest ih =>
    have hg : g.format ≠ VK_FORMAT_B8G8R8A8_UNORM := hbefore g (List.mem_cons_self _ _)
    simp only [List.cons_append, check_present_support.findB8G8R8A8, hg, if_false]
    exact ih (fun x hx => hbefore x (List.mem_cons_of_mem _ hx))

/-- C7: for a non-empty list of supported surface formats `first :: rest` that
is not the single entry UNDEFINED, the format selection of
`check_present_support` takes B8G8R8A8_UNORM with the color space of the first
entry of the list that has this format, wherever in the list it stands, and
when no entry has it takes the format and color space of the first entry; no
other field of the swapchain changes, and this selection is what
`check_present_support` returns. -/
theorem format_selection_prefers_bgra (first : VkSurfaceFormatKHR)
    (rest : List VkSurfaceFormatKHR) (sc : SwapChain)
    (hnot : ¬(rest = [] ∧ first.format = VK_FORMAT_UNDEFINED)) :
    (∀ before sf after, first :: rest = before ++ sf :: after →
      (∀ g ∈ before, g.format ≠ VK_FORMAT_B8G8R8A8_UNORM) →
      sf.format = VK_FORMAT_B8G8R8A8_UNORM →
      check_present_support.selectFormat first rest sc =
        { sc with color_format := VK_FORMAT_B8G8R8A8_UNORM, color_space := sf.colorSpace }) ∧
    ((∀ g ∈ first :: rest, g.format ≠ VK_FORMAT_B8G8R8A8_UNORM) →
      check_present_support.selectFormat first rest sc =
        { sc with color_format := first.format, color_space := first.colorSpace }) ∧
    (∀ env sc', env.surfaceFormats = first :: rest →
      (check_present_support env sc).result = .ok sc' →
      sc' = check_present_support.selectFormat first rest sc) := by
  have hcond : ¬((first :: rest).length = 1 ∧ first.format = VK_FORMAT_UNDEFINED) := by
    intro h
    apply hnot
    refine ⟨?_, h.2⟩
    have := h.1
    cases rest with
    | nil => rfl
    | cons a b => simp at this
  refine ⟨?_, ?_, ?_⟩
  · intro before sf after hsplit hbefore hsf
    unfold check_present_support.selectFormat
    simp only [hcond, if_false]
    rw [hsplit, findB8G8R8A8_first before sf after hbefore hsf]
    simp [hsf]
  · intro hnone
    unfold check_present_support.selectFormat
    simp only [hcond, if_false]
    rw [(findB8G8R8A8_none_iff (first :: rest)).2 hnone]
  · intro env sc' henv hret
    obtain ⟨f, r, hf, hsc⟩ := check_present_support_returns env sc sc' hret
    rw [henv] at hf
    injection hf with h1 h2
    subst h1 h2
    exact hsc

theorem format_selection_prefers_bgra_witness :
    check_present_support.selectFormat ⟨50, 1⟩ [⟨VK_FORMAT_B8G8R8A8_UNORM, 7⟩,
        ⟨VK_FORMAT_B8G8R8A8_UNORM, 9⟩] sample.state.swapchain =
      { sample.state.swapchain with color_format := VK_FORMAT_B8G8R8A8_UNORM, color_space := 7 } ∧
    check_present_support.selectFormat ⟨50, 1⟩ [⟨37, 7⟩] sample.state.swapchain =
      { sample.state.swapchain with color_format := 50, color_space := 1 } :=
  ⟨(format_selection_prefers_bgra ⟨50, 1⟩ [⟨VK_FORMAT_B8G8R8A8_UNORM, 7⟩,
      ⟨VK_FORMAT_B8G8R8A8_UNORM, 9⟩] sample.state.swapchain (by decide)).1
      [⟨50, 1⟩] ⟨VK_FORMAT_B8G8R8A8_UNORM, 7⟩ [⟨VK_FORMAT_B8G8R8A8_UNORM, 9⟩] rfl
      (by decide) rfl,
   (format_selection_prefers_bgra ⟨50, 1⟩ [⟨37, 7⟩] sample.state.swapchain (by decide)).2.1
      (by decide)⟩

/-- C8: when the surface reports exactly one supported format and it is
UNDEFINED, the format selection of `check_present_support` takes
B8G8R8A8_UNORM as color format and the color space of that single entry, and
this is the swapchain `check_present_support` returns for such a report; with
a family that supports presentation and successful format queries it does
return. -/
theorem single_undefined_format_selects_bgra (colorSpace : VkColorSpaceKHR) (sc : SwapChain) :
    check_present_support.selectFormat ⟨VK_FORMAT_UNDEFINED, colorSpace⟩ [] sc =
      { sc with color_format := VK_FORMAT_B8G8R8A8_UNORM, color_space := colorSpace } ∧
    (∀ env sc', env.surfaceFormats = [⟨VK_FORMAT_UNDEFINED, colorSpace⟩] →
      (check_present_support env sc).result = .ok sc' →
      sc'.color_format = VK_FORMAT_B8G8R8A8_UNORM ∧ sc'.color_space = colorSpace) ∧
    (check_present_support
        { families := [(VK_QUEUE_GRAPHICS_BIT, VK_TRUE)], formatsRes1 := VK_SUCCESS,
          formatsRes2 := VK_SUCCESS,
          surfaceFormats := [⟨VK_FORMAT_UNDEFINED, colorSpace⟩] } sc).result =
      .ok { sc with color_format := VK_FORMAT_B8G8R8A8_UNORM, color_space := colorSpace } := by
  have hsel : check_present_support.selectFormat ⟨VK_FORMAT_UNDEFINED, colorSpace⟩ [] sc =
      { sc with color_format := VK_FORMAT_B8G8R8A8_UNORM, color_space := colorSpace } := by
    simp [check_present_support.selectFormat]
  refine ⟨hsel, ?_, ?_⟩
  · intro env sc' henv hret
    obtain ⟨f, r, hf, hsc⟩ := check_present_support_returns env sc sc' hret
    rw [henv] at hf
    injection hf with h1 h2
    subst h1 h2
    rw [hsc, hsel]
    exact ⟨rfl, rfl⟩
  · rw [check_present_support_eq]
    simp [hsel, check_present_support.queueIndices, check_present_support.firstLoop,
      VK_TRUE, UINT32_MAX, VK_SUCCESS]

theorem single_undefined_format_selects_bgra_witness :
    (check_present_support
        { families := [(VK_QUEUE_GRAPHICS_BIT, VK_TRUE)], formatsRes1 := VK_SUCCESS,
          formatsRes2 := VK_SUCCESS,
          surfaceFormats := [⟨VK_FORMAT_UNDEFINED, 5⟩] } sample.state.swapchain).result =
      .ok { sample.state.swapchain with color_format := VK_FORMAT_B8G8R8A8_UNORM,
                                        color_space := 5 } :=
  (single_undefined_format_selects_bgra 5 sample.state.swapchain).2.2

/-! ### Swapchain creation -/

theorem requestedImageCounts_append (t1 t2 : List Call) :
    trace.requestedImageCounts (t1 ++ t2) =
      trace.requestedImageCounts t1 ++ trace.requestedImageCounts t2 := by
  induction t1 with
  | nil => rfl
  | cons c rest ih => cases c <;> simp [trace.requestedImageCounts, ih]

theorem requestedImageCounts_viewLoop (color_format : VkFormat) (view : Nat → VkResult × Handle)
    (n : Nat) : ∀ i, trace.requestedImageCounts (create.viewLoop color_format view n i).trace = [] := by
  induction n with
  | zero => intro i; rfl
  | succ n ih =>
    intro i
    unfold create.viewLoop
    by_cases h : (view i).1 = VK_SUCCESS
    · rcases hr : create.viewLoop color_format view n (i + 1) with ⟨t, r⟩
      have := ih (i + 1)
      rw [hr] at this
      cases r <;> simpa [h, hr, trace.requestedImageCounts, Run.pure] using this
    · simp [h, trace.requestedImageCounts]

/-- Every run of `create` hands at most one create-info to the driver, and its
`minImageCount` is the clamped `desiredNumberOfSwapchainImages`. -/
theorem requestedImageCounts_create (width height : Nat) (surface : Handle) (env : CreateAnswer)
    (sc : SwapChain) :
    trace.requestedImageCounts (create width height surface env sc).trace = [] ∨
    trace.requestedImageCounts (create width height surface env sc).trace =
      [create.desiredNumberOfSwapchainImages env.surfCaps] := by
  unfold create
  by_cases h1 : env.capsRes = VK_SUCCESS
  swap
  · left; simp [h1, trace.requestedImageCounts]
  by_cases h2 : env.presentModesRes1 = VK_SUCCESS
  swap
  · left; simp [h1, h2, trace.requestedImageCounts]
  by_cases h3 : env.presentModeCount > 0
  swap
  · left; simp [h1, h2, h3, trace.requestedImageCounts]
  by_cases h4 : env.presentModesRes2 = VK_SUCCESS
  swap
  · left; simp [h1, h2, h3, h4, trace.requestedImageCounts]
  right
  by_cases h5 : env.createRes = VK_SUCCESS
  swap
  · simp [h1, h2, h3, h4, h5, trace.requestedImageCounts, create.swapchainCI]
  by_cases h6 : env.imagesRes1 = VK_SUCCESS
  swap
  · simp [h1, h2, h3, h4, h5, h6, trace.requestedImageCounts, create.swapchainCI]
  by_cases h7 : env.imagesRes2 = VK_SUCCESS
  swap
  · simp [h1, h2, h3, h4, h5, h6, h7, trace.requestedImageCounts, create.swapchainCI]
  rcases hr : create.viewLoop sc.color_format env.view
    (env.imagecount.getD sc.imagecount) 0 with ⟨t, r⟩
  have hv := requestedImageCounts_viewLoop sc.color_format env.view
    (env.imagecount.getD sc.imagecount) 0
  rw [hr] at hv
  simp only [] at hv
  cases r <;>
    simp [h1, h2, h3, h4, h5, h6, h7, hr, hv, trace.requestedImageCounts, create.swapchainCI,
      Run.pure]

/-- C10, the claim refuted on a report: with `minImageCount` the largest
`uint32_t` (and no maximum named, so the side condition of the claim holds)
the sum `minImageCount + 1` wraps to 0, `create` requests 0 images, and 0 is
below the reported minimum. -/
theorem requested_image_count_counterexample :
    (sample.wrapCaps.maxImageCount > 0 →
      sample.wrapCaps.minImageCount ≤ sample.wrapCaps.maxImageCount) ∧
    sample.wrapCaps.minImageCount < 2 ^ 32 ∧
    (create.swapchainCI 1280 960 40 sample.wrapCaps sample.state.swapchain).minImageCount = 0 ∧
    trace.requestedImageCounts
      (create 1280 960 40 (sample.createAnswer sample.wrapCaps) sample.state.swapchain).trace =
      [0] ∧
    ¬(sample.wrapCaps.minImageCount ≤
      (create.swapchainCI 1280 960 40 sample.wrapCaps sample.state.swapchain).minImageCount) := by
  refine ⟨by decide, by decide, by decide, by decide, by decide⟩

/-- C10 as amended: for every surface capability report whose `minImageCount`
is below the largest `uint32_t` (and with `minImageCount <= maxImageCount`
whenever `maxImageCount > 0`), the image count `create` requests for the
swapchain is at least the reported `minImageCount` and, whenever a maximum is
reported, at most `maxImageCount`; it is `minImageCount + 1` unless the maximum
forces less; and it is the only count any run of `create` hands to the driver. -/
theorem requested_image_count_in_range (surfCaps : VkSurfaceCapabilitiesKHR)
    (width height : Nat) (surface : Handle) (sc : SwapChain)
    (hmin : surfCaps.minImageCount < UINT32_MAX)
    (hle : surfCaps.maxImageCount > 0 → surfCaps.minImageCount ≤ surfCaps.maxImageCount) :
    surfCaps.minImageCount ≤
      (create.swapchainCI width height surface surfCaps sc).minImageCount ∧
    (surfCaps.maxImageCount > 0 →
      (create.swapchainCI width height surface surfCaps sc).minImageCount ≤
        surfCaps.maxImageCount) ∧
    (create.swapchainCI width height surface surfCaps sc).minImageCount =
      (if surfCaps.maxImageCount > 0 ∧ surfCaps.minImageCount + 1 > surfCaps.maxImageCount then
        surfCaps.maxImageCount else surfCaps.minImageCount + 1) ∧
    (∀ env : CreateAnswer, env.surfCaps = surfCaps →
      ∀ n ∈ trace.requestedImageCounts (create width height surface env sc).trace,
        n = (create.swapchainCI width height surface surfCaps sc).minImageCount) := by
  have hmod : (surfCaps.minImageCount + 1) % 2 ^ 32 = surfCaps.minImageCount + 1 := by
    apply Nat.mod_eq_of_lt
    simp only [UINT32_MAX] at hmin
    omega
  have hval : (create.swapchainCI width height surface surfCaps sc).minImageCount =
      (if surfCaps.maxImageCount > 0 ∧ surfCaps.minImageCount + 1 > surfCaps.maxImageCount then
        surfCaps.maxImageCount else surfCaps.minImageCount + 1) := by
    simp only [create.swapchainCI, create.desiredNumberOfSwapchainImages, hmod]
  refine ⟨?_, ?_, hval, ?_⟩
  · rw [hval]
    split_ifs with h
    · exact hle h.1
    · omega
  · intro hmax
    rw [hval]
    split_ifs with h
    · exact le_refl _
    · have : ¬(surfCaps.minImageCount + 1 > surfCaps.maxImageCount) := fun h' => h ⟨hmax, h'⟩
      omega
  · intro env henv n hn
    rcases requestedImageCounts_create width height surface env sc with h | h
    · rw [h] at hn
      simp at hn
    · rw [h, henv] at hn
      simp only [List.mem_singleton] at hn
      rw [hn]
      rfl

theorem requested_image_count_in_range_witness :
    sample.usualCaps.minImageCount ≤
      (create.swapchainCI 1280 960 40 sample.usualCaps sample.state.swapchain).minImageCount ∧
    (create.swapchainCI 1280 960 40 sample.usualCaps sample.state.swapchain).minImageCount ≤
      sample.usualCaps.maxImageCount :=
  ⟨(requested_image_count_in_range sample.usualCaps 1280 960 40 sample.state.swapchain
      (by decide) (by decide)).1,
   (requested_image_count_in_range sample.usualCaps 1280 960 40 sample.state.swapchain
      (by decide) (by decide)).2.1 (by decide)⟩

end swapchain
end vulkan

namespace clearscreen
open Run vulkan vulkan.swapchain windowmanager.xcb trace

theorem drainEvents_eq (events : List XcbEvent) (window : Window) :
    drainEvents events window = ⟨drainCalls events, .ok (handleAll events window)⟩ := by
  induction events generalizing window with
  | nil => simp [drainEvents, drainCalls, handleAll, Run.pure]
  | cons e rest ih => simp [drainEvents, drainCalls, handleAll, ih]

/-- One pass of the loop written out: the drain, `advance`, the acquire, and
then either the `Fatal` line or `draw` followed by `render_and_swap`. -/
theorem loopBody_eq (ld : LogicalDevice) (sync : Synchronization) (inp : FrameInput)
    (st : LoopState) :
    loopBody ld sync inp st =
      let sc : SwapChain :=
        { st.swapchain with
          current_buffer := inp.acquireWritten.getD st.swapchain.current_buffer }
      let head := drainCalls inp.events ++
        [Call.advance st.iteration_counter,
         Call.acquireNextImage st.swapchain.swapchain UINT64_MAX sync.present_complete
           VK_NULL_HANDLE inp.acquireRes inp.acquireWritten]
      if inp.acquireRes ≠ VK_SUCCESS then
        ⟨head ++ [.fatalDiag inp.acquireRes .SwapChainHelper 273], .error .abort⟩
      else
        ⟨head ++ Call.draw :: (render_and_swap ld sc sync inp.render).trace,
          match (render_and_swap ld sc sync inp.render).result with
          | .ok _ => .ok { window := handleAll inp.events st.window, swapchain := sc,
                           iteration_counter := (st.iteration_counter + 1) % 2 ^ 64 }
          | .error h => .error h⟩ := by
  unfold loopBody
  rw [drainEvents_eq, acquire_next_image_eq]
  by_cases h : inp.acquireRes = VK_SUCCESS
  · simp only [h, ne_eq, not_true_eq_false, if_false, mk_ok_bind, emit_bind]
    rcases hr : render_and_swap ld _ sync inp.render with ⟨t, r⟩
    cases r <;> simp [hr, Run.pure]
  · simp [h]

/-- One pass returns exactly when the acquire and the four calls of
`render_and_swap` all report `VK_SUCCESS`. -/
theorem loopBody_ok_iff (ld : LogicalDevice) (sync : Synchronization) (inp : FrameInput)
    (st : LoopState) :
    (∃ st', (loopBody ld sync inp st).result = .ok st') ↔
      (inp.acquireRes = VK_SUCCESS ∧ inp.render.waitRes = VK_SUCCESS ∧
        inp.render.resetRes = VK_SUCCESS ∧ inp.render.submitRes = VK_SUCCESS ∧
        inp.render.presentRes = VK_SUCCESS) := by
  rw [loopBody_eq]
  simp only [render_and_swap_eq]
  by_cases h0 : inp.acquireRes = VK_SUCCESS <;>
  by_cases h1 : inp.render.waitRes = VK_SUCCESS <;>
  by_cases h2 : inp.render.resetRes = VK_SUCCESS <;>
  by_cases h3 : inp.render.submitRes = VK_SUCCESS <;>
  by_cases h4 : inp.render.presentRes = VK_SUCCESS <;>
  simp [h0, h1, h2, h3, h4]

theorem slotsOf_drainCalls (events : List XcbEvent) :
    ∀ c ∈ drainCalls events, slotsOf c = [] := by
  induction events with
  | nil => simp [drainCalls, slotsOf]
  | cons e rest ih =>
    intro c hc
    simp only [drainCalls, List.mem_cons] at hc
    rcases hc with rfl | rfl | hc
    · rfl
    · rfl
    · exact ih c hc

theorem flatMap_slotsOf_drainCalls (events : List XcbEvent) :
    (drainCalls events).flatMap slotsOf = [] := by
  induction events with
  | nil => simp [drainCalls, slotsOf]
  | cons e rest ih => simp [drainCalls, slotsOf, ih]

/-- C1: in every pass of the frame loop `render_and_swap` addresses one slot
only, `swapchain.current_buffer`: the fence waited on and reset, the command
buffer submitted, the fence handed to the submission and the image index handed
to the present call.  That index is the one the preceding `acquire_next_image`
stored, and it is still in `swapchain.current_buffer` after the pass. -/
theorem render_and_swap_uses_acquired_index (ld : LogicalDevice) (sync : Synchronization)
    (inp : FrameInput) (st : LoopState) :
    let acquired := inp.acquireWritten.getD st.swapchain.current_buffer
    (∀ (sc : SwapChain) (env : RenderAnswer),
        ∀ c ∈ (render_and_swap ld sc sync env).trace, ∀ i ∈ slotsOf c, i = sc.current_buffer) ∧
    (∀ sc, (acquire_next_image sync.present_complete inp.acquireRes inp.acquireWritten
        st.swapchain).result = .ok sc → sc.current_buffer = acquired) ∧
    (∀ c ∈ (loopBody ld sync inp st).trace, ∀ i ∈ slotsOf c, i = acquired) ∧
    (∀ st', (loopBody ld sync inp st).result = .ok st' →
        st'.swapchain.current_buffer = acquired ∧
        (loopBody ld sync inp st).trace.flatMap slotsOf =
          [acquired, acquired, acquired, acquired, acquired]) := by
  have hrender : ∀ (sc : SwapChain) (env : RenderAnswer),
      ∀ c ∈ (render_and_swap ld sc sync env).trace, ∀ i ∈ slotsOf c, i = sc.current_buffer := by
    intro sc env
    rw [render_and_swap_eq]
    simp only []
    split_ifs <;> simp [slotsOf]
  refine ⟨hrender, ?_, ?_, ?_⟩
  · intro sc hsc
    rw [acquire_next_image_eq] at hsc
    simp only [] at hsc
    split_ifs at hsc
    simp only [Except.ok.injEq] at hsc
    rw [← hsc]
  · intro c hc i hi
    rw [loopBody_eq] at hc
    simp only [] at hc
    split_ifs at hc
    · simp only [List.mem_append, List.mem_cons, List.mem_singleton, List.not_mem_nil,
        or_false] at hc
      rcases hc with (hc | hc | hc) | hc
      · rw [slotsOf_drainCalls _ c hc] at hi
        simp at hi
      all_goals (subst hc; simp [slotsOf] at hi)
    · simp only [List.mem_append, List.mem_cons, List.mem_singleton, List.not_mem_nil,
        or_false] at hc
      rcases hc with (hc | hc | hc) | hc | hc
      · rw [slotsOf_drainCalls _ c hc] at hi
        simp at hi
      · subst hc; simp [slotsOf] at hi
      · subst hc; simp [slotsOf] at hi
      · subst hc; simp [slotsOf] at hi
      · exact hrender _ _ c hc i hi
  · intro st' hst'
    have hok := (loopBody_ok_iff ld sync inp st).1 ⟨st', hst'⟩
    obtain ⟨h0, h1, h2, h3, h4⟩ := hok
    rw [loopBody_eq] at hst' ⊢
    simp only [render_and_swap_eq, h0, h1, h2, h3, h4, ne_eq, not_true_eq_false, if_false,
      Except.ok.injEq] at hst' ⊢
    subst hst'
    simp [slotsOf, flatMap_slotsOf_drainCalls]

theorem render_and_swap_uses_acquired_index_witness :
    (loopBody sample.device sample.sync (sample.frame 2) sample.state).trace.flatMap slotsOf =
      [2, 2, 2, 2, 2] := by
  have h := render_and_swap_uses_acquired_index sample.device sample.sync (sample.frame 2)
    sample.state
  exact (h.2.2.2 _ rfl).2

theorem filterMap_stepOf_drainCalls (events : List XcbEvent) :
    (drainCalls events).filterMap stepOf =
      List.replicate events.length Step.polledEvent ++ [Step.polledNull] := by
  induction events with
  | nil => simp [drainCalls, stepOf]
  | cons e rest ih => simp [drainCalls, stepOf, ih, List.replicate_succ]

/-- C3: every pass of the main loop issues its calls in one fixed order: the
event queue is polled until it is empty, then come `advance`, the acquire,
`draw`, the wait on the fence of the acquired index, the reset of that fence,
the queue submission and the present.  A pass that returns has issued each of
them exactly once; a pass in which a call fails stops after that call, so its
steps are an initial part of the same sequence; and a pass returns exactly when
all five driver calls succeed. -/
theorem loop_body_call_order (ld : LogicalDevice) (sync : Synchronization)
    (inp : FrameInput) (st : LoopState) :
    let cb := inp.acquireWritten.getD st.swapchain.current_buffer
    let steps := (loopBody ld sync inp st).trace.filterMap stepOf
    let full := List.replicate inp.events.length Step.polledEvent ++
      [Step.polledNull, Step.advance, Step.acquire, Step.draw, Step.wait cb, Step.reset cb,
       Step.submit cb cb, Step.present cb]
    (∃ rest, steps ++ rest = full) ∧
    (∀ st', (loopBody ld sync inp st).result = .ok st' → steps = full) ∧
    ((∃ st', (loopBody ld sync inp st).result = .ok st') ↔
      (inp.acquireRes = VK_SUCCESS ∧ inp.render.waitRes = VK_SUCCESS ∧
        inp.render.resetRes = VK_SUCCESS ∧ inp.render.submitRes = VK_SUCCESS ∧
        inp.render.presentRes = VK_SUCCESS)) := by
  refine ⟨?_, ?_, loopBody_ok_iff ld sync inp st⟩
  · rw [loopBody_eq]
    simp only [render_and_swap_eq]
    by_cases h0 : inp.acquireRes = VK_SUCCESS <;>
    by_cases h1 : inp.render.waitRes = VK_SUCCESS <;>
    by_cases h2 : inp.render.resetRes = VK_SUCCESS <;>
    by_cases h3 : inp.render.submitRes = VK_SUCCESS <;>
    by_cases h4 : inp.render.presentRes = VK_SUCCESS <;>
    simp [h0, h1, h2, h3, h4, stepOf, filterMap_stepOf_drainCalls]
  · intro st' hst'
    obtain ⟨h0, h1, h2, h3, h4⟩ := (loopBody_ok_iff ld sync inp st).1 ⟨st', hst'⟩
    rw [loopBody_eq]
    simp [render_and_swap_eq, h0, h1, h2, h3, h4, stepOf, filterMap_stepOf_drainCalls]

theorem loop_body_call_order_witness :
    (loopBody sample.device sample.sync (sample.closeFrame 1) sample.state).trace.filterMap stepOf =
      [Step.polledEvent, Step.polledNull, Step.advance, Step.acquire, Step.draw, Step.wait 1,
       Step.reset 1, Step.submit 1 1, Step.present 1] := by
  have h := loop_body_call_order sample.device sample.sync (sample.closeFrame 1) sample.state
  exact h.2.1 _ rfl

/-! ### The loop as a whole -/

theorem mainLoop_nil (ld : LogicalDevice) (sync : Synchronization) (st : LoopState) :
    mainLoop ld sync [] st = Run.pure (if st.window.is_alive then .going st else .left st) := by
  simp [mainLoop]

theorem mainLoop_cons (ld : LogicalDevice) (sync : Synchronization) (inp : FrameInput)
    (rest : List FrameInput) (st : LoopState) :
    mainLoop ld sync (inp :: rest) st =
      if st.window.is_alive then
        match (loopBody ld sync inp st).result with
        | .ok st' => ⟨(loopBody ld sync inp st).trace ++ (mainLoop ld sync rest st').trace,
            (mainLoop ld sync rest st').result⟩
        | .error h => ⟨(loopBody ld sync inp st).trace, .error h⟩
      else Run.pure (.left st) := by
  simp only [mainLoop]
  split_ifs
  · simp only [bind_def, Run.bind]
    cases (loopBody ld sync inp st).result <;> rfl
  · rfl

/-- Whatever holds of every call of every pass holds of every call of the loop. -/
theorem mainLoop_forall (ld : LogicalDevice) (sync : Synchronization) (P : Call → Prop)
    (hbody : ∀ inp st, ∀ c ∈ (loopBody ld sync inp st).trace, P c) :
    ∀ inputs st, ∀ c ∈ (mainLoop ld sync inputs st).trace, P c := by
  intro inputs
  induction inputs with
  | nil =>
    intro st c hc
    simp [mainLoop_nil] at hc
  | cons inp rest ih =>
    intro st c hc
    rw [mainLoop_cons] at hc
    split_ifs at hc
    · split at hc
      · rename_i st' _
        simp only [List.mem_append] at hc
        rcases hc with hc | hc
        · exact hbody inp st c hc
        · exact ih st' c hc
      · exact hbody inp st c hc
    · simp at hc

theorem isFrameCall_drainCalls (events : List XcbEvent) :
    ∀ c ∈ drainCalls events, isFrameCall c = true := by
  induction events with
  | nil => simp [drainCalls, isFrameCall]
  | cons e rest ih =>
    intro c hc
    simp only [drainCalls, List.mem_cons] at hc
    rcases hc with rfl | rfl | hc
    · rfl
    · rfl
    · exact ih c hc

theorem isFrameCall_loopBody (ld : LogicalDevice) (sync : Synchronization) (inp : FrameInput)
    (st : LoopState) : ∀ c ∈ (loopBody ld sync inp st).trace, isFrameCall c = true := by
  intro c hc
  rw [loopBody_eq] at hc
  simp only [render_and_swap_eq] at hc
  split_ifs at hc <;>
    simp only [List.mem_append, List.mem_cons, List.mem_singleton, List.not_mem_nil,
      or_false] at hc <;>
    rcases hc with (hc | hc) | hc <;>
    first
    | exact isFrameCall_drainCalls _ c hc
    | (rcases hc with rfl | rfl | rfl | rfl | rfl | rfl | rfl <;> rfl)

theorem isFrameCall_mainLoop (ld : LogicalDevice) (sync : Synchronization)
    (inputs : List FrameInput) (st : LoopState) :
    ∀ c ∈ (mainLoop ld sync inputs st).trace, isFrameCall c = true :=
  mainLoop_forall ld sync (fun c => isFrameCall c = true) (isFrameCall_loopBody ld sync) inputs st

/-- The part of `main` from line 124 on, written out over the run of the loop. -/
theorem mainFromLoop_eq (ld : LogicalDevice) (sync : Synchronization)
    (inputs : List FrameInput) (st : LoopState) :
    mainFromLoop ld sync inputs st =
      let r := mainLoop ld sync inputs { st with window := { st.window with is_alive := true } }
      match r.result with
      | .error h => ⟨Call.xcbFlush :: r.trace, .error h⟩
      | .ok (.going _) => ⟨Call.xcbFlush :: r.trace, .ok none⟩
      | .ok (.left _) =>
        ⟨Call.xcbFlush :: r.trace ++
          (if ld.device ≠ VK_NULL_HANDLE then [Call.deviceWaitIdle ld.device] else []),
          .ok (some 0)⟩ := by
  unfold mainFromLoop
  simp only [emit_bind]
  rcases hr : mainLoop ld sync inputs { st with window := { st.window with is_alive := true } }
    with ⟨t, r⟩
  cases r with
  | error h => simp
  | ok fin =>
    cases fin with
    | going s => simp [Run.pure]
    | left s =>
      by_cases hd : ld.device = VK_NULL_HANDLE
      · simp [hd, Run.pure, pure_def]
      · simp [hd, Run.pure]

/-- The loop is left only with `window.is_alive` false. -/
theorem mainLoop_left_not_alive (ld : LogicalDevice) (sync : Synchronization)
    (inputs : List FrameInput) :
    ∀ (st s : LoopState), (mainLoop ld sync inputs st).result = .ok (.left s) →
      s.window.is_alive = false := by
  induction inputs with
  | nil =>
    intro st s h
    rw [mainLoop_nil] at h
    by_cases ha : st.window.is_alive = true
    · simp [ha] at h
    · simp only [ha, Bool.false_eq_true, if_false, result_pure, Except.ok.injEq,
        LoopEnd.left.injEq] at h
      subst h
      simpa using ha
  | cons inp rest ih =>
    intro st s h
    rw [mainLoop_cons] at h
    by_cases ha : st.window.is_alive = true
    · simp only [ha, if_true] at h
      split at h
      · rename_i st' _
        exact ih st' s h
      · simp at h
    · simp only [ha, Bool.false_eq_true, if_false, result_pure, Except.ok.injEq,
        LoopEnd.left.injEq] at h
      subst h
      simpa using ha

/-- The calls of `main` from line 124 on: the flush, the calls of the loop, and
at most the one `vkDeviceWaitIdle` at the end. -/
theorem mainFromLoop_trace (ld : LogicalDevice) (sync : Synchronization)
    (inputs : List FrameInput) (st : LoopState) :
    ∃ tail, (mainFromLoop ld sync inputs st).trace =
        Call.xcbFlush :: ((mainLoop ld sync inputs
          { st with window := { st.window with is_alive := true } }).trace ++ tail) ∧
      (tail = [] ∨ tail = [Call.deviceWaitIdle ld.device]) := by
  rw [mainFromLoop_eq]
  simp only []
  split
  · exact ⟨[], by simp, Or.inl rfl⟩
  · exact ⟨[], by simp, Or.inl rfl⟩
  · by_cases hd : ld.device = VK_NULL_HANDLE
    · exact ⟨[], by simp [hd], Or.inl rfl⟩
    · exact ⟨[Call.deviceWaitIdle ld.device], by simp [hd], Or.inr rfl⟩

theorem mainFromLoop_returns (ld : LogicalDevice) (sync : Synchronization)
    (inputs : List FrameInput) (st : LoopState) (code : Int)
    (h : (mainFromLoop ld sync inputs st).result = .ok (some code)) :
    ∃ s, (mainLoop ld sync inputs
        { st with window := { st.window with is_alive := true } }).result = .ok (.left s) := by
  rw [mainFromLoop_eq] at h
  simp only [] at h
  split at h
  · simp at h
  · simp at h
  · rename_i s hs
    exact ⟨s, hs⟩

theorem mainFromLoop_left (ld : LogicalDevice) (sync : Synchronization)
    (inputs : List FrameInput) (st s : LoopState)
    (h : (mainLoop ld sync inputs
        { st with window := { st.window with is_alive := true } }).result = .ok (.left s)) :
    mainFromLoop ld sync inputs st =
      ⟨Call.xcbFlush :: (mainLoop ld sync inputs
          { st with window := { st.window with is_alive := true } }).trace ++
          (if ld.device ≠ VK_NULL_HANDLE then [Call.deviceWaitIdle ld.device] else []),
        .ok (some 0)⟩ := by
  rw [mainFromLoop_eq]
  simp only [h]

/-! ### Fences -/

theorem fenceMonitor_append (t1 t2 : List Call) (fences : Nat → FenceState) :
    fenceMonitor (t1 ++ t2) fences = (fenceMonitor t1 fences).bind (fenceMonitor t2) := by
  induction t1 generalizing fences with
  | nil => simp [fenceMonitor]
  | cons c rest ih =>
    simp only [List.cons_append, fenceMonitor]
    cases fenceStep fences c with
    | none => simp
    | some f => simpa using ih f

theorem fenceMonitor_drainCalls (events : List XcbEvent) (fences : Nat → FenceState) :
    fenceMonitor (drainCalls events) fences = some fences := by
  induction events with
  | nil => simp [drainCalls, fenceMonitor, fenceStep]
  | cons e rest ih => simp [drainCalls, fenceMonitor, fenceStep, ih]

/-- The fence monitor accepts every pass of the loop, from any fence state. -/
theorem fenceMonitor_loopBody (ld : LogicalDevice) (sync : Synchronization) (inp : FrameInput)
    (st : LoopState) (fences : Nat → FenceState) :
    ∃ fences', fenceMonitor (loopBody ld sync inp st).trace fences = some fences' := by
  rw [loopBody_eq]
  simp only [render_and_swap_eq]
  by_cases h0 : inp.acquireRes = VK_SUCCESS <;>
  by_cases h1 : inp.render.waitRes = VK_SUCCESS <;>
  by_cases h2 : inp.render.resetRes = VK_SUCCESS <;>
  by_cases h3 : inp.render.submitRes = VK_SUCCESS <;>
  by_cases h4 : inp.render.presentRes = VK_SUCCESS <;>
  simp [h0, h1, h2, h3, h4, fenceMonitor_append, fenceMonitor_drainCalls, fenceMonitor,
    fenceStep]

theorem fenceMonitor_mainLoop (ld : LogicalDevice) (sync : Synchronization)
    (inputs : List FrameInput) :
    ∀ (st : LoopState) (fences : Nat → FenceState),
      ∃ fences', fenceMonitor (mainLoop ld sync inputs st).trace fences = some fences' := by
  induction inputs with
  | nil =>
    intro st fences
    exact ⟨fences, by simp [mainLoop_nil, fenceMonitor]⟩
  | cons inp rest ih =>
    intro st fences
    rw [mainLoop_cons]
    split_ifs
    · obtain ⟨f1, hf1⟩ := fenceMonitor_loopBody ld sync inp st fences
      split
      · rename_i st' _
        obtain ⟨f2, hf2⟩ := ih st' f1
        exact ⟨f2, by simp [fenceMonitor_append, hf1, hf2]⟩
      · exact ⟨f1, hf1⟩
    · exact ⟨fences, by simp [fenceMonitor]⟩

/-- The fence monitor is not satisfied by every trace: a submission on a slot
whose fence is still signaled is refused, and so is a second submission on a
slot without a wait and a reset in between. -/
theorem fenceMonitor_refuses :
    (fenceMonitor [Call.queueSubmit 4 0 [20] [0x400] [21] 0 VK_SUCCESS]
      (fun _ => FenceState.signaled)).isSome = false ∧
    (fenceMonitor [Call.waitForFences 0 UINT64_MAX VK_SUCCESS, Call.resetFences 0 VK_SUCCESS,
        Call.queueSubmit 4 0 [20] [0x400] [21] 0 VK_SUCCESS,
        Call.queueSubmit 4 0 [20] [0x400] [21] 0 VK_SUCCESS]
      (fun _ => FenceState.signaled)).isSome = false ∧
    (fenceMonitor [Call.waitForFences 0 UINT64_MAX VK_SUCCESS, Call.resetFences 0 VK_SUCCESS,
        Call.queueSubmit 4 0 [20] [0x400] [21] 0 VK_SUCCESS,
        Call.resetFences 0 VK_SUCCESS,
        Call.queueSubmit 4 0 [20] [0x400] [21] 0 VK_SUCCESS]
      (fun _ => FenceState.signaled)).isSome = false ∧
    (fenceMonitor [Call.waitForFences 0 UINT64_MAX VK_ERROR_DEVICE_LOST,
        Call.resetFences 0 VK_SUCCESS,
        Call.queueSubmit 4 0 [20] [0x400] [21] 0 VK_SUCCESS]
      (fun _ => FenceState.pending)).isSome = false := by
  refine ⟨?_, ?_, ?_, ?_⟩ <;> decide

/-- C4: over every run of the frame loop, for any sequence of acquired image
indices and any driver results, the fence monitor accepts the whole trace, from
any state of the fences at the start (in particular from all fences signaled,
as `create_synchronization` makes them).  The monitor accepts a submission only
when it pairs the command buffer of a slot with the fence of the same slot and
that fence has been waited on successfully and then reset successfully since
the last submission on the slot; so at each submission the fence handed over is
unsignaled and the slot has no submission that has not been waited for. -/
theorem submit_only_after_wait_and_reset (ld : LogicalDevice) (sync : Synchronization)
    (inputs : List FrameInput) (st : LoopState) (fences : Nat → FenceState) :
    (fenceMonitor (mainFromLoop ld sync inputs st).trace fences).isSome = true := by
  obtain ⟨tail, htrace, htail⟩ := mainFromLoop_trace ld sync inputs st
  obtain ⟨f1, hf1⟩ := fenceMonitor_mainLoop ld sync inputs
    { st with window := { st.window with is_alive := true } } fences
  rw [htrace]
  simp only [fenceMonitor, fenceStep, fenceMonitor_append, hf1, Option.some_bind]
  rcases htail with rfl | rfl <;> simp [fenceMonitor, fenceStep]

/-! ### Results other than `VK_SUCCESS`, and the end of `main` -/

theorem isRebuild_of_isFrameCall (c : Call) (h : isFrameCall c = true) : isRebuild c = false := by
  cases c <;> first | rfl | simp [isFrameCall] at h

theorem isRelease_of_isFrameCall (c : Call) (h : isFrameCall c = true) : isRelease c = false := by
  cases c <;> first | rfl | simp [isFrameCall] at h

/-- C5, the claim refuted on a run: in the second pass the acquire reports
`VK_ERROR_OUT_OF_DATE_KHR`; `VK_CHECK_RESULT` prints its `Fatal` line, the
assertion fails and the process ends there, with no swapchain rebuilt and no
third pass.  The same happens when the present call of the second pass reports
`VK_ERROR_OUT_OF_DATE_KHR`. -/
theorem out_of_date_counterexample :
    (mainFromLoop sample.device sample.sync
        [sample.frame 0, sample.outOfDateAcquire, sample.frame 1] sample.state).result =
      .error .abort ∧
    (mainFromLoop sample.device sample.sync
        [sample.frame 0, sample.outOfDateAcquire, sample.frame 1] sample.state).trace =
      [Call.xcbFlush,
       Call.pollForEvent none, Call.advance 0,
       Call.acquireNextImage 50 UINT64_MAX 20 VK_NULL_HANDLE VK_SUCCESS (some 0),
       Call.draw,
       Call.waitForFences 0 UINT64_MAX VK_SUCCESS, Call.resetFences 0 VK_SUCCESS,
       Call.queueSubmit 4 0 [20] [VK_PIPELINE_STAGE_COLOR_ATTACHMENT_OUTPUT_BIT] [21] 0 VK_SUCCESS,
       Call.queuePresent 4 50 0 [21] VK_SUCCESS,
       Call.pollForEvent none, Call.advance 1,
       Call.acquireNextImage 50 UINT64_MAX 20 VK_NULL_HANDLE VK_ERROR_OUT_OF_DATE_KHR none,
       Call.fatalDiag VK_ERROR_OUT_OF_DATE_KHR .SwapChainHelper 273] ∧
    (mainFromLoop sample.device sample.sync
        [sample.frame 0, sample.outOfDatePresent 1, sample.frame 2] sample.state).result =
      .error .abort ∧
    (mainFromLoop sample.device sample.sync
        [sample.frame 0, sample.outOfDatePresent 1, sample.frame 2] sample.state).trace =
      [Call.xcbFlush,
       Call.pollForEvent none, Call.advance 0,
       Call.acquireNextImage 50 UINT64_MAX 20 VK_NULL_HANDLE VK_SUCCESS (some 0),
       Call.draw,
       Call.waitForFences 0 UINT64_MAX VK_SUCCESS, Call.resetFences 0 VK_SUCCESS,
       Call.queueSubmit 4 0 [20] [VK_PIPELINE_STAGE_COLOR_ATTACHMENT_OUTPUT_BIT] [21] 0 VK_SUCCESS,
       Call.queuePresent 4 50 0 [21] VK_SUCCESS,
       Call.pollForEvent none, Call.advance 1,
       Call.acquireNextImage 50 UINT64_MAX 20 VK_NULL_HANDLE VK_SUCCESS (some 1),
       Call.draw,
       Call.waitForFences 1 UINT64_MAX VK_SUCCESS, Call.resetFences 1 VK_SUCCESS,
       Call.queueSubmit 4 1 [20] [VK_PIPELINE_STAGE_COLOR_ATTACHMENT_OUTPUT_BIT] [21] 1 VK_SUCCESS,
       Call.queuePresent 4 50 1 [21] VK_ERROR_OUT_OF_DATE_KHR,
       Call.fatalDiag VK_ERROR_OUT_OF_DATE_KHR .SwapChainHelper 310] := by
  refine ⟨rfl, ?_, rfl, ?_⟩ <;> decide

/-- C5 as amended: a `VK_ERROR_OUT_OF_DATE_KHR` result of the acquire call or
of the present call is treated like every other result that is not
`VK_SUCCESS`.  In whatever pass of the loop it arrives, `VK_CHECK_RESULT`
prints the `Fatal` line for it and the failed assertion ends the process: the
loop issues nothing after that line, whatever inputs would follow, and no call
that builds a swapchain or an image view is made.  After an out-of-date
acquire the pass has issued no `draw`, wait, reset, submit or present. -/
theorem out_of_date_is_fatal (ld : LogicalDevice) (sync : Synchronization) (inp : FrameInput)
    (rest : List FrameInput) (st : LoopState) (halive : st.window.is_alive = true)
    (hood : inp.acquireRes = VK_ERROR_OUT_OF_DATE_KHR ∨
      (inp.acquireRes = VK_SUCCESS ∧ inp.render.waitRes = VK_SUCCESS ∧
        inp.render.resetRes = VK_SUCCESS ∧ inp.render.submitRes = VK_SUCCESS ∧
        inp.render.presentRes = VK_ERROR_OUT_OF_DATE_KHR)) :
    (mainLoop ld sync (inp :: rest) st).result = .error .abort ∧
    (mainLoop ld sync (inp :: rest) st).trace = (loopBody ld sync inp st).trace ∧
    (∃ before line, (mainLoop ld sync (inp :: rest) st).trace =
        before ++ [Call.fatalDiag VK_ERROR_OUT_OF_DATE_KHR .SwapChainHelper line] ∧
        (line = 273 ∨ line = 310)) ∧
    (∀ c ∈ (mainLoop ld sync (inp :: rest) st).trace, isRebuild c = false) ∧
    (inp.acquireRes = VK_ERROR_OUT_OF_DATE_KHR →
      (mainLoop ld sync (inp :: rest) st).trace.filterMap stepOf =
        List.replicate inp.events.length Step.polledEvent ++
          [Step.polledNull, Step.advance, Step.acquire]) := by
  have hne : VK_ERROR_OUT_OF_DATE_KHR ≠ VK_SUCCESS := by decide
  have hres : (loopBody ld sync inp st).result = .error .abort := by
    rw [loopBody_eq]
    rcases hood with h | ⟨h0, h1, h2, h3, h4⟩
    · simp [h, hne]
    · simp [render_and_swap_eq, h0, h1, h2, h3, h4, hne]
  have hloop : mainLoop ld sync (inp :: rest) st =
      ⟨(loopBody ld sync inp st).trace, .error .abort⟩ := by
    rw [mainLoop_cons]
    simp [halive, hres]
  rw [hloop]
  refine ⟨rfl, rfl, ?_, ?_, ?_⟩
  · rw [loopBody_eq]
    rcases hood with h | ⟨h0, h1, h2, h3, h4⟩
    · exact ⟨drainCalls inp.events ++
        [Call.advance st.iteration_counter,
         Call.acquireNextImage st.swapchain.swapchain UINT64_MAX sync.present_complete
           VK_NULL_HANDLE inp.acquireRes inp.acquireWritten], 273,
        by simp [h, hne], Or.inl rfl⟩
    · refine ⟨drainCalls inp.events ++
        [Call.advance st.iteration_counter,
         Call.acquireNextImage st.swapchain.swapchain UINT64_MAX sync.present_complete
           VK_NULL_HANDLE inp.acquireRes inp.acquireWritten,
         Call.draw,
         Call.waitForFences (inp.acquireWritten.getD st.swapchain.current_buffer) UINT64_MAX
           inp.render.waitRes,
         Call.resetFences (inp.acquireWritten.getD st.swapchain.current_buffer)
           inp.render.resetRes,
         Call.queueSubmit ld.queue_graphics
           (inp.acquireWritten.getD st.swapchain.current_buffer) [sync.present_complete]
           [VK_PIPELINE_STAGE_COLOR_ATTACHMENT_OUTPUT_BIT] [sync.render_complete]
           (inp.acquireWritten.getD st.swapchain.current_buffer) inp.render.submitRes,
         Call.queuePresent ld.queue_graphics st.swapchain.swapchain
           (inp.acquireWritten.getD st.swapchain.current_buffer)
           (if sync.render_complete ≠ VK_NULL_HANDLE then [sync.render_complete] else [])
           inp.render.presentRes], 310, ?_, Or.inr rfl⟩
      simp [render_and_swap_eq, h0, h1, h2, h3, h4, hne]
  · intro c hc
    exact isRebuild_of_isFrameCall c (isFrameCall_loopBody ld sync inp st c hc)
  · intro h
    rw [loopBody_eq]
    simp [h, hne, stepOf, filterMap_stepOf_drainCalls]

theorem out_of_date_is_fatal_witness :
    (mainLoop sample.device sample.sync [sample.outOfDateAcquire, sample.frame 1]
        { sample.state with window := { sample.state.window with is_alive := true } }).result =
      .error .abort ∧
    (mainLoop sample.device sample.sync [sample.outOfDatePresent 2, sample.frame 1]
        { sample.state with window := { sample.state.window with is_alive := true } }).result =
      .error .abort :=
  ⟨(out_of_date_is_fatal sample.device sample.sync sample.outOfDateAcquire [sample.frame 1]
      { sample.state with window := { sample.state.window with is_alive := true } } rfl
      (Or.inl rfl)).1,
   (out_of_date_is_fatal sample.device sample.sync (sample.outOfDatePresent 2) [sample.frame 1]
      { sample.state with window := { sample.state.window with is_alive := true } } rfl
      (Or.inr ⟨rfl, rfl, rfl, rfl, rfl⟩)).1⟩

/-- C6: `main` releases no pooled Vulkan object at any point, so none before
the device has become idle; it returns (with 0) exactly when the loop has been
left because `window.is_alive` was found false; and when it returns and the
device handle is not null, the `vkDeviceWaitIdle` on that device is the last
call it makes and the only such call. -/
theorem shutdown_waits_for_idle_device (ld : LogicalDevice) (sync : Synchronization)
    (inputs : List FrameInput) (st : LoopState) (hdev : ld.device ≠ VK_NULL_HANDLE)
    (hret : ∃ code, (mainFromLoop ld sync inputs st).result = .ok (some code)) :
    (∀ c ∈ (mainFromLoop ld sync inputs st).trace, isRelease c = false) ∧
    (mainFromLoop ld sync inputs st).result = .ok (some 0) ∧
    (∃ s, (mainLoop ld sync inputs
        { st with window := { st.window with is_alive := true } }).result = .ok (.left s) ∧
      s.window.is_alive = false) ∧
    (∃ before, (mainFromLoop ld sync inputs st).trace =
        before ++ [Call.deviceWaitIdle ld.device] ∧
      ∀ c ∈ before, isRelease c = false ∧ ∀ d, c ≠ Call.deviceWaitIdle d) := by
  obtain ⟨code, hcode⟩ := hret
  have hframe := isFrameCall_mainLoop ld sync inputs
    { st with window := { st.window with is_alive := true } }
  obtain ⟨s, hs⟩ := mainFromLoop_returns ld sync inputs st code hcode
  have heq := mainFromLoop_left ld sync inputs st s hs
  simp only [hdev, ne_eq, not_false_eq_true, if_true] at heq
  have htrace : (mainFromLoop ld sync inputs st).trace =
      (Call.xcbFlush :: (mainLoop ld sync inputs
        { st with window := { st.window with is_alive := true } }).trace) ++
        [Call.deviceWaitIdle ld.device] := by
    rw [heq]
  have hbefore : ∀ c ∈ Call.xcbFlush :: (mainLoop ld sync inputs
      { st with window := { st.window with is_alive := true } }).trace,
      isRelease c = false ∧ ∀ d, c ≠ Call.deviceWaitIdle d := by
    intro c hc
    rcases List.mem_cons.1 hc with hc | hc
    · subst hc
      exact ⟨rfl, fun d h => by cases h⟩
    · have hf := hframe c hc
      refine ⟨isRelease_of_isFrameCall c hf, fun d h => ?_⟩
      subst h
      simp [isFrameCall] at hf
  refine ⟨?_, ?_, ⟨s, hs, mainLoop_left_not_alive ld sync inputs _ s hs⟩, ⟨_, htrace, hbefore⟩⟩
  · intro c hc
    rw [htrace] at hc
    rcases List.mem_append.1 hc with hc | hc
    · exact (hbefore c hc).1
    · rw [List.mem_singleton] at hc
      subst hc
      rfl
  · rw [heq]

theorem shutdown_waits_for_idle_device_witness :
    (mainFromLoop sample.device sample.sync
        [sample.frame 1, sample.closeFrame 2, sample.frame 0] sample.state).result =
      .ok (some 0) :=
  (shutdown_waits_for_idle_device sample.device sample.sync
      [sample.frame 1, sample.closeFrame 2, sample.frame 0] sample.state (by decide)
      ⟨0, rfl⟩).2.1

end clearscreen
end ct

/-! ## Sequencing, once more -/

namespace ct
namespace Run

theorem result_bind_ok {α β : Type} (x : Run α) (f : α → Run β) (b : β) :
    (x >>= f).result = .ok b ↔ ∃ a, x.result = .ok a ∧ (f a).result = .ok b := by
  rcases x with ⟨t, r⟩
  cases r with
  | error h => simp
  | ok a => simp

theorem trace_bind_of_ok {α β : Type} (x : Run α) (f : α → Run β) (a : α)
    (h : x.result = .ok a) : (x >>= f).trace = x.trace ++ (f a).trace := by
  rcases x with ⟨t, r⟩
  simp only at h
  subst h
  simp

theorem result_bind_of_ok {α β : Type} (x : Run α) (f : α → Run β) (a : α)
    (h : x.result = .ok a) : (x >>= f).result = (f a).result := by
  rcases x with ⟨t, r⟩
  simp only at h
  subst h
  simp

end Run

namespace clearscreen
open Run vulkan vulkan.swapchain windowmanager.xcb trace

/-! ### Failures inside `render_and_swap` -/

/-- The event drain issues polls and `free` only. -/
theorem stepOf_drainCalls (events : List XcbEvent) :
    ∀ c ∈ drainCalls events,
      stepOf c = some Step.polledEvent ∨ stepOf c = some Step.polledNull ∨ stepOf c = none := by
  induction events with
  | nil =>
    intro c hc
    simp only [drainCalls, List.mem_singleton] at hc
    subst hc
    exact Or.inr (Or.inl rfl)
  | cons e es ih =>
    intro c hc
    simp only [drainCalls, List.mem_cons] at hc
    rcases hc with rfl | rfl | hc
    · exact Or.inl rfl
    · exact Or.inr (Or.inr rfl)
    · exact ih c hc

/-- When a pass of the loop does not return, the loop ends with it. -/
theorem mainLoop_of_body_error (ld : LogicalDevice) (sync : Synchronization) (inp : FrameInput)
    (rest : List FrameInput) (st : LoopState) (h : Halt) (halive : st.window.is_alive = true)
    (hres : (loopBody ld sync inp st).result = .error h) :
    mainLoop ld sync (inp :: rest) st = ⟨(loopBody ld sync inp st).trace, .error h⟩ := by
  rw [mainLoop_cons]
  simp [halive, hres]

/-- C13: in `render_and_swap`, a result other than `VK_SUCCESS` of the fence
wait, of the fence reset or of the queue submission takes the fatal path: the
`Fatal` line naming the result, the file and the line (279, 280 or 296) is the
last thing issued, the process ends by the failed assertion, and neither the
later calls of `render_and_swap` (in particular the present) nor any later pass
of the loop are issued.  A `Fatal` line appears only for a result that differs
from `VK_SUCCESS`, and `render_and_swap` returns exactly when all four results
are `VK_SUCCESS`. -/
theorem render_and_swap_failure_is_fatal (ld : LogicalDevice) (sc : SwapChain)
    (sync : Synchronization) (env : RenderAnswer) :
    let wait := Call.waitForFences sc.current_buffer UINT64_MAX env.waitRes
    let reset := Call.resetFences sc.current_buffer env.resetRes
    let submit := Call.queueSubmit ld.queue_graphics sc.current_buffer
      [sync.present_complete] [VK_PIPELINE_STAGE_COLOR_ATTACHMENT_OUTPUT_BIT]
      [sync.render_complete] sc.current_buffer env.submitRes
    (env.waitRes ≠ VK_SUCCESS →
      render_and_swap ld sc sync env =
        ⟨[wait, .fatalDiag env.waitRes .SwapChainHelper 279], .error .abort⟩) ∧
    (env.waitRes = VK_SUCCESS → env.resetRes ≠ VK_SUCCESS →
      render_and_swap ld sc sync env =
        ⟨[wait, reset, .fatalDiag env.resetRes .SwapChainHelper 280], .error .abort⟩) ∧
    (env.waitRes = VK_SUCCESS → env.resetRes = VK_SUCCESS → env.submitRes ≠ VK_SUCCESS →
      render_and_swap ld sc sync env =
        ⟨[wait, reset, submit, .fatalDiag env.submitRes .SwapChainHelper 296],
          .error .abort⟩) ∧
    (∀ res file line, Call.fatalDiag res file line ∈ (render_and_swap ld sc sync env).trace →
      res ≠ VK_SUCCESS ∧ file = SourceFile.SwapChainHelper ∧
      ((res = env.waitRes ∧ line = 279) ∨ (res = env.resetRes ∧ line = 280) ∨
        (res = env.submitRes ∧ line = 296) ∨ (res = env.presentRes ∧ line = 310))) ∧
    ((render_and_swap ld sc sync env).result = .ok () ↔
      (env.waitRes = VK_SUCCESS ∧ env.resetRes = VK_SUCCESS ∧ env.submitRes = VK_SUCCESS ∧
        env.presentRes = VK_SUCCESS)) ∧
    (∀ (inp : FrameInput) (rest : List FrameInput) (st : LoopState),
      st.window.is_alive = true → inp.acquireRes = VK_SUCCESS → inp.render = env →
      (env.waitRes ≠ VK_SUCCESS ∨ env.resetRes ≠ VK_SUCCESS ∨ env.submitRes ≠ VK_SUCCESS) →
      (mainLoop ld sync (inp :: rest) st).result = .error .abort ∧
      (mainLoop ld sync (inp :: rest) st).trace = (loopBody ld sync inp st).trace ∧
      ∀ c ∈ (mainLoop ld sync (inp :: rest) st).trace, ∀ i, stepOf c ≠ some (Step.present i)) := by
  refine ⟨?_, ?_, ?_, ?_, ?_, ?_⟩
  · intro h1
    rw [render_and_swap_eq]
    simp [h1]
  · intro h1 h2
    rw [render_and_swap_eq]
    simp [h1, h2]
  · intro h1 h2 h3
    rw [render_and_swap_eq]
    simp [h1, h2, h3]
  · intro res file line hmem
    rw [render_and_swap_eq] at hmem
    simp only [] at hmem
    split_ifs at hmem <;> simp at hmem <;>
      (obtain ⟨rfl, rfl, rfl⟩ := hmem; exact ⟨by assumption, rfl, by simp⟩)
  · rw [render_and_swap_eq]
    simp only []
    by_cases h1 : env.waitRes = VK_SUCCESS <;>
    by_cases h2 : env.resetRes = VK_SUCCESS <;>
    by_cases h3 : env.submitRes = VK_SUCCESS <;>
    by_cases h4 : env.presentRes = VK_SUCCESS <;>
    simp [h1, h2, h3, h4]
  · intro inp rest st halive hacq henv hfail
    have hres : (loopBody ld sync inp st).result = .error .abort := by
      rw [loopBody_eq, henv]
      simp only [render_and_swap_eq]
      by_cases h1 : env.waitRes = VK_SUCCESS
      · by_cases h2 : env.resetRes = VK_SUCCESS
        · by_cases h3 : env.submitRes = VK_SUCCESS
          · simp [h1, h2, h3] at hfail
          · simp [hacq, h1, h2, h3]
        · simp [hacq, h1, h2]
      · simp [hacq, h1]
    rw [mainLoop_of_body_error ld sync inp rest st .abort halive hres]
    refine ⟨rfl, rfl, ?_⟩
    intro c hc i
    simp only [] at hc
    rw [loopBody_eq, henv] at hc
    simp only [render_and_swap_eq] at hc
    have hdrain : ∀ c ∈ drainCalls inp.events, stepOf c ≠ some (Step.present i) := by
      intro c hc
      rcases stepOf_drainCalls inp.events c hc with h | h | h <;> simp [h]
    by_cases h1 : env.waitRes = VK_SUCCESS
    · by_cases h2 : env.resetRes = VK_SUCCESS
      · by_cases h3 : env.submitRes = VK_SUCCESS
        · simp [h1, h2, h3] at hfail
        · simp only [hacq, h1, h2, h3, ne_eq, not_true_eq_false, not_false_eq_true, if_true,
            if_false, List.mem_append, List.mem_cons, List.mem_singleton, List.not_mem_nil,
            or_false] at hc
          rcases hc with (hc | hc | hc) | hc | hc | hc | hc | hc
          · exact hdrain c hc
          all_goals (subst hc; simp [stepOf])
      · simp only [hacq, h1, h2, ne_eq, not_true_eq_false, not_false_eq_true, if_true,
          if_false, List.mem_append, List.mem_cons, List.mem_singleton, List.not_mem_nil,
          or_false] at hc
        rcases hc with (hc | hc | hc) | hc | hc | hc | hc
        · exact hdrain c hc
        all_goals (subst hc; simp [stepOf])
    · simp only [hacq, h1, ne_eq, not_true_eq_false, not_false_eq_true, if_true,
        if_false, List.mem_append, List.mem_cons, List.mem_singleton, List.not_mem_nil,
        or_false] at hc
      rcases hc with (hc | hc | hc) | hc | hc | hc
      · exact hdrain c hc
      all_goals (subst hc; simp [stepOf])

theorem render_and_swap_failure_is_fatal_witness :
    render_and_swap sample.device sample.state.swapchain sample.sync
        { sample.renderOk with submitRes := VK_ERROR_DEVICE_LOST } =
      ⟨[Call.waitForFences 0 UINT64_MAX VK_SUCCESS, Call.resetFences 0 VK_SUCCESS,
        Call.queueSubmit 4 0 [20] [VK_PIPELINE_STAGE_COLOR_ATTACHMENT_OUTPUT_BIT] [21] 0
          VK_ERROR_DEVICE_LOST,
        Call.fatalDiag VK_ERROR_DEVICE_LOST .SwapChainHelper 296], .error .abort⟩ :=
  (render_and_swap_failure_is_fatal sample.device sample.state.swapchain sample.sync
    { sample.renderOk with submitRes := VK_ERROR_DEVICE_LOST }).2.2.1 rfl rfl (by decide)

end clearscreen
end ct

namespace ct

namespace clearscreen
open Run vulkan vulkan.swapchain windowmanager.xcb trace

/-! ### Semaphores -/

theorem semaphoreChain_drainCalls (p r : Handle) (w : List Handle) (events : List XcbEvent) :
    ∀ c ∈ drainCalls events, semaphoreChain p r w c = true := by
  induction events with
  | nil => simp [drainCalls, semaphoreChain]
  | cons e es ih =>
    intro c hc
    simp only [drainCalls, List.mem_cons] at hc
    rcases hc with rfl | rfl | hc
    · rfl
    · rfl
    · exact ih c hc

/-- Every call of a pass of the loop keeps to the semaphore chain, with the
present waiting on `render_complete` if that handle is not null and on nothing
if it is. -/
theorem semaphoreChain_loopBody (ld : LogicalDevice) (sync : Synchronization) (inp : FrameInput)
    (st : LoopState) :
    ∀ c ∈ (loopBody ld sync inp st).trace,
      semaphoreChain sync.present_complete sync.render_complete
        (if sync.render_complete ≠ VK_NULL_HANDLE then [sync.render_complete] else []) c = true := by
  intro c hc
  rw [loopBody_eq] at hc
  simp only [render_and_swap_eq] at hc
  split_ifs at hc <;>
    simp only [List.mem_append, List.mem_cons, List.mem_singleton, List.not_mem_nil,
      or_false] at hc <;>
    rcases hc with (hc | hc) | hc <;>
    first
    | exact semaphoreChain_drainCalls _ _ _ _ c hc
    | (rcases hc with rfl | rfl | rfl | rfl | rfl | rfl | rfl <;> simp [semaphoreChain, *])

/-- C12, the claim refuted on a run: with `synchronization.render_complete`
equal to `VK_NULL_HANDLE` (which is what `create_synchronization` returns when
the creation of that semaphore fails and stores nothing into a handle that was
null) the submission signals the null handle and the present call waits on no
semaphore at all. -/
theorem semaphore_chain_counterexample :
    (create_synchronization [10, 11, 12]
        { present_complete := 0, render_complete := 0, overlay_complete := 0, wait_fences := [] }
        { sample.syncAnswer with render_complete := (VK_ERROR_DEVICE_LOST, none) }).result =
      .ok sample.syncNoRender ∧
    (loopBody sample.device sample.syncNoRender (sample.frame 1) sample.state).trace =
      [Call.pollForEvent none, Call.advance 0,
       Call.acquireNextImage 50 UINT64_MAX 20 VK_NULL_HANDLE VK_SUCCESS (some 1),
       Call.draw,
       Call.waitForFences 1 UINT64_MAX VK_SUCCESS, Call.resetFences 1 VK_SUCCESS,
       Call.queueSubmit 4 1 [20] [VK_PIPELINE_STAGE_COLOR_ATTACHMENT_OUTPUT_BIT]
         [VK_NULL_HANDLE] 1 VK_SUCCESS,
       Call.queuePresent 4 50 1 [] VK_SUCCESS] ∧
    (loopBody sample.device sample.syncNoRender (sample.frame 1) sample.state).result =
      .ok { sample.state with
            swapchain := { sample.state.swapchain with current_buffer := 1 }
            iteration_counter := 1 } := by
  refine ⟨rfl, ?_, rfl⟩
  decide

/-- C12 as amended: in every pass of the loop, for every image index, the
semaphore handed to the acquire is `synchronization.present_complete`; the
queue submission waits on that semaphore alone, at the color-attachment-output
stage, and signals `synchronization.render_complete` alone plus the fence of
the slot; and the present call waits on that same `render_complete`, provided
the handle is not `VK_NULL_HANDLE` (were it null, the present would wait on no
semaphore).  The handles are those of the one `Synchronization` object for the
whole run of the loop. -/
theorem semaphores_form_one_chain (ld : LogicalDevice) (sync : Synchronization)
    (inputs : List FrameInput) (st : LoopState)
    (hrender : sync.render_complete ≠ VK_NULL_HANDLE) :
    (∀ c ∈ (mainLoop ld sync inputs st).trace,
      semaphoreChain sync.present_complete sync.render_complete [sync.render_complete] c = true) ∧
    (∀ inp ∈ inputs, ∀ s, ∀ st', (loopBody ld sync inp s).result = .ok st' →
      (loopBody ld sync inp s).trace.filter takesSemaphores =
        [Call.acquireNextImage s.swapchain.swapchain UINT64_MAX sync.present_complete
           VK_NULL_HANDLE VK_SUCCESS inp.acquireWritten,
         Call.queueSubmit ld.queue_graphics (inp.acquireWritten.getD s.swapchain.current_buffer)
           [sync.present_complete] [VK_PIPELINE_STAGE_COLOR_ATTACHMENT_OUTPUT_BIT]
           [sync.render_complete] (inp.acquireWritten.getD s.swapchain.current_buffer)
           VK_SUCCESS,
         Call.queuePresent ld.queue_graphics s.swapchain.swapchain
           (inp.acquireWritten.getD s.swapchain.current_buffer) [sync.render_complete]
           VK_SUCCESS]) := by
  constructor
  · have h := mainLoop_forall ld sync
      (fun c => semaphoreChain sync.present_complete sync.render_complete
        (if sync.render_complete ≠ VK_NULL_HANDLE then [sync.render_complete] else []) c = true)
      (semaphoreChain_loopBody ld sync) inputs st
    simpa [hrender] using h
  · intro inp _ s st' hst'
    obtain ⟨h0, h1, h2, h3, h4⟩ := (loopBody_ok_iff ld sync inp s).1 ⟨st', hst'⟩
    rw [loopBody_eq]
    have hdrain : (drainCalls inp.events).filter takesSemaphores = [] := by
      rw [List.filter_eq_nil_iff]
      intro c hc
      have := stepOf_drainCalls inp.events c hc
      cases c <;> simp [stepOf, takesSemaphores] at this ⊢
    simp [render_and_swap_eq, h0, h1, h2, h3, h4, hrender, hdrain, takesSemaphores,
      List.filter_cons]

/-- Witness for C12: a pass that acquires image 1 hands the semaphores 20 and
21 along the chain acquire, submit, present. -/
theorem semaphores_form_one_chain_witness :
    (loopBody sample.device sample.sync (sample.frame 1) sample.aliveState).trace.filter
        takesSemaphores =
      [Call.acquireNextImage 50 UINT64_MAX 20 VK_NULL_HANDLE VK_SUCCESS (some 1),
       Call.queueSubmit 4 1 [20] [VK_PIPELINE_STAGE_COLOR_ATTACHMENT_OUTPUT_BIT] [21] 1
         VK_SUCCESS,
       Call.queuePresent 4 50 1 [21] VK_SUCCESS] :=
  (semaphores_form_one_chain sample.device sample.sync [sample.frame 1] sample.aliveState
    (by decide)).2 (sample.frame 1) (List.mem_singleton.2 rfl) sample.aliveState
    { sample.aliveState with
      swapchain := { sample.aliveState.swapchain with current_buffer := 1 }
      iteration_counter := 1 } rfl

end clearscreen
end ct

namespace ct
namespace clearscreen
open Run vulkan vulkan.swapchain windowmanager.xcb trace

/-! ### The hooks, and the end of the loop -/

/-- C14, the claim refuted on a pass: `world.draw` is called right after the
acquire, and the wait on the fence of the acquired index and its reset come
after it, inside `render_and_swap`. -/
theorem draw_hook_counterexample :
    (loopBody sample.device sample.sync (sample.frame 1) sample.aliveState).trace =
      [Call.pollForEvent none, Call.advance 0,
       Call.acquireNextImage 50 UINT64_MAX 20 VK_NULL_HANDLE VK_SUCCESS (some 1)] ++
      Call.draw ::
      [Call.waitForFences 1 UINT64_MAX VK_SUCCESS, Call.resetFences 1 VK_SUCCESS,
       Call.queueSubmit 4 1 [20] [VK_PIPELINE_STAGE_COLOR_ATTACHMENT_OUTPUT_BIT] [21] 1
         VK_SUCCESS,
       Call.queuePresent 4 50 1 [21] VK_SUCCESS] ∧
    (loopBody sample.device sample.sync (sample.frame 1) sample.aliveState).trace.filterMap
        stepOf =
      [Step.polledNull, Step.advance, Step.acquire, Step.draw, Step.wait 1, Step.reset 1,
       Step.submit 1 1, Step.present 1] := by
  constructor <;> decide

/-- C14 as amended: in every pass of the main loop the `advance` hook is called
after the event drain and before the acquire, and the `draw` hook is called
right after a successful acquire and before `render_and_swap`, that is before
the wait on the fence of the acquired index, before its reset and before the
queue submission; the wait is the first call `render_and_swap` makes, and
neither hook is called from inside it or from the drain. -/
theorem draw_hook_precedes_fence_wait (ld : LogicalDevice) (sync : Synchronization)
    (inp : FrameInput) (st : LoopState) :
    let sc : SwapChain :=
      { st.swapchain with
        current_buffer := inp.acquireWritten.getD st.swapchain.current_buffer }
    (loopBody ld sync inp st).trace =
      drainCalls inp.events ++
      [Call.advance st.iteration_counter,
       Call.acquireNextImage st.swapchain.swapchain UINT64_MAX sync.present_complete
         VK_NULL_HANDLE inp.acquireRes inp.acquireWritten] ++
      (if inp.acquireRes ≠ VK_SUCCESS then
        [Call.fatalDiag inp.acquireRes .SwapChainHelper 273]
      else Call.draw :: (render_and_swap ld sc sync inp.render).trace) ∧
    (∃ later, (render_and_swap ld sc sync inp.render).trace =
      Call.waitForFences sc.current_buffer UINT64_MAX inp.render.waitRes :: later) ∧
    (∀ c ∈ (render_and_swap ld sc sync inp.render).trace,
      stepOf c ≠ some Step.draw ∧ stepOf c ≠ some Step.advance) ∧
    (∀ c ∈ drainCalls inp.events,
      stepOf c ≠ some Step.draw ∧ stepOf c ≠ some Step.advance ∧
      stepOf c ≠ some Step.acquire) := by
  refine ⟨?_, ?_, ?_, ?_⟩
  · rw [loopBody_eq]
    simp only []
    split_ifs <;> rfl
  · rw [render_and_swap_eq]
    simp only []
    split_ifs <;> exact ⟨_, rfl⟩
  · rw [render_and_swap_eq]
    simp only []
    split_ifs <;> simp [stepOf]
  · intro c hc
    rcases stepOf_drainCalls inp.events c hc with h | h | h <;> simp [h]

theorem draw_hook_precedes_fence_wait_witness :
    (loopBody sample.device sample.sync (sample.closeFrame 2) sample.aliveState).trace =
      drainCalls [{ response_type := XCB_CLIENT_MESSAGE, data32_0 := 99 }] ++
      [Call.advance 0,
       Call.acquireNextImage 50 UINT64_MAX 20 VK_NULL_HANDLE VK_SUCCESS (some 2)] ++
      Call.draw ::
      (render_and_swap sample.device
        { sample.state.swapchain with current_buffer := 2 } sample.sync sample.renderOk).trace :=
  (draw_hook_precedes_fence_wait sample.device sample.sync (sample.closeFrame 2)
    sample.aliveState).1

/-- The calls of a pass do not depend on the value of `window.is_alive` at its
start. -/
theorem loopBody_trace_alive (ld : LogicalDevice) (sync : Synchronization) (inp : FrameInput)
    (st : LoopState) (b : Bool) :
    (loopBody ld sync inp { st with window := { st.window with is_alive := b } }).trace =
      (loopBody ld sync inp st).trace := by
  rw [loopBody_eq, loopBody_eq]
  simp only []
  split_ifs <;> rfl

/-- A pass that does not return ends the process by a failed assertion. -/
theorem loopBody_error_abort (ld : LogicalDevice) (sync : Synchronization) (inp : FrameInput)
    (st : LoopState) (h : Halt) (herr : (loopBody ld sync inp st).result = .error h) :
    h = .abort := by
  rw [loopBody_eq] at herr
  simp only [render_and_swap_eq] at herr
  split_ifs at herr <;> simp at herr <;> exact herr.symm

/-- C15: the termination flag is tested only at the head of the loop.  When
the event drain of a pass leaves `window.is_alive` false, the rest of the pass
is issued as in any other pass (the calls of a pass are the same whatever the
value of the flag): if all driver calls succeed it performs the acquire, the
fence wait, the reset, the submit and the present exactly once each and the
loop is then left; if one of them fails the process ends inside the pass.  In
both cases no further pass starts, whatever inputs would follow. -/
theorem close_event_ends_loop_after_pass (ld : LogicalDevice) (sync : Synchronization)
    (inp : FrameInput) (rest : List FrameInput) (st : LoopState)
    (halive : st.window.is_alive = true)
    (hclose : (handleAll inp.events st.window).is_alive = false) :
    let cb := inp.acquireWritten.getD st.swapchain.current_buffer
    let allOk := inp.acquireRes = VK_SUCCESS ∧ inp.render.waitRes = VK_SUCCESS ∧
      inp.render.resetRes = VK_SUCCESS ∧ inp.render.submitRes = VK_SUCCESS ∧
      inp.render.presentRes = VK_SUCCESS
    (mainLoop ld sync (inp :: rest) st).trace = (loopBody ld sync inp st).trace ∧
    (∀ b, (loopBody ld sync inp
        { st with window := { st.window with is_alive := b } }).trace =
      (loopBody ld sync inp st).trace) ∧
    (allOk →
      (mainLoop ld sync (inp :: rest) st).result =
        .ok (.left { window := handleAll inp.events st.window
                     swapchain := { st.swapchain with current_buffer := cb }
                     iteration_counter := (st.iteration_counter + 1) % 2 ^ 64 }) ∧
      ((mainLoop ld sync (inp :: rest) st).trace.filterMap stepOf).filter Step.isGraphics =
        [Step.acquire, Step.wait cb, Step.reset cb, Step.submit cb cb, Step.present cb]) ∧
    (¬allOk → (mainLoop ld sync (inp :: rest) st).result = .error .abort) := by
  have hleft : ∀ st', (loopBody ld sync inp st).result = .ok st' →
      mainLoop ld sync (inp :: rest) st = ⟨(loopBody ld sync inp st).trace, .ok (.left st')⟩ ∧
      st' = { window := handleAll inp.events st.window
              swapchain := { st.swapchain with
                current_buffer := inp.acquireWritten.getD st.swapchain.current_buffer }
              iteration_counter := (st.iteration_counter + 1) % 2 ^ 64 } := by
    intro st' hst'
    obtain ⟨h0, h1, h2, h3, h4⟩ := (loopBody_ok_iff ld sync inp st).1 ⟨st', hst'⟩
    have hval := hst'
    rw [loopBody_eq] at hval
    simp only [render_and_swap_eq, h0, h1, h2, h3, h4, ne_eq, not_true_eq_false, if_false,
      Except.ok.injEq] at hval
    refine ⟨?_, hval.symm⟩
    have hdead : st'.window.is_alive = false := by rw [← hval]; exact hclose
    rw [mainLoop_cons]
    simp only [halive, if_true, hst']
    cases rest with
    | nil => simp [mainLoop_nil, hdead, Run.pure]
    | cons i r => simp [mainLoop_cons, hdead, Run.pure]
  refine ⟨?_, fun b => loopBody_trace_alive ld sync inp st b, ?_, ?_⟩
  · cases hres : (loopBody ld sync inp st).result with
    | ok st' => rw [(hleft st' hres).1]
    | error h => rw [mainLoop_of_body_error ld sync inp rest st h halive hres]
  · intro hall
    obtain ⟨st', hst'⟩ := (loopBody_ok_iff ld sync inp st).2 hall
    obtain ⟨hloop, hval⟩ := hleft st' hst'
    obtain ⟨h0, h1, h2, h3, h4⟩ := hall
    rw [hloop, hval]
    refine ⟨rfl, ?_⟩
    rw [loopBody_eq]
    simp [render_and_swap_eq, h0, h1, h2, h3, h4, stepOf, filterMap_stepOf_drainCalls,
      List.filter_cons, Step.isGraphics, List.filter_append, List.filter_replicate]
  · intro hnot
    cases hres : (loopBody ld sync inp st).result with
    | ok st' => exact absurd ((loopBody_ok_iff ld sync inp st).1 ⟨st', hres⟩) hnot
    | error h =>
      rw [mainLoop_of_body_error ld sync inp rest st h halive hres]
      rw [loopBody_error_abort ld sync inp st h hres]

theorem close_event_ends_loop_after_pass_witness :
    (mainLoop sample.device sample.sync [sample.closeFrame 2, sample.frame 0, sample.frame 1]
        sample.aliveState).result =
      .ok (.left { window := { sample.state.window with is_alive := false }
                   swapchain := { sample.state.swapchain with current_buffer := 2 }
                   iteration_counter := 1 }) :=
  ((close_event_ends_loop_after_pass sample.device sample.sync (sample.closeFrame 2)
    [sample.frame 0, sample.frame 1] sample.aliveState rfl rfl).2.2.1
    ⟨rfl, rfl, rfl, rfl, rfl⟩).1

end clearscreen
end ct

namespace ct
namespace vulkan
namespace swapchain
open Run

/-! ### `create`, written out -/

/-- The image views created by the view loop of `create` are those of the slots
from `i` on, in order, all with the given format. -/
theorem viewLoop_imageViews (color_format : VkFormat) (view : Nat → VkResult × Handle)
    (n : Nat) : ∀ i, ∃ k, k ≤ n ∧
      trace.imageViews (create.viewLoop color_format view n i).trace =
        (List.range' i k).map (fun j => (j, color_format)) := by
  induction n with
  | zero => intro i; exact ⟨0, le_refl _, rfl⟩
  | succ n ih =>
    intro i
    obtain ⟨k, hk, hviews⟩ := ih (i + 1)
    unfold create.viewLoop
    by_cases h : (view i).1 = VK_SUCCESS
    · rcases hr : create.viewLoop color_format view n (i + 1) with ⟨t, r⟩
      rw [hr] at hviews
      simp only [] at hviews
      refine ⟨k + 1, by omega, ?_⟩
      cases r <;>
        simp [h, hr, trace.imageViews, trace.imageViewOf, List.range'_succ, Run.pure] <;>
        simpa [trace.imageViews] using hviews
    · exact ⟨1, by omega, by simp [h, trace.imageViews, trace.imageViewOf, List.range'_succ]⟩

/-- When the view loop of `create` returns, it has created the view of every
slot with success and returns the handles in slot order. -/
theorem viewLoop_ok (color_format : VkFormat) (view : Nat → VkResult × Handle) (n : Nat) :
    ∀ i written, (create.viewLoop color_format view n i).result = .ok written →
      written = (List.range' i n).map (fun j => (view j).2) ∧
      (create.viewLoop color_format view n i).trace =
        (List.range' i n).map (fun j => Call.createImageView j color_format VK_SUCCESS) := by
  induction n with
  | zero =>
    intro i written h
    simp only [create.viewLoop, result_pure, Except.ok.injEq] at h
    subst h
    exact ⟨rfl, rfl⟩
  | succ n ih =>
    intro i written h
    unfold create.viewLoop at h ⊢
    by_cases hs : (view i).1 = VK_SUCCESS
    · rcases hr : create.viewLoop color_format view n (i + 1) with ⟨t, r⟩
      cases r with
      | error e => simp [hs, hr] at h
      | ok rest =>
        have hrest := ih (i + 1) rest (by rw [hr])
        rw [hr] at hrest
        simp only [] at hrest
        simp only [hs, hr, check_bind, if_true, emit_bind, mk_ok_bind, Run.pure,
          List.append_nil, Except.ok.injEq] at h ⊢
        subst h
        simp [List.range'_succ, hrest.1, hrest.2, ← hs]
    · simp [hs] at h

/-- The body of `create` written out: each way it can end, and the swapchain it
returns. -/
theorem create_eq (width height : Nat) (surface : Handle) (env : CreateAnswer)
    (sc : SwapChain) :
    create width height surface env sc =
      let ci := create.swapchainCI width height surface env.surfCaps sc
      let n := env.imagecount.getD sc.imagecount
      let loop := create.viewLoop sc.color_format env.view n 0
      let caps := Call.getSurfaceCapabilities env.capsRes
      let modes1 := Call.getSurfacePresentModes env.presentModesRes1
      let modes2 := Call.getSurfacePresentModes env.presentModesRes2
      let make := Call.createSwapchain ci env.createRes
      let images1 := Call.getSwapchainImages env.imagesRes1
      let images2 := Call.getSwapchainImages env.imagesRes2
      if env.capsRes ≠ VK_SUCCESS then
        ⟨[caps, .fatalDiag env.capsRes .SwapChainHelper 162], .error .abort⟩
      else if env.presentModesRes1 ≠ VK_SUCCESS then
        ⟨[caps, modes1, .fatalDiag env.presentModesRes1 .SwapChainHelper 166], .error .abort⟩
      else if env.presentModeCount = 0 then ⟨[caps, modes1], .error .abort⟩
      else if env.presentModesRes2 ≠ VK_SUCCESS then
        ⟨[caps, modes1, modes2, .fatalDiag env.presentModesRes2 .SwapChainHelper 170],
          .error .abort⟩
      else if env.createRes ≠ VK_SUCCESS then
        ⟨[caps, modes1, modes2, make, .fatalDiag env.createRes .SwapChainHelper 235],
          .error .abort⟩
      else if env.imagesRes1 ≠ VK_SUCCESS then
        ⟨[caps, modes1, modes2, make, images1,
          .fatalDiag env.imagesRes1 .SwapChainHelper 238], .error .abort⟩
      else if env.imagesRes2 ≠ VK_SUCCESS then
        ⟨[caps, modes1, modes2, make, images1, images2,
          .fatalDiag env.imagesRes2 .SwapChainHelper 243], .error .abort⟩
      else
        ⟨[caps, modes1, modes2, make, images1, images2] ++ loop.trace,
          match loop.result with
          | .ok written => .ok
              { current_buffer := sc.current_buffer
                swapchain := env.newSwapchain.getD sc.swapchain
                color_format := sc.color_format
                color_space := sc.color_space
                imagecount := n
                images := (List.range n).map env.image
                views := written ++ (resize sc.views n).drop written.length }
          | .error h => .error h⟩ := by
  unfold create
  by_cases h1 : env.capsRes = VK_SUCCESS
  swap
  · simp [h1]
  by_cases h2 : env.presentModesRes1 = VK_SUCCESS
  swap
  · simp [h1, h2]
  by_cases h3 : env.presentModeCount = 0
  · simp [h1, h2, h3]
  have h3' : env.presentModeCount > 0 := Nat.pos_of_ne_zero h3
  by_cases h4 : env.presentModesRes2 = VK_SUCCESS
  swap
  · simp [h1, h2, h3, h3', h4]
  by_cases h5 : env.createRes = VK_SUCCESS
  swap
  · simp [h1, h2, h3, h3', h4, h5]
  by_cases h6 : env.imagesRes1 = VK_SUCCESS
  swap
  · simp [h1, h2, h3, h3', h4, h5, h6]
  by_cases h7 : env.imagesRes2 = VK_SUCCESS
  swap
  · simp [h1, h2, h3, h3', h4, h5, h6, h7]
  rcases hr : create.viewLoop sc.color_format env.view
    (env.imagecount.getD sc.imagecount) 0 with ⟨t, r⟩
  cases r <;> simp [h1, h2, h3, h3', h4, h5, h6, h7, hr, Run.pure]

/-- When `create` returns, every call has succeeded: the trace and the
swapchain returned. -/
theorem create_ok (width height : Nat) (surface : Handle) (env : CreateAnswer)
    (sc sc' : SwapChain) (h : (create width height surface env sc).result = .ok sc') :
    let n := env.imagecount.getD sc.imagecount
    sc' = { current_buffer := sc.current_buffer
            swapchain := env.newSwapchain.getD sc.swapchain
            color_format := sc.color_format
            color_space := sc.color_space
            imagecount := n
            images := (List.range n).map env.image
            views := (List.range n).map (fun j => (env.view j).2) } ∧
    (create width height surface env sc).trace =
      [Call.getSurfaceCapabilities VK_SUCCESS, Call.getSurfacePresentModes VK_SUCCESS,
       Call.getSurfacePresentModes VK_SUCCESS,
       Call.createSwapchain (create.swapchainCI width height surface env.surfCaps sc) VK_SUCCESS,
       Call.getSwapchainImages VK_SUCCESS, Call.getSwapchainImages VK_SUCCESS] ++
      (List.range n).map (fun j => Call.createImageView j sc.color_format VK_SUCCESS) := by
  rw [create_eq] at h ⊢
  simp only [] at h ⊢
  split_ifs at h ⊢ with h1 h2 h3 h4 h5 h6 h7
  simp only [ne_eq, not_not] at h1 h2 h4 h5 h6 h7
  cases hr : (create.viewLoop sc.color_format env.view
      (env.imagecount.getD sc.imagecount) 0).result with
  | error e => rw [hr] at h; simp at h
  | ok written =>
    obtain ⟨hw, ht⟩ := viewLoop_ok sc.color_format env.view _ 0 written hr
    rw [hr] at h
    simp only [Except.ok.injEq] at h
    rw [← h, ht, h1, h2, h4, h5, h6, h7]
    refine ⟨?_, by simp [List.range_eq_range']⟩
    have hlen : written.length = env.imagecount.getD sc.imagecount := by
      rw [hw]; simp
    have hdrop : (resize sc.views (env.imagecount.getD sc.imagecount)).drop written.length = [] := by
      rw [hlen]
      apply List.drop_eq_nil_of_le
      rw [length_resize]
    rw [hdrop, hw]
    simp [List.range_eq_range']

end swapchain
end vulkan
end ct

namespace ct
namespace vulkan
namespace swapchain
open Run

/-! ### Nothing to choose from -/

/-- C11: when the device reports zero surface formats, `check_present_support`
does not return and makes at most the one query that yields the count: it never
makes the query that fills the format list nor reads an entry; where it gets as
far as the count (the queue checks passed and the query succeeded) it ends the
process by the failed `assert(formatCount > 0)`.  When the device reports zero
present modes, `create` does not return and makes no call that creates a
swapchain or an image view; where it gets as far as the count it ends the
process by the failed `assert(presentModeCount > 0)` right after the query. -/
theorem nothing_supported_is_fatal (envP : PresentSupportAnswer) (scP : SwapChain)
    (width height : Nat) (surface : Handle) (envC : CreateAnswer) (scC : SwapChain)
    (hformats : envP.surfaceFormats = []) (hmodes : envC.presentModeCount = 0) :
    (∃ h, (check_present_support envP scP).result = .error h) ∧
    trace.formatQueries (check_present_support envP scP).trace ≤ 1 ∧
    (envP.families.length ≠ 0 →
      (check_present_support.queueIndices envP.families).1 ≠ UINT32_MAX →
      (check_present_support.queueIndices envP.families).2 ≠ UINT32_MAX →
      (check_present_support.queueIndices envP.families).1 =
        (check_present_support.queueIndices envP.families).2 →
      envP.formatsRes1 = VK_SUCCESS →
      check_present_support envP scP =
        ⟨[Call.getSurfaceFormats VK_SUCCESS], .error .abort⟩) ∧
    (∃ h, (create width height surface envC scC).result = .error h) ∧
    (∀ c ∈ (create width height surface envC scC).trace, trace.isRebuild c = false) ∧
    (envC.capsRes = VK_SUCCESS → envC.presentModesRes1 = VK_SUCCESS →
      create width height surface envC scC =
        ⟨[Call.getSurfaceCapabilities VK_SUCCESS, Call.getSurfacePresentModes VK_SUCCESS],
          .error .abort⟩) := by
  refine ⟨?_, ?_, ?_, ?_, ?_, ?_⟩
  · rw [check_present_support_eq, hformats]
    simp only []
    split_ifs <;> exact ⟨_, rfl⟩
  · rw [check_present_support_eq, hformats]
    simp only []
    split_ifs <;> simp [trace.formatQueries]
  · intro h0 h1 h2 h3 h4
    rw [check_present_support_eq, hformats]
    simp [h0, h1, h2, h3, h4]
  · rw [create_eq]
    simp only [hmodes]
    split_ifs <;> exact ⟨_, rfl⟩
  · rw [create_eq]
    simp only [hmodes]
    split_ifs <;> simp [trace.isRebuild]
  · intro h1 h2
    rw [create_eq]
    simp [hmodes, h1, h2]

theorem nothing_supported_is_fatal_witness :
    check_present_support
        { families := [(VK_QUEUE_GRAPHICS_BIT, VK_TRUE)], formatsRes1 := VK_SUCCESS,
          formatsRes2 := VK_SUCCESS, surfaceFormats := [] } sample.state.swapchain =
      ⟨[Call.getSurfaceFormats VK_SUCCESS], .error .abort⟩ ∧
    create 1280 960 40 { sample.createAnswer sample.usualCaps with presentModeCount := 0 }
        sample.state.swapchain =
      ⟨[Call.getSurfaceCapabilities VK_SUCCESS, Call.getSurfacePresentModes VK_SUCCESS],
        .error .abort⟩ :=
  ⟨(nothing_supported_is_fatal
      { families := [(VK_QUEUE_GRAPHICS_BIT, VK_TRUE)], formatsRes1 := VK_SUCCESS,
        formatsRes2 := VK_SUCCESS, surfaceFormats := [] } sample.state.swapchain
      1280 960 40 { sample.createAnswer sample.usualCaps with presentModeCount := 0 }
      sample.state.swapchain rfl rfl).2.2.1 (by decide) (by decide) (by decide) (by decide) rfl,
   (nothing_supported_is_fatal
      { families := [(VK_QUEUE_GRAPHICS_BIT, VK_TRUE)], formatsRes1 := VK_SUCCESS,
        formatsRes2 := VK_SUCCESS, surfaceFormats := [] } sample.state.swapchain
      1280 960 40 { sample.createAnswer sample.usualCaps with presentModeCount := 0 }
      sample.state.swapchain rfl rfl).2.2.2.2.2 rfl rfl⟩

/-! ### The color format stays -/

/-- The color format and color space the format selection yields do not depend
on the swapchain it starts from. -/
theorem selectFormat_independent (first : VkSurfaceFormatKHR) (rest : List VkSurfaceFormatKHR)
    (sc1 sc2 : SwapChain) :
    (check_present_support.selectFormat first rest sc1).color_format =
      (check_present_support.selectFormat first rest sc2).color_format ∧
    (check_present_support.selectFormat first rest sc1).color_space =
      (check_present_support.selectFormat first rest sc2).color_space := by
  unfold check_present_support.selectFormat
  simp only []
  split_ifs
  · exact ⟨rfl, rfl⟩
  · cases check_present_support.findB8G8R8A8 (first :: rest) <;> exact ⟨rfl, rfl⟩

/-- C18: the negotiated color format is stable.  `create` never changes
`swapchain.color_format` or `swapchain.color_space`: the swapchain it returns
has the values it was given, and it reads them for the create-info of the
swapchain and for every image view it creates.  Two runs of
`check_present_support` on the same list of supported formats return the same
color format and color space, whatever the swapchains they start from hold and
whatever else the device answers. -/
theorem color_format_is_stable (width height : Nat) (surface : Handle) (envC : CreateAnswer)
    (sc : SwapChain) (env1 env2 : PresentSupportAnswer) (sc1 sc2 : SwapChain)
    (hsame : env1.surfaceFormats = env2.surfaceFormats) :
    (∀ sc', (create width height surface envC sc).result = .ok sc' →
      sc'.color_format = sc.color_format ∧ sc'.color_space = sc.color_space) ∧
    (∀ p ∈ trace.requestedFormats (create width height surface envC sc).trace,
      p = (sc.color_format, sc.color_space)) ∧
    (∀ p ∈ trace.imageViews (create width height surface envC sc).trace,
      p.2 = sc.color_format) ∧
    (∀ r1 r2, (check_present_support env1 sc1).result = .ok r1 →
      (check_present_support env2 sc2).result = .ok r2 →
      r1.color_format = r2.color_format ∧ r1.color_space = r2.color_space) := by
  refine ⟨?_, ?_, ?_, ?_⟩
  · intro sc' h
    have := (create_ok width height surface envC sc sc' h).1
    rw [this]
    exact ⟨rfl, rfl⟩
  · intro p hp
    rw [create_eq] at hp
    simp only [] at hp
    have hloop : trace.requestedFormats (create.viewLoop sc.color_format envC.view
        (envC.imagecount.getD sc.imagecount) 0).trace = [] := by
      simp only [trace.requestedFormats, List.filterMap_eq_nil_iff]
      intro c hc
      have hrebuild := requestedImageCounts_viewLoop sc.color_format envC.view
        (envC.imagecount.getD sc.imagecount) 0
      cases c with
      | createSwapchain info res =>
        exfalso
        obtain ⟨l1, l2, hl⟩ := List.append_of_mem hc
        rw [hl, requestedImageCounts_append] at hrebuild
        simp [trace.requestedImageCounts] at hrebuild
      | _ => rfl
    have happ : ∀ a b : List Call, trace.requestedFormats (a ++ b) =
        trace.requestedFormats a ++ trace.requestedFormats b := by
      intro a b
      simp [trace.requestedFormats]
    split_ifs at hp <;>
      simp only [happ, hloop, List.append_nil] at hp <;>
      simp [trace.requestedFormats, trace.requestedFormatOf, create.swapchainCI] at hp <;>
      exact hp
  · intro p hp
    rw [create_eq] at hp
    simp only [] at hp
    obtain ⟨k, _, hk⟩ := viewLoop_imageViews sc.color_format envC.view
      (envC.imagecount.getD sc.imagecount) 0
    split_ifs at hp <;>
      simp only [trace.imageViews, List.filterMap_append, List.filterMap_cons,
        trace.imageViewOf, List.filterMap_nil, List.nil_append, List.not_mem_nil] at hp
    rw [show List.filterMap trace.imageViewOf (create.viewLoop sc.color_format envC.view
        (envC.imagecount.getD sc.imagecount) 0).trace = _ from hk] at hp
    simp only [List.mem_map] at hp
    obtain ⟨j, _, rfl⟩ := hp
    rfl
  · intro r1 r2 h1 h2
    obtain ⟨f1, l1, hf1, hr1⟩ := check_present_support_returns env1 sc1 r1 h1
    obtain ⟨f2, l2, hf2, hr2⟩ := check_present_support_returns env2 sc2 r2 h2
    rw [hsame, hf2] at hf1
    injection hf1 with ha hb
    subst ha hb hr1 hr2
    exact selectFormat_independent f2 l2 sc1 sc2

/-- Witness for C18: two devices that report the same two formats, asked from
swapchains that hold different values, both settle on B8G8R8A8_UNORM and
color space 7. -/
theorem color_format_is_stable_witness :
    ∃ r1 r2,
      (check_present_support
          { families := [(VK_QUEUE_GRAPHICS_BIT, VK_TRUE)], formatsRes1 := VK_SUCCESS,
            formatsRes2 := VK_SUCCESS, surfaceFormats := [⟨50, 1⟩, ⟨44, 7⟩] }
          sample.state.swapchain).result = .ok r1 ∧
      (check_present_support
          { families := [(VK_QUEUE_COMPUTE_BIT, VK_TRUE)], formatsRes1 := VK_SUCCESS,
            formatsRes2 := VK_SUCCESS, surfaceFormats := [⟨50, 1⟩, ⟨44, 7⟩] }
          { sample.state.swapchain with color_format := 3, color_space := 4 }).result = .ok r2 ∧
      r1.color_format = r2.color_format ∧ r1.color_space = r2.color_space :=
  ⟨{ sample.state.swapchain with color_format := VK_FORMAT_B8G8R8A8_UNORM, color_space := 7 },
   { sample.state.swapchain with color_format := VK_FORMAT_B8G8R8A8_UNORM, color_space := 7 },
   rfl, rfl,
   (color_format_is_stable 1280 960 40 (sample.createAnswer sample.usualCaps)
      sample.state.swapchain
      { families := [(VK_QUEUE_GRAPHICS_BIT, VK_TRUE)], formatsRes1 := VK_SUCCESS,
        formatsRes2 := VK_SUCCESS, surfaceFormats := [⟨50, 1⟩, ⟨44, 7⟩] }
      { families := [(VK_QUEUE_COMPUTE_BIT, VK_TRUE)], formatsRes1 := VK_SUCCESS,
        formatsRes2 := VK_SUCCESS, surfaceFormats := [⟨50, 1⟩, ⟨44, 7⟩] }
      sample.state.swapchain
      { sample.state.swapchain with color_format := 3, color_space := 4 } rfl).2.2.2 _ _ rfl rfl⟩

end swapchain
end vulkan
end ct

namespace ct
namespace vulkan
namespace swapchain
open Run

/-! ### Queue families -/

/-- Without a family that supports presentation the first queue loop of
`check_present_support` leaves the present index unset, and so does the second. -/
theorem queue_loops_without_present (families : List (VkFlags × VkBool32))
    (hnone : ∀ f ∈ families, f.2 ≠ VK_TRUE) :
    ∀ i g, (check_present_support.firstLoop families i g).2 = UINT32_MAX ∧
      check_present_support.secondLoop families i = UINT32_MAX := by
  induction families with
  | nil => intro i g; exact ⟨rfl, rfl⟩
  | cons f rest ih =>
    intro i g
    rcases f with ⟨flags, sp⟩
    have hsp : sp ≠ VK_TRUE := hnone (flags, sp) (List.mem_cons_self _ _)
    have hrest := ih (fun x hx => hnone x (List.mem_cons_of_mem _ hx))
    simp only [check_present_support.firstLoop, check_present_support.secondLoop, hsp, if_false]
    exact ⟨(hrest (i + 1) _).1, (hrest (i + 1) g).2⟩

/-- The first queue loop of `check_present_support` stops at the first family
that supports presentation and takes its index for both node indices, whatever
the capabilities of that family. -/
theorem firstLoop_at_first_present (before : List (VkFlags × VkBool32))
    (f : VkFlags × VkBool32) (after : List (VkFlags × VkBool32))
    (hbefore : ∀ x ∈ before, x.2 ≠ VK_TRUE) (hf : f.2 = VK_TRUE) :
    ∀ i g, check_present_support.firstLoop (before ++ f :: after) i g =
      (i + before.length, i + before.length) := by
  induction before with
  | nil =>
    intro i g
    rcases f with ⟨flags, sp⟩
    simp only at hf
    simp [check_present_support.firstLoop, hf]
  | cons x rest ih =>
    intro i g
    rcases x with ⟨flags, sp⟩
    have hsp : sp ≠ VK_TRUE := hbefore (flags, sp) (List.mem_cons_self _ _)
    simp only [List.cons_append, check_present_support.firstLoop, hsp, if_false,
      List.length_cons]
    have hrest := ih (fun y hy => hbefore y (List.mem_cons_of_mem _ hy)) (i + 1)
      (if (flags &&& VK_QUEUE_GRAPHICS_BIT != 0) = true then
        if g = UINT32_MAX then i else g else g)
    rw [show i + (rest.length + 1) = i + 1 + rest.length by omega]
    exact hrest

/-- A device without a family that supports presentation is turned down with
the message about a missing graphics and/or presenting queue and exit code -1. -/
theorem no_present_family_exits (env : PresentSupportAnswer) (sc : SwapChain)
    (hfam : env.families ≠ []) (hnone : ∀ f ∈ env.families, f.2 ≠ VK_TRUE) :
    check_present_support env sc =
      ⟨[Call.stderr "Could not find a graphics and/or presenting queue!"],
        .error (.exit (-1))⟩ := by
  rw [check_present_support_eq]
  have hlen : env.families.length ≠ 0 := by
    intro h
    exact hfam (List.length_eq_zero.1 h)
  have h2 : (check_present_support.queueIndices env.families).2 = UINT32_MAX := by
    simp only [check_present_support.queueIndices]
    have := queue_loops_without_present env.families hnone 0 UINT32_MAX
    simp [this.1, this.2]
  simp [hlen, h2]

/-- C19, the code at two devices.  On a device whose only queue family supports
compute and presentation but not graphics, `check_present_support` does not
report a missing queue: both node indices become 0, no message is written and
the function returns.  On a device with such a family at index 0 and a family
with graphics and presentation at index 1, the index selected is 0, a family
without the graphics capability. -/
theorem graphics_capability_is_not_checked :
    VK_QUEUE_COMPUTE_BIT &&& VK_QUEUE_GRAPHICS_BIT = 0 ∧
    check_present_support.queueIndices [(VK_QUEUE_COMPUTE_BIT, VK_TRUE)] = (0, 0) ∧
    (check_present_support
        { families := [(VK_QUEUE_COMPUTE_BIT, VK_TRUE)], formatsRes1 := VK_SUCCESS,
          formatsRes2 := VK_SUCCESS, surfaceFormats := [⟨VK_FORMAT_B8G8R8A8_UNORM, 0⟩] }
        sample.state.swapchain).trace =
      [Call.getSurfaceFormats VK_SUCCESS, Call.getSurfaceFormats VK_SUCCESS] ∧
    (check_present_support
        { families := [(VK_QUEUE_COMPUTE_BIT, VK_TRUE)], formatsRes1 := VK_SUCCESS,
          formatsRes2 := VK_SUCCESS, surfaceFormats := [⟨VK_FORMAT_B8G8R8A8_UNORM, 0⟩] }
        sample.state.swapchain).result = .ok sample.state.swapchain ∧
    check_present_support.queueIndices
        [(VK_QUEUE_COMPUTE_BIT, VK_TRUE), (VK_QUEUE_GRAPHICS_BIT, VK_TRUE)] = (0, 0) ∧
    (check_present_support
        { families := [(VK_QUEUE_COMPUTE_BIT, VK_TRUE), (VK_QUEUE_GRAPHICS_BIT, VK_TRUE)],
          formatsRes1 := VK_SUCCESS, formatsRes2 := VK_SUCCESS,
          surfaceFormats := [⟨VK_FORMAT_B8G8R8A8_UNORM, 0⟩] }
        sample.state.swapchain).result = .ok sample.state.swapchain := by
  refine ⟨by decide, by decide, by decide, rfl, by decide, rfl⟩

end swapchain

/-! ### Unchecked semaphores -/

/-- The results of the three semaphore creations play no part in
`create_synchronization`: whenever the fence creations succeed it returns, with
whatever the driver stored, or left, in the semaphore handles, and writes no
`Fatal` line. -/
theorem semaphore_results_are_ignored (command_buffer : List Handle) (sync : Synchronization)
    (env : SynchronizationAnswer)
    (hfences : ∀ i, i < command_buffer.length → (env.fence i).1 = VK_SUCCESS) :
    ∃ fs, (create_synchronization command_buffer sync env).result =
        .ok { present_complete := env.present_complete.2.getD sync.present_complete
              render_complete := env.render_complete.2.getD sync.render_complete
              overlay_complete := env.overlay_complete.2.getD sync.overlay_complete
              wait_fences := fs } := by
  obtain ⟨_, _, hall⟩ := fences_spec env.fence (resize sync.wait_fences command_buffer.length) 0
  rw [length_resize] at hall
  obtain ⟨fs, hfs⟩ := hall (fun j hj => by simpa using hfences j hj)
  rw [create_synchronization_eq]
  simp only [hfs]
  exact ⟨fs, rfl⟩

/-- C20, the code at a failing creation.  When the creation of the
`present_complete` semaphore reports `VK_ERROR_OUT_OF_HOST_MEMORY` and stores
no handle, `create_synchronization` goes on, writes no `Fatal` line and returns
normally with the handle still `VK_NULL_HANDLE`; when the creation of a fence
reports the same, the `Fatal` line for line 332 is written and the process
ends. -/
theorem semaphore_creation_is_not_checked :
    (create_synchronization [10, 11, 12]
        { present_complete := VK_NULL_HANDLE, render_complete := VK_NULL_HANDLE,
          overlay_complete := VK_NULL_HANDLE, wait_fences := [] }
        { sample.syncAnswer with
          present_complete := (VK_ERROR_OUT_OF_HOST_MEMORY, none) }).trace =
      [Call.createSemaphore VK_ERROR_OUT_OF_HOST_MEMORY, Call.createSemaphore VK_SUCCESS,
        Call.createSemaphore VK_SUCCESS,
        Call.createFence VK_FENCE_CREATE_SIGNALED_BIT VK_SUCCESS,
        Call.createFence VK_FENCE_CREATE_SIGNALED_BIT VK_SUCCESS,
        Call.createFence VK_FENCE_CREATE_SIGNALED_BIT VK_SUCCESS] ∧
    (create_synchronization [10, 11, 12]
        { present_complete := VK_NULL_HANDLE, render_complete := VK_NULL_HANDLE,
          overlay_complete := VK_NULL_HANDLE, wait_fences := [] }
        { sample.syncAnswer with
          present_complete := (VK_ERROR_OUT_OF_HOST_MEMORY, none) }).result =
      .ok { present_complete := VK_NULL_HANDLE, render_complete := 21, overlay_complete := 22,
            wait_fences := [30, 31, 32] } ∧
    (create_synchronization [10, 11, 12]
        { present_complete := VK_NULL_HANDLE, render_complete := VK_NULL_HANDLE,
          overlay_complete := VK_NULL_HANDLE, wait_fences := [] }
        { sample.syncAnswer with
          fence := fun i =>
            if i = 1 then (VK_ERROR_OUT_OF_HOST_MEMORY, 0) else (VK_SUCCESS, 30 + i) }).trace =
      [Call.createSemaphore VK_SUCCESS, Call.createSemaphore VK_SUCCESS,
        Call.createSemaphore VK_SUCCESS,
        Call.createFence VK_FENCE_CREATE_SIGNALED_BIT VK_SUCCESS,
        Call.createFence VK_FENCE_CREATE_SIGNALED_BIT VK_ERROR_OUT_OF_HOST_MEMORY,
        Call.fatalDiag VK_ERROR_OUT_OF_HOST_MEMORY .VulkanHelper 332] ∧
    (create_synchronization [10, 11, 12]
        { present_complete := VK_NULL_HANDLE, render_complete := VK_NULL_HANDLE,
          overlay_complete := VK_NULL_HANDLE, wait_fences := [] }
        { sample.syncAnswer with
          fence := fun i =>
            if i = 1 then (VK_ERROR_OUT_OF_HOST_MEMORY, 0) else (VK_SUCCESS, 30 + i) }).result =
      .error .abort := by
  refine ⟨by decide, rfl, by decide, rfl⟩

end vulkan
end ct

namespace ct
namespace vulkan
open Run

/-! ### Framebuffers -/

theorem framebufferInfos_map (info : Nat → VkFramebufferCreateInfo) (res : VkResult)
    (l : List Nat) :
    trace.framebufferInfos (l.map (fun j => Call.createFramebuffer (info j) res)) =
      l.map info := by
  induction l with
  | nil => rfl
  | cons a rest ih =>
    simp only [trace.framebufferInfos] at ih
    simp [trace.framebufferInfos, trace.framebufferInfoOf, ih]

/-- The framebuffers the loop of `setup_framebuffer_from_swapchain` creates are
those of the slots from `i` on, in order, each with the color view of its slot
and the one depth-stencil view. -/
theorem framebufferLoop_infos (answer : Nat → VkResult × Handle) (render_pass depthView : Handle)
    (width height : Nat) (color_views : List Handle) (n : Nat) :
    ∀ i, ∃ k, k ≤ n ∧
      trace.framebufferInfos (setup_framebuffer_from_swapchain.loop answer render_pass depthView
          width height color_views n i).trace =
        (List.range' i k).map (fun j =>
          { renderPass := render_pass
            attachments := [color_views.getD j VK_NULL_HANDLE, depthView]
            width := width, height := height, layers := 1 }) := by
  induction n with
  | zero => intro i; exact ⟨0, le_refl _, rfl⟩
  | succ n ih =>
    intro i
    obtain ⟨k, hk, hinfos⟩ := ih (i + 1)
    unfold setup_framebuffer_from_swapchain.loop
    by_cases h : (answer i).1 = VK_SUCCESS
    · rcases hr : setup_framebuffer_from_swapchain.loop answer render_pass depthView
        width height color_views n (i + 1) with ⟨t, r⟩
      rw [hr] at hinfos
      simp only [] at hinfos
      refine ⟨k + 1, by omega, ?_⟩
      cases r <;>
        simp [h, hr, trace.framebufferInfos, trace.framebufferInfoOf, List.range'_succ,
          Run.pure] <;>
        simpa [trace.framebufferInfos] using hinfos
    · exact ⟨1, by omega,
        by simp [h, trace.framebufferInfos, trace.framebufferInfoOf, List.range'_succ]⟩

/-- When the loop of `setup_framebuffer_from_swapchain` returns, it has created
the framebuffer of every slot with success and returns the handles in slot
order. -/
theorem framebufferLoop_ok (answer : Nat → VkResult × Handle) (render_pass depthView : Handle)
    (width height : Nat) (color_views : List Handle) (n : Nat) :
    ∀ i written,
      (setup_framebuffer_from_swapchain.loop answer render_pass depthView width height
        color_views n i).result = .ok written →
      written = (List.range' i n).map (fun j => (answer j).2) ∧
      (setup_framebuffer_from_swapchain.loop answer render_pass depthView width height
          color_views n i).trace =
        (List.range' i n).map (fun j => Call.createFramebuffer
          { renderPass := render_pass
            attachments := [color_views.getD j VK_NULL_HANDLE, depthView]
            width := width, height := height, layers := 1 } VK_SUCCESS) := by
  induction n with
  | zero =>
    intro i written h
    simp only [setup_framebuffer_from_swapchain.loop, result_pure, Except.ok.injEq] at h
    subst h
    exact ⟨rfl, rfl⟩
  | succ n ih =>
    intro i written h
    unfold setup_framebuffer_from_swapchain.loop at h ⊢
    by_cases hs : (answer i).1 = VK_SUCCESS
    · rcases hr : setup_framebuffer_from_swapchain.loop answer render_pass depthView
        width height color_views n (i + 1) with ⟨t, r⟩
      cases r with
      | error e => simp [hs, hr] at h
      | ok rest =>
        have hrest := ih (i + 1) rest (by rw [hr])
        rw [hr] at hrest
        simp only [] at hrest
        simp only [hs, hr, check_bind, if_true, emit_bind, mk_ok_bind, Run.pure,
          List.append_nil, Except.ok.injEq] at h ⊢
        subst h
        simp [List.range'_succ, hrest.1, hrest.2, ← hs]
    · simp [hs] at h

/-- The loop of `setup_framebuffer_from_swapchain` returns when the driver
reports success for every slot. -/
theorem framebufferLoop_returns (answer : Nat → VkResult × Handle)
    (render_pass depthView : Handle) (width height : Nat) (color_views : List Handle) (n : Nat) :
    ∀ i, (∀ j, j < n → (answer (i + j)).1 = VK_SUCCESS) →
      ∃ written, (setup_framebuffer_from_swapchain.loop answer render_pass depthView width
        height color_views n i).result = .ok written := by
  induction n with
  | zero => intro i _; exact ⟨[], rfl⟩
  | succ n ih =>
    intro i hall
    obtain ⟨rest, hrest⟩ := ih (i + 1) (fun j hj => by
      have := hall (j + 1) (by omega)
      rwa [show i + (j + 1) = i + 1 + j by omega] at this)
    have h0 : (answer i).1 = VK_SUCCESS := by simpa using hall 0 (by omega)
    unfold setup_framebuffer_from_swapchain.loop
    rcases hr : setup_framebuffer_from_swapchain.loop answer render_pass depthView
      width height color_views n (i + 1) with ⟨t, r⟩
    rw [hr] at hrest
    simp only [] at hrest
    subst hrest
    exact ⟨(answer i).2 :: rest, by simp [h0, hr, Run.pure]⟩

/-- The run of `setup_framebuffer_from_swapchain` in terms of its loop. -/
theorem setup_framebuffer_from_swapchain_eq (width height imagecount : Nat)
    (color_views : List Handle) (color_format : VkFormat) (color_space : VkColorSpaceKHR)
    (fb : Framebuffer) (answer : Nat → VkResult × Handle) :
    setup_framebuffer_from_swapchain width height imagecount color_views color_format
        color_space fb answer =
      let loop := setup_framebuffer_from_swapchain.loop answer fb.render_pass
        fb.depth_stencil.view width height color_views imagecount 0
      ⟨loop.trace,
        match loop.result with
        | .ok written => .ok
            { width := width, height := height, size := imagecount
              render_pass := fb.render_pass
              framebuffer := written ++ (resize fb.framebuffer imagecount).drop written.length
              depth_stencil := fb.depth_stencil
              color := { color_format := color_format, color_space := color_space } }
        | .error h => .error h⟩ := by
  unfold setup_framebuffer_from_swapchain
  simp only [length_resize]
  rcases hr : setup_framebuffer_from_swapchain.loop answer fb.render_pass
    fb.depth_stencil.view width height color_views imagecount 0 with ⟨t, r⟩
  cases r <;> simp [hr, Run.pure]

/-- When `setup_framebuffer_from_swapchain` returns: the framebuffer object
returned and the calls made. -/
theorem setup_framebuffer_from_swapchain_ok (width height imagecount : Nat)
    (color_views : List Handle) (color_format : VkFormat) (color_space : VkColorSpaceKHR)
    (fb fb' : Framebuffer) (answer : Nat → VkResult × Handle)
    (h : (setup_framebuffer_from_swapchain width height imagecount color_views color_format
      color_space fb answer).result = .ok fb') :
    fb' = { width := width, height := height, size := imagecount
            render_pass := fb.render_pass
            framebuffer := (List.range imagecount).map (fun j => (answer j).2)
            depth_stencil := fb.depth_stencil
            color := { color_format := color_format, color_space := color_space } } ∧
    (setup_framebuffer_from_swapchain width height imagecount color_views color_format
        color_space fb answer).trace =
      (List.range imagecount).map (fun j => Call.createFramebuffer
        { renderPass := fb.render_pass
          attachments := [color_views.getD j VK_NULL_HANDLE, fb.depth_stencil.view]
          width := width, height := height, layers := 1 } VK_SUCCESS) := by
  rw [setup_framebuffer_from_swapchain_eq] at h ⊢
  simp only [] at h ⊢
  cases hr : (setup_framebuffer_from_swapchain.loop answer fb.render_pass
      fb.depth_stencil.view width height color_views imagecount 0).result with
  | error e => rw [hr] at h; simp at h
  | ok written =>
    obtain ⟨hw, ht⟩ := framebufferLoop_ok answer fb.render_pass fb.depth_stencil.view
      width height color_views imagecount 0 written hr
    rw [hr] at h
    simp only [Except.ok.injEq] at h
    have hlen : written.length = imagecount := by rw [hw]; simp
    have hdrop : (resize fb.framebuffer imagecount).drop written.length = [] := by
      rw [hlen]
      apply List.drop_eq_nil_of_le
      rw [length_resize]
    rw [← h, ht, hdrop, hw]
    exact ⟨by simp [List.range_eq_range'], by simp [List.range_eq_range']⟩

/-- C16: for every image count `N` and every list of color views of length at
least `N`, `setup_framebuffer_from_swapchain` creates the framebuffers of the
slots 0, 1, ... in order and at most `N` of them; each is created with the two
attachments `color_views[i]` (position 0) and the depth-stencil view of the
`Framebuffer` object (position 1), its render pass, the given width and height
and one layer.  When it returns it has created exactly `N`, holds their `N`
handles, and has recorded `size = N`, `width` and `height` (and the color
format and space) while `render_pass` and `depth_stencil` are as before; and it
returns whenever the driver reports success for the `N` creations. -/
theorem one_framebuffer_per_image (width height imagecount : Nat) (color_views : List Handle)
    (color_format : VkFormat) (color_space : VkColorSpaceKHR) (fb : Framebuffer)
    (answer : Nat → VkResult × Handle) (hviews : imagecount ≤ color_views.length) :
    let run := setup_framebuffer_from_swapchain width height imagecount color_views
      color_format color_space fb answer
    let info : Nat → VkFramebufferCreateInfo := fun i =>
      { renderPass := fb.render_pass
        attachments := [color_views.getD i VK_NULL_HANDLE, fb.depth_stencil.view]
        width := width, height := height, layers := 1 }
    (∀ i, i < imagecount → color_views[i]? = some (color_views.getD i VK_NULL_HANDLE)) ∧
    (∃ k, k ≤ imagecount ∧ trace.framebufferInfos run.trace = (List.range k).map info) ∧
    (∀ fb', run.result = .ok fb' →
      trace.framebufferInfos run.trace = (List.range imagecount).map info ∧
      fb'.framebuffer = (List.range imagecount).map (fun i => (answer i).2) ∧
      fb'.framebuffer.length = imagecount ∧
      fb'.size = imagecount ∧ fb'.width = width ∧ fb'.height = height ∧
      fb'.render_pass = fb.render_pass ∧ fb'.depth_stencil = fb.depth_stencil ∧
      fb'.color = { color_format := color_format, color_space := color_space }) ∧
    ((∀ i, i < imagecount → (answer i).1 = VK_SUCCESS) → ∃ fb', run.result = .ok fb') := by
  refine ⟨?_, ?_, ?_, ?_⟩
  · intro i hi
    have hlt : i < color_views.length := lt_of_lt_of_le hi hviews
    simp [List.getD, List.getElem?_eq_getElem hlt]
  · obtain ⟨k, hk, hinfos⟩ := framebufferLoop_infos answer fb.render_pass
      fb.depth_stencil.view width height color_views imagecount 0
    refine ⟨k, hk, ?_⟩
    rw [setup_framebuffer_from_swapchain_eq]
    simp only []
    rw [hinfos, List.range_eq_range']
  · intro fb' h
    obtain ⟨hfb, htrace⟩ := setup_framebuffer_from_swapchain_ok width height imagecount
      color_views color_format color_space fb fb' answer h
    rw [htrace, hfb]
    exact ⟨framebufferInfos_map _ _ _, rfl, by simp, rfl, rfl, rfl, rfl, rfl, rfl⟩
  · intro hall
    obtain ⟨written, hw⟩ := framebufferLoop_returns answer fb.render_pass
      fb.depth_stencil.view width height color_views imagecount 0
      (fun j hj => by simpa using hall j hj)
    rw [setup_framebuffer_from_swapchain_eq]
    simp only [hw]
    exact ⟨_, rfl⟩

/-- Witness for C16: three color views, three framebuffers, each with its own
color view and the shared depth-stencil view. -/
theorem one_framebuffer_per_image_witness :
    (3 : Nat) ≤ [(70 : Handle), 71, 72].length ∧
    trace.framebufferInfos (setup_framebuffer_from_swapchain 1280 960 3 [70, 71, 72] 44 0
      sample.framebuffer sample.framebufferAnswer).trace =
      [{ renderPass := 80, attachments := [70, 83], width := 1280, height := 960, layers := 1 },
       { renderPass := 80, attachments := [71, 83], width := 1280, height := 960, layers := 1 },
       { renderPass := 80, attachments := [72, 83], width := 1280, height := 960, layers := 1 }] := by
  have h := one_framebuffer_per_image 1280 960 3 [70, 71, 72] 44 0
    sample.framebuffer sample.framebufferAnswer (by decide)
  obtain ⟨fb', hfb'⟩ := h.2.2.2 (fun _ _ => rfl)
  exact ⟨by decide, (h.2.2.1 fb' hfb').1⟩

end vulkan
end ct

namespace ct
namespace clearscreen
open Run vulkan vulkan.swapchain windowmanager.xcb trace

/-! ### The setup of `main` -/

/-- Sequencing keeps a property that all calls of both parts have. -/
theorem other_bind {α β : Type} (x : Run α) (f : α → Run β)
    (hx : ∀ c ∈ x.trace, isOtherSetupCall c = true)
    (hf : ∀ a, ∀ c ∈ (f a).trace, isOtherSetupCall c = true) :
    ∀ c ∈ (x >>= f).trace, isOtherSetupCall c = true := by
  rcases x with ⟨t, r⟩
  cases r with
  | error h => simpa using hx
  | ok a =>
    intro c hc
    simp only [mk_ok_bind, List.mem_append] at hc
    rcases hc with hc | hc
    · exact hx c hc
    · exact hf a c hc

theorem other_check (file : SourceFile) (line : Nat) (res : VkResult) :
    ∀ c ∈ (VK_CHECK_RESULT file line res).trace, isOtherSetupCall c = true := by
  rw [check_eq]
  split_ifs <;> simp [isOtherSetupCall]

theorem other_assert (cond : Bool) :
    ∀ c ∈ (vulkan.assert cond).trace, isOtherSetupCall c = true := by
  cases cond <;> simp [vulkan.assert, halt]

theorem other_get_memory_type (mp : VkPhysicalDeviceMemoryProperties) (typeBits : Nat)
    (properties : VkFlags) :
    ∀ c ∈ (get_memory_type mp typeBits properties).trace, isOtherSetupCall c = true := by
  unfold get_memory_type
  cases get_memory_type.loop mp properties mp.memoryTypeCount 0 typeBits <;>
    simp [error.exit, halt, isOtherSetupCall]

theorem other_create_command_pool (queue_family_index : Nat) (command_pool : Handle)
    (answer : VkResult × Option Handle) :
    ∀ c ∈ (create_command_pool queue_family_index command_pool answer).trace,
      isOtherSetupCall c = true := by
  unfold create_command_pool
  by_cases h : answer.1 = VK_SUCCESS <;> simp [h, isOtherSetupCall]

theorem other_create_queues (ld : LogicalDevice) (g q : Handle) :
    ∀ c ∈ (create_queues ld g q).trace, isOtherSetupCall c = true := by
  simp [create_queues, isOtherSetupCall]

theorem other_create_command_buffer (imagecount : Nat) (command_pool : Handle)
    (command_buffer : List Handle) (env : AllocateAnswer) :
    ∀ c ∈ (create_command_buffer imagecount command_pool command_buffer env).trace,
      isOtherSetupCall c = true := by
  rw [create_command_buffer_eq]
  simp only []
  split_ifs <;> simp [isOtherSetupCall]

theorem other_fences (fence : Nat → VkResult × Handle) (todo : List Handle) :
    ∀ i, ∀ c ∈ (create_synchronization.fences fence todo i).trace,
      isOtherSetupCall c = true := by
  induction todo with
  | nil => intro i; simp [create_synchronization.fences]
  | cons x rest ih =>
    intro i
    unfold create_synchronization.fences
    apply other_bind
    · simp [emit, isOtherSetupCall]
    intro _
    apply other_bind
    · exact other_check _ _ _
    intro _
    apply other_bind
    · exact ih (i + 1)
    intro _
    simp

theorem other_create_synchronization (command_buffer : List Handle) (sync : Synchronization)
    (env : SynchronizationAnswer) :
    ∀ c ∈ (create_synchronization command_buffer sync env).trace,
      isOtherSetupCall c = true := by
  rw [create_synchronization_eq]
  intro c hc
  simp only [List.mem_cons] at hc
  rcases hc with rfl | rfl | rfl | hc
  · rfl
  · rfl
  · rfl
  · exact other_fences _ _ _ c hc

theorem other_setup_depth_stencil (width height : Nat) (mp : VkPhysicalDeviceMemoryProperties)
    (env : DepthStencilAnswer) (ds : DepthStencil) :
    ∀ c ∈ (setup_depth_stencil width height mp env ds).trace, isOtherSetupCall c = true := by
  unfold setup_depth_stencil
  apply other_bind
  · exact other_assert _
  intro _
  apply other_bind
  · simp [emit, isOtherSetupCall]
  intro _
  apply other_bind
  · exact other_check _ _ _
  intro _
  apply other_bind
  · simp [emit, isOtherSetupCall]
  intro _
  apply other_bind
  · exact other_get_memory_type _ _ _
  intro _
  apply other_bind
  · simp [emit, isOtherSetupCall]
  intro _
  apply other_bind
  · exact other_check _ _ _
  intro _
  apply other_bind
  · simp [emit, isOtherSetupCall]
  intro _
  apply other_bind
  · exact other_check _ _ _
  intro _
  apply other_bind
  · simp [emit, isOtherSetupCall]
  intro _
  apply other_bind
  · exact other_check _ _ _
  intro _
  simp

theorem other_setup_render_pass (color_format depth_format : VkFormat) (render_pass : Handle)
    (answer : VkResult × Option Handle) :
    ∀ c ∈ (setup_render_pass color_format depth_format render_pass answer).trace,
      isOtherSetupCall c = true := by
  unfold setup_render_pass
  by_cases h : answer.1 = VK_SUCCESS <;> simp [h, isOtherSetupCall]

/-- None of the three readers finds anything among calls they do not read. -/
theorem readers_nil_of_other (t : List Call) (h : ∀ c ∈ t, isOtherSetupCall c = true) :
    framebufferInfos t = [] ∧ renderTargets t = [] ∧ imageViews t = [] := by
  simp only [framebufferInfos, renderTargets, imageViews, List.filterMap_eq_nil_iff]
  refine ⟨?_, ?_, ?_⟩ <;> intro c hc <;> have := h c hc <;>
    cases c <;> simp [isOtherSetupCall] at this <;> rfl

end clearscreen
end ct

namespace ct
namespace clearscreen
open Run vulkan vulkan.swapchain windowmanager.xcb trace

/-- When the recording loop of `build_command_buffer` returns, it has begun one
render pass in each command buffer from `i` on, in order, each targeting the
framebuffer of the same slot; it creates no framebuffer and no image view. -/
theorem buildLoop_ok (fb : Framebuffer) (answer : Nat → VkResult × VkResult) (n : Nat) :
    ∀ i, (ToyWorld.build_command_buffer.loop fb answer n i).result = .ok () →
      renderTargets (ToyWorld.build_command_buffer.loop fb answer n i).trace =
        (List.range' i n).map (fun j => (j, fb.framebuffer.getD j VK_NULL_HANDLE)) ∧
      framebufferInfos (ToyWorld.build_command_buffer.loop fb answer n i).trace = [] ∧
      imageViews (ToyWorld.build_command_buffer.loop fb answer n i).trace = [] := by
  induction n with
  | zero => intro i _; exact ⟨rfl, rfl, rfl⟩
  | succ n ih =>
    intro i h
    unfold ToyWorld.build_command_buffer.loop at h ⊢
    by_cases h1 : (answer i).1 = VK_SUCCESS
    · by_cases h2 : (answer i).2 = VK_SUCCESS
      · simp only [h1, h2, check_bind, if_true, emit_bind] at h ⊢
        obtain ⟨hr, hf, hv⟩ := ih (i + 1) h
        simp only [renderTargets, framebufferInfos, imageViews] at hr hf hv ⊢
        simp [renderTargetOf, framebufferInfoOf, imageViewOf, hr, hf, hv, List.range'_succ]
      · simp [h1, h2] at h
    · simp [h1] at h

theorem imageViews_map (format : VkFormat) (res : VkResult) (l : List Nat) :
    imageViews (l.map (fun j => Call.createImageView j format res)) =
      l.map (fun j => (j, format)) := by
  induction l with
  | nil => rfl
  | cons a rest ih =>
    simp only [imageViews] at ih
    simp [imageViews, imageViewOf, ih]

theorem readers_append (a b : List Call) :
    framebufferInfos (a ++ b) = framebufferInfos a ++ framebufferInfos b ∧
    renderTargets (a ++ b) = renderTargets a ++ renderTargets b ∧
    imageViews (a ++ b) = imageViews a ++ imageViews b := by
  simp [framebufferInfos, renderTargets, imageViews]

/-- C17: when lines 108-121 of `main` have run through with a swapchain of `N`
images (`N` is `swapchain.imagecount`), the command buffers, the fences, the
framebuffers, the image views and the images all have length `N`.  The image
views were created for the image slots 0, ..., N-1 in order and view `i` is
stored in `views[i]`; the framebuffers were created in order, framebuffer `i`
with `views[i]` as color attachment, and stored in `framebuffer[i]`; and
`build_command_buffer` has begun exactly one render pass in each command buffer
`i < N`, in order, targeting `framebuffer[i]`.  So the commands of slot `i`
render into image `i`. -/
theorem slots_line_up_after_setup (env : SetupAnswer) (m m' : MainState)
    (h : (mainSetup env m).result = .ok m') :
    let N := m'.swapchain.imagecount
    m'.logical_device.command_buffer.length = N ∧
    m'.synchronization.wait_fences.length = N ∧
    m'.framebuffer.framebuffer.length = N ∧
    m'.swapchain.views.length = N ∧
    m'.swapchain.images.length = N ∧
    m'.framebuffer.size = N ∧
    imageViews (mainSetup env m).trace =
      (List.range N).map (fun i => (i, m'.swapchain.color_format)) ∧
    m'.swapchain.views = (List.range N).map (fun i => (env.create.view i).2) ∧
    framebufferInfos (mainSetup env m).trace =
      (List.range N).map (fun i =>
        { renderPass := m'.framebuffer.render_pass
          attachments := [m'.swapchain.views.getD i VK_NULL_HANDLE,
                          m'.framebuffer.depth_stencil.view]
          width := WINDOW_WIDTH, height := WINDOW_HEIGHT, layers := 1 }) ∧
    m'.framebuffer.framebuffer = (List.range N).map (fun i => (env.framebuffer i).2) ∧
    renderTargets (mainSetup env m).trace =
      (List.range N).map (fun i => (i, m'.framebuffer.framebuffer.getD i VK_NULL_HANDLE)) := by
  have h' := h
  unfold mainSetup at h'
  simp only [result_bind_ok] at h'
  obtain ⟨sc, hsc, pool, hpool, ld, hld, cb, hcb, sync, hsync, ds, hds, rp, hrp, fb, hfb,
    u, hbuild, hm⟩ := h'
  simp only [result_pure, Except.ok.injEq] at hm
  -- the calls, part by part
  have htrace : (mainSetup env m).trace =
      (create WINDOW_WIDTH WINDOW_HEIGHT m.window.surface env.create m.swapchain).trace ++
      ((create_command_pool m.logical_device.queue_family_indices.graphics
          m.logical_device.command_pool env.command_pool).trace ++
      ((create_queues { m.logical_device with command_pool := pool } env.queue_graphics
          env.queue_compute).trace ++
      ((create_command_buffer sc.imagecount ld.command_pool ld.command_buffer
          env.command_buffers).trace ++
      ((create_synchronization cb m.synchronization env.synchronization).trace ++
      ((setup_depth_stencil WINDOW_WIDTH WINDOW_HEIGHT ld.memory_properties env.depth_stencil
          m.framebuffer.depth_stencil).trace ++
      ((setup_render_pass sc.color_format ds.depth_format m.framebuffer.render_pass
          env.render_pass).trace ++
      ((setup_framebuffer_from_swapchain WINDOW_WIDTH WINDOW_HEIGHT sc.imagecount sc.views
          sc.color_format sc.color_space
          { m.framebuffer with depth_stencil := ds, render_pass := rp } env.framebuffer).trace ++
      (ToyWorld.build_command_buffer { ld with command_buffer := cb } fb env.record).trace))))))) := by
    unfold mainSetup
    rw [trace_bind_of_ok _ _ _ hsc, trace_bind_of_ok _ _ _ hpool, trace_bind_of_ok _ _ _ hld,
      trace_bind_of_ok _ _ _ hcb, trace_bind_of_ok _ _ _ hsync, trace_bind_of_ok _ _ _ hds,
      trace_bind_of_ok _ _ _ hrp, trace_bind_of_ok _ _ _ hfb, trace_bind_of_ok _ _ _ hbuild]
    simp
  -- what each part returned
  obtain ⟨hscv, hsct⟩ := create_ok _ _ _ _ _ _ hsc
  have hcblen : cb.length = sc.imagecount := by
    rw [create_command_buffer_eq] at hcb
    simp only [] at hcb
    split_ifs at hcb
    simp only [Except.ok.injEq] at hcb
    rw [← hcb]
    simp [length_resize]
  have hsynclen : sync.wait_fences.length = cb.length := by
    obtain ⟨_, hok, _⟩ := fences_spec env.synchronization.fence
      (resize m.synchronization.wait_fences cb.length) 0
    rw [length_resize] at hok
    rw [create_synchronization_eq] at hsync
    simp only [] at hsync
    split at hsync
    · rename_i fs hfs
      simp only [Except.ok.injEq] at hsync
      rw [← hsync]
      exact (hok fs hfs).1
    · simp at hsync
  obtain ⟨hfbv, hfbt⟩ := setup_framebuffer_from_swapchain_ok _ _ _ _ _ _ _ _ _ hfb
  have hbuildspec := buildLoop_ok fb env.record cb.length 0 hbuild
  -- the readers on the parts they do not read
  have o1 := readers_nil_of_other _ (other_create_command_pool
    m.logical_device.queue_family_indices.graphics m.logical_device.command_pool
    env.command_pool)
  have o2 := readers_nil_of_other _ (other_create_queues
    { m.logical_device with command_pool := pool } env.queue_graphics env.queue_compute)
  have o3 := readers_nil_of_other _ (other_create_command_buffer sc.imagecount ld.command_pool
    ld.command_buffer env.command_buffers)
  have o4 := readers_nil_of_other _ (other_create_synchronization cb m.synchronization
    env.synchronization)
  have o5 := readers_nil_of_other _ (other_setup_depth_stencil WINDOW_WIDTH WINDOW_HEIGHT
    ld.memory_properties env.depth_stencil m.framebuffer.depth_stencil)
  have o6 := readers_nil_of_other _ (other_setup_render_pass sc.color_format ds.depth_format
    m.framebuffer.render_pass env.render_pass)
  have hN : sc.imagecount = env.create.imagecount.getD m.swapchain.imagecount := by
    rw [hscv]
  have hcreateviews : imageViews (create WINDOW_WIDTH WINDOW_HEIGHT m.window.surface env.create
      m.swapchain).trace = (List.range sc.imagecount).map (fun i => (i, sc.color_format)) := by
    rw [hsct, (readers_append _ _).2.2, imageViews_map, hN]
    rw [hscv]
    simp [imageViews, imageViewOf]
  have hcreatefb : framebufferInfos (create WINDOW_WIDTH WINDOW_HEIGHT m.window.surface
      env.create m.swapchain).trace = [] ∧
      renderTargets (create WINDOW_WIDTH WINDOW_HEIGHT m.window.surface env.create
        m.swapchain).trace = [] := by
    have : ∀ c ∈ (create WINDOW_WIDTH WINDOW_HEIGHT m.window.surface env.create
        m.swapchain).trace, framebufferInfoOf c = none ∧ renderTargetOf c = none := by
      rw [hsct]
      intro c hc
      simp only [List.mem_append, List.mem_cons, List.mem_singleton, List.not_mem_nil,
        or_false, List.mem_map] at hc
      rcases hc with (rfl | rfl | rfl | rfl | rfl | rfl) | ⟨j, _, rfl⟩ <;> exact ⟨rfl, rfl⟩
    simp only [framebufferInfos, renderTargets, List.filterMap_eq_nil_iff]
    exact ⟨fun c hc => (this c hc).1, fun c hc => (this c hc).2⟩
  have hfbviews : imageViews (setup_framebuffer_from_swapchain WINDOW_WIDTH WINDOW_HEIGHT
      sc.imagecount sc.views sc.color_format sc.color_space
      { m.framebuffer with depth_stencil := ds, render_pass := rp } env.framebuffer).trace = [] ∧
      renderTargets (setup_framebuffer_from_swapchain WINDOW_WIDTH WINDOW_HEIGHT
        sc.imagecount sc.views sc.color_format sc.color_space
        { m.framebuffer with depth_stencil := ds, render_pass := rp } env.framebuffer).trace =
        [] := by
    rw [hfbt]
    simp only [imageViews, renderTargets, List.filterMap_eq_nil_iff]
    constructor <;> intro c hc <;> simp only [List.mem_map] at hc <;>
      obtain ⟨j, _, rfl⟩ := hc <;> rfl
  have hfbinfos : framebufferInfos (setup_framebuffer_from_swapchain WINDOW_WIDTH WINDOW_HEIGHT
      sc.imagecount sc.views sc.color_format sc.color_space
      { m.framebuffer with depth_stencil := ds, render_pass := rp } env.framebuffer).trace =
      (List.range sc.imagecount).map (fun i =>
        { renderPass := rp
          attachments := [sc.views.getD i VK_NULL_HANDLE, ds.view]
          width := WINDOW_WIDTH, height := WINDOW_HEIGHT, layers := 1 }) := by
    rw [hfbt]
    exact framebufferInfos_map _ _ _
  subst hm
  simp only []
  refine ⟨hcblen, by rw [hsynclen, hcblen], by rw [hfbv]; simp, by rw [hscv]; simp,
    by rw [hscv]; simp, by rw [hfbv], ?_, by rw [hscv], ?_, by rw [hfbv], ?_⟩
  · rw [htrace]
    simp only [readers_append, hcreateviews, o1.2.2, o2.2.2, o3.2.2, o4.2.2, o5.2.2, o6.2.2,
      hfbviews.1, List.append_nil]
    have := hbuildspec.2.2
    simp only [ToyWorld.build_command_buffer] at this ⊢
    rw [this]
    simp
  · rw [htrace]
    simp only [readers_append, hcreatefb.1, o1.1, o2.1, o3.1, o4.1, o5.1, o6.1, hfbinfos,
      List.nil_append]
    have := hbuildspec.2.1
    simp only [ToyWorld.build_command_buffer] at this ⊢
    rw [this, List.append_nil, hfbv]
  · rw [htrace]
    simp only [readers_append, hcreatefb.2, o1.2.1, o2.2.1, o3.2.1, o4.2.1, o5.2.1, o6.2.1,
      hfbviews.2, List.nil_append]
    have := hbuildspec.1
    simp only [ToyWorld.build_command_buffer] at this ⊢
    rw [this, hcblen, List.range_eq_range']

theorem slots_line_up_after_setup_witness :
    renderTargets (mainSetup sample.setupAnswer sample.mainState).trace =
      [(0, 90), (1, 91), (2, 92)] ∧
    framebufferInfos (mainSetup sample.setupAnswer sample.mainState).trace =
      [{ renderPass := 80, attachments := [70, 83], width := 1280, height := 960, layers := 1 },
       { renderPass := 80, attachments := [71, 83], width := 1280, height := 960, layers := 1 },
       { renderPass := 80, attachments := [72, 83], width := 1280, height := 960, layers := 1 }] := by
  have hrun : ∃ m', (mainSetup sample.setupAnswer sample.mainState).result = .ok m' ∧
      m'.swapchain.imagecount = 3 ∧ m'.framebuffer.framebuffer = [90, 91, 92] ∧
      m'.swapchain.views = [70, 71, 72] ∧ m'.framebuffer.render_pass = 80 ∧
      m'.framebuffer.depth_stencil.view = 83 := ⟨_, rfl, rfl, rfl, rfl, rfl, rfl⟩
  obtain ⟨m', hm', hN, hfb, hviews, hrp, hdv⟩ := hrun
  have h := slots_line_up_after_setup sample.setupAnswer sample.mainState m' hm'
  simp only [hN, hfb, hviews, hrp, hdv] at h
  exact ⟨h.2.2.2.2.2.2.2.2.2.2, h.2.2.2.2.2.2.2.2.1⟩

end clearscreen
end ct

/-! ## The close request -/

namespace ct
namespace windowmanager
namespace xcb

/-- C21: `handle_events` clears `window.is_alive` exactly on a client message
(`response_type & 0x7f` equal to `XCB_CLIENT_MESSAGE`) whose first data word is
the atom of `WM_DELETE_WINDOW`; on every other event the window comes back as
it was.  It never sets `is_alive` to true, and the other fields of the window
are never changed. -/
theorem handle_events_clears_is_alive_on_close (event : XcbEvent) (window : Window) :
    let closes : Prop := event.response_type &&& 0x7f = XCB_CLIENT_MESSAGE ∧
      event.data32_0 = window.atom_wm_delete_window
    (closes → handle_events event window = { window with is_alive := false }) ∧
    (¬ closes → handle_events event window = window) ∧
    ((handle_events event window).is_alive = true → window.is_alive = true) ∧
    (handle_events event window).surface = window.surface ∧
    (handle_events event window).connection = window.connection ∧
    (handle_events event window).screen = window.screen ∧
    (handle_events event window).window = window.window ∧
    (handle_events event window).atom_wm_delete_window = window.atom_wm_delete_window := by
  unfold handle_events
  by_cases h1 : event.response_type &&& 0x7f = XCB_CLIENT_MESSAGE
  · by_cases h2 : event.data32_0 = window.atom_wm_delete_window
    · simp [h1, h2]
    · simp [h1, h2]
  · simp [h1]

/-- Witness for C21: the close request of the window manager clears `is_alive`
of a live window, and a key press (response type 2) leaves the window as it
was. -/
theorem handle_events_clears_is_alive_on_close_witness :
    handle_events { response_type := XCB_CLIENT_MESSAGE, data32_0 := 99 }
        sample.aliveState.window =
      { sample.aliveState.window with is_alive := false } ∧
    handle_events { response_type := 2, data32_0 := 99 } sample.aliveState.window =
      sample.aliveState.window :=
  ⟨(handle_events_clears_is_alive_on_close
      { response_type := XCB_CLIENT_MESSAGE, data32_0 := 99 } sample.aliveState.window).1
      (by decide),
   (handle_events_clears_is_alive_on_close
      { response_type := 2, data32_0 := 99 } sample.aliveState.window).2.1 (by decide)⟩

end xcb
end windowmanager

/-! ## The queue checks of `check_present_support` -/

namespace vulkan
namespace swapchain
open Run

/-- A list with a family that supports presentation splits at the first such
family. -/
theorem exists_first_present (families : List (VkFlags × VkBool32))
    (h : ∃ f ∈ families, f.2 = VK_TRUE) :
    ∃ before f after, families = before ++ f :: after ∧
      (∀ x ∈ before, x.2 ≠ VK_TRUE) ∧ f.2 = VK_TRUE := by
  induction families with
  | nil =>
    obtain ⟨f, hf, _⟩ := h
    simp at hf
  | cons x rest ih =>
    by_cases hx : x.2 = VK_TRUE
    · exact ⟨[], x, rest, rfl, by simp, hx⟩
    · have hrest : ∃ f ∈ rest, f.2 = VK_TRUE := by
        obtain ⟨f, hf, hft⟩ := h
        rcases List.mem_cons.1 hf with rfl | hmem
        · exact absurd hft hx
        · exact ⟨f, hmem, hft⟩
      obtain ⟨before, f, after, hsplit, hbefore, hf⟩ := ih hrest
      refine ⟨x :: before, f, after, by simp [hsplit], ?_, hf⟩
      intro y hy
      rcases List.mem_cons.1 hy with rfl | hmem
      · exact hx
      · exact hbefore y hmem

/-- With at most `UINT32_MAX` families, of which one supports presentation,
both node indices are the index of the first such family. -/
theorem queueIndices_at_first_present (before : List (VkFlags × VkBool32))
    (f : VkFlags × VkBool32) (after : List (VkFlags × VkBool32))
    (hbefore : ∀ x ∈ before, x.2 ≠ VK_TRUE) (hf : f.2 = VK_TRUE)
    (hcount : (before ++ f :: after).length ≤ UINT32_MAX) :
    check_present_support.queueIndices (before ++ f :: after) =
      (before.length, before.length) := by
  have hlt : before.length ≠ UINT32_MAX := by
    simp only [List.length_append, List.length_cons] at hcount
    omega
  have h := firstLoop_at_first_present before f after hbefore hf 0 UINT32_MAX
  simp only [Nat.zero_add] at h
  simp [check_present_support.queueIndices, h, hlt]

/-- Without a family that supports presentation the present node index stays
`UINT32_MAX`. -/
theorem queueIndices_without_present (families : List (VkFlags × VkBool32))
    (hnone : ∀ f ∈ families, f.2 ≠ VK_TRUE) :
    (check_present_support.queueIndices families).2 = UINT32_MAX := by
  simp only [check_present_support.queueIndices]
  have := queue_loops_without_present families hnone 0 UINT32_MAX
  simp [this.1, this.2]

/-- C22: the branch `Separate graphics and presenting queues are not supported
yet!` of `check_present_support` is never taken.  For every list of queue
families (`queueCount` is a `uint32_t`, so there are at most `UINT32_MAX` of
them) and present-support flags: the message is never written; whenever
neither node index is `UINT32_MAX`, the two are equal and are the index of the
first family that supports presentation; and the function gets past the queue
checks, to the first query of the surface formats, exactly when some family
supports presentation. -/
theorem separate_queues_branch_is_unreachable (env : PresentSupportAnswer) (sc : SwapChain)
    (hcount : env.families.length ≤ UINT32_MAX) :
    let gp := check_present_support.queueIndices env.families
    Call.stderr "Separate graphics and presenting queues are not supported yet!" ∉
      (check_present_support env sc).trace ∧
    (gp.1 ≠ UINT32_MAX ∧ gp.2 ≠ UINT32_MAX →
      gp.1 = gp.2 ∧
      ∃ before f after, env.families = before ++ f :: after ∧
        (∀ x ∈ before, x.2 ≠ VK_TRUE) ∧ f.2 = VK_TRUE ∧ gp.1 = before.length) ∧
    ((check_present_support env sc).trace.head? = some (Call.getSurfaceFormats env.formatsRes1) ↔
      ∃ f ∈ env.families, f.2 = VK_TRUE) := by
  by_cases hex : ∃ f ∈ env.families, f.2 = VK_TRUE
  · obtain ⟨before, f, after, hsplit, hbefore, hf⟩ := exists_first_present env.families hex
    have hq : check_present_support.queueIndices env.families =
        (before.length, before.length) := by
      rw [hsplit]
      exact queueIndices_at_first_present before f after hbefore hf (hsplit ▸ hcount)
    have hlt : before.length ≠ UINT32_MAX := by
      have := hcount
      rw [hsplit] at this
      simp only [List.length_append, List.length_cons] at this
      omega
    have hlen : env.families.length ≠ 0 := by
      rw [hsplit]
      simp
    have hrun := check_present_support_eq env sc
    simp only [hq, hlen, hlt, if_false, or_self, ne_eq, not_true_eq_false] at hrun
    refine ⟨?_, ?_, ?_⟩
    · rw [hrun]
      by_cases h1 : env.formatsRes1 = VK_SUCCESS
      · cases hfm : env.surfaceFormats with
        | nil => simp [h1]
        | cons first rest =>
          by_cases h2 : env.formatsRes2 = VK_SUCCESS
          · simp [h1, h2]
          · simp [h1, h2]
      · simp [h1]
    · intro _
      rw [hq]
      exact ⟨rfl, before, f, after, hsplit, hbefore, hf, rfl⟩
    · refine ⟨fun _ => hex, fun _ => ?_⟩
      rw [hrun]
      by_cases h1 : env.formatsRes1 = VK_SUCCESS
      · cases hfm : env.surfaceFormats with
        | nil => simp [h1]
        | cons first rest =>
          by_cases h2 : env.formatsRes2 = VK_SUCCESS
          · simp [h1, h2]
          · simp [h1, h2]
      · simp [h1]
  · have hnone : ∀ f ∈ env.families, f.2 ≠ VK_TRUE := fun f hf ht => hex ⟨f, hf, ht⟩
    have hp := queueIndices_without_present env.families hnone
    have hrun := check_present_support_eq env sc
    simp only [hp, or_true, if_true] at hrun
    refine ⟨?_, ?_, ?_⟩
    · rw [hrun]
      by_cases hlen : env.families.length = 0
      · simp [hlen]
      · simp [hlen]
    · intro h
      exact absurd hp h.2
    · refine ⟨fun h => ?_, fun h => absurd h hex⟩
      rw [hrun] at h
      by_cases hlen : env.families.length = 0
      · simp [hlen] at h
      · simp [hlen] at h

/-- Witness for C22: with a compute family that cannot present at index 0 and a
graphics family that can at index 1, both node indices are 1 and the function
goes on to the surface formats. -/
theorem separate_queues_branch_is_unreachable_witness :
    check_present_support.queueIndices
        [(VK_QUEUE_COMPUTE_BIT, VK_FALSE), (VK_QUEUE_GRAPHICS_BIT, VK_TRUE)] = (1, 1) ∧
    Call.stderr "Separate graphics and presenting queues are not supported yet!" ∉
      (check_present_support
        { families := [(VK_QUEUE_COMPUTE_BIT, VK_FALSE), (VK_QUEUE_GRAPHICS_BIT, VK_TRUE)],
          formatsRes1 := VK_SUCCESS, formatsRes2 := VK_SUCCESS,
          surfaceFormats := [⟨VK_FORMAT_B8G8R8A8_UNORM, 0⟩] }
        sample.state.swapchain).trace :=
  ⟨by decide,
   (separate_queues_branch_is_unreachable
      { families := [(VK_QUEUE_COMPUTE_BIT, VK_FALSE), (VK_QUEUE_GRAPHICS_BIT, VK_TRUE)],
        formatsRes1 := VK_SUCCESS, formatsRes2 := VK_SUCCESS,
        surfaceFormats := [⟨VK_FORMAT_B8G8R8A8_UNORM, 0⟩] }
      sample.state.swapchain (by decide)).1⟩

end swapchain
end vulkan
end ct

/-! ## Memory types -/

namespace ct
namespace vulkan
open Run

/-- After `k` shifts the lowest bit of `typeBits` is bit `k` of the value the
function was called with. -/
theorem shifted_low_bit (typeBits k : Nat) :
    ((typeBits >>> k) &&& 1 = 1) ↔ typeBits.testBit k = true := by
  rw [Nat.testBit_to_div_mod, Nat.and_one_is_mod, Nat.shiftRight_eq_div_pow]
  simp

/-- The loop of `get_memory_type`, entered at index `i` with `typeBits`
shifted `i` times: what it returns is the first index from `i` on, below
`i + n`, whose bit is set and whose property flags contain `properties`; it
runs out exactly when there is none. -/
theorem get_memory_type_loop_spec (mp : VkPhysicalDeviceMemoryProperties) (properties : VkFlags)
    (typeBits : Nat) :
    ∀ n i,
      (∀ j, get_memory_type.loop mp properties n i (typeBits >>> i) = some j →
        i ≤ j ∧ j < i + n ∧
        (typeBits.testBit j = true ∧ mp.memoryTypes.getD j 0 &&& properties = properties) ∧
        ∀ k, i ≤ k → k < j →
          ¬ (typeBits.testBit k = true ∧ mp.memoryTypes.getD k 0 &&& properties = properties)) ∧
      (get_memory_type.loop mp properties n i (typeBits >>> i) = none →
        ∀ k, i ≤ k → k < i + n →
          ¬ (typeBits.testBit k = true ∧ mp.memoryTypes.getD k 0 &&& properties = properties)) := by
  intro n
  induction n with
  | zero =>
    intro i
    refine ⟨fun j h => ?_, fun _ k h1 h2 => ?_⟩
    · simp [get_memory_type.loop] at h
    · omega
  | succ n ih =>
    intro i
    have hshift : (typeBits >>> i) >>> 1 = typeBits >>> (i + 1) := by
      rw [← Nat.shiftRight_add]
    obtain ⟨ihsome, ihnone⟩ := ih (i + 1)
    by_cases hfit : (typeBits >>> i) &&& 1 = 1 ∧
        mp.memoryTypes.getD i 0 &&& properties = properties
    · have hloop : get_memory_type.loop mp properties (n + 1) i (typeBits >>> i) = some i := by
        simp only [get_memory_type.loop, hfit.1, hfit.2, if_true]
      rw [hloop]
      refine ⟨fun j h => ?_, fun h => ?_⟩
      · have hj : i = j := by simpa using h
        subst hj
        refine ⟨le_refl _, by omega, ⟨(shifted_low_bit typeBits i).1 hfit.1, hfit.2⟩, ?_⟩
        intro k h1 h2
        omega
      · simp at h
    · have hloop : get_memory_type.loop mp properties (n + 1) i (typeBits >>> i) =
          get_memory_type.loop mp properties n (i + 1) (typeBits >>> (i + 1)) := by
        rw [← hshift]
        by_cases hbit : (typeBits >>> i) &&& 1 = 1
        · have hflags : ¬ mp.memoryTypes.getD i 0 &&& properties = properties :=
            fun h => hfit ⟨hbit, h⟩
          simp only [get_memory_type.loop, hbit, hflags, if_true, if_false]
        · simp only [get_memory_type.loop, hbit, if_false]
      have hnot : ¬ (typeBits.testBit i = true ∧
          mp.memoryTypes.getD i 0 &&& properties = properties) :=
        fun h => hfit ⟨(shifted_low_bit typeBits i).2 h.1, h.2⟩
      rw [hloop]
      refine ⟨fun j h => ?_, fun h k h1 h2 => ?_⟩
      · obtain ⟨hle, hlt, hj, hbelow⟩ := ihsome j h
        refine ⟨by omega, by omega, hj, ?_⟩
        intro k h1 h2
        by_cases hk : k = i
        · subst hk
          exact hnot
        · exact hbelow k (by omega) h2
      · by_cases hk : k = i
        · subst hk
          exact hnot
        · exact ihnone h k (by omega) (by omega)

/-- C24: for every memory-properties table, type-bit mask and set of required
flags, `get_memory_type` returns the smallest index `i` below
`memoryTypeCount` such that bit `i` of `typeBits` is set and the property flags
of memory type `i` contain all required flags; when there is no such index it
writes `Could not find a matching memory type` and exits with code 1.  An
index it returns is below `memoryTypeCount`. -/
theorem get_memory_type_lowest_fitting (mp : VkPhysicalDeviceMemoryProperties)
    (typeBits : Nat) (properties : VkFlags) :
    let fits : Nat → Prop := fun i =>
      typeBits.testBit i = true ∧ mp.memoryTypes.getD i 0 &&& properties = properties
    (∀ i, get_memory_type mp typeBits properties = ⟨[], .ok i⟩ ↔
      (i < mp.memoryTypeCount ∧ fits i ∧ ∀ j, j < i → ¬ fits j)) ∧
    (get_memory_type mp typeBits properties =
        ⟨[Call.stderr "Could not find a matching memory type"], .error (.exit 1)⟩ ↔
      ∀ i, i < mp.memoryTypeCount → ¬ fits i) ∧
    (∀ i, (get_memory_type mp typeBits properties).result = .ok i → i < mp.memoryTypeCount) := by
  intro fits
  obtain ⟨hsome, hnone⟩ := get_memory_type_loop_spec mp properties typeBits mp.memoryTypeCount 0
  simp only [Nat.shiftRight_zero, Nat.zero_add, Nat.zero_le, true_implies] at hsome hnone
  cases hloop : get_memory_type.loop mp properties mp.memoryTypeCount 0 typeBits with
  | none =>
    have hrun : get_memory_type mp typeBits properties =
        ⟨[Call.stderr "Could not find a matching memory type"], .error (.exit 1)⟩ := by
      simp only [get_memory_type, hloop]
      rfl
    have hno := hnone hloop
    refine ⟨fun i => ?_, ?_, fun i h => ?_⟩
    · rw [hrun]
      constructor
      · intro h
        simp at h
      · intro h
        exact absurd h.2.1 (hno i h.1)
    · exact ⟨fun _ => hno, fun _ => hrun⟩
    · rw [hrun] at h
      simp at h
  | some j =>
    have hrun : get_memory_type mp typeBits properties = ⟨[], .ok j⟩ := by
      simp only [get_memory_type, hloop]
      rfl
    obtain ⟨_, hlt, hfit, hbelow⟩ := hsome j hloop
    refine ⟨fun i => ?_, ?_, fun i h => ?_⟩
    · rw [hrun]
      constructor
      · intro h
        have hij : j = i := by simpa using h
        subst hij
        exact ⟨hlt, hfit, hbelow⟩
      · intro h
        have hij : j = i := by
          rcases Nat.lt_trichotomy j i with hji | hji | hji
          · exact absurd hfit (h.2.2 j hji)
          · exact hji
          · exact absurd h.2.1 (hbelow i hji)
        rw [hij]
    · rw [hrun]
      constructor
      · intro h
        simp at h
      · intro h
        exact absurd hfit (h j hlt)
    · rw [hrun] at h
      have hij : j = i := by simpa using h
      rw [← hij]
      exact hlt

/-- Witness for C24: of three memory types with flags 2, 6 and 7, with the
type bits `0b110` and the required flags `0b101`, type 2 is the first that
fits; type 1 has its bit set but lacks flag 1, and type 0 has no bit. -/
theorem get_memory_type_lowest_fitting_witness :
    get_memory_type { memoryTypeCount := 3, memoryTypes := [2, 6, 7] } 6 5 = ⟨[], .ok 2⟩ ∧
    get_memory_type { memoryTypeCount := 3, memoryTypes := [2, 6, 7] } 1 5 =
      ⟨[Call.stderr "Could not find a matching memory type"], .error (.exit 1)⟩ :=
  ⟨((get_memory_type_lowest_fitting { memoryTypeCount := 3, memoryTypes := [2, 6, 7] } 6 5).1
      2).2 (by decide),
   (get_memory_type_lowest_fitting { memoryTypeCount := 3, memoryTypes := [2, 6, 7] } 1
      5).2.1.2 (by decide)⟩

end vulkan
end ct

/-! ## Queue families -/

namespace ct
namespace vulkan
open Run

/-- One loop of `get_queue_family_index`, entered at index `i`: what it returns
is the index of the first family of the list that passes the test; it runs out
exactly when no family passes. -/
theorem search_spec (test : VkFlags → Bool) :
    ∀ (families : List VkFlags) (i : Nat),
      (∀ j, get_queue_family_index.search test families i = some j →
        i ≤ j ∧ j - i < families.length ∧ test (families.getD (j - i) 0) = true ∧
        ∀ k, k < j - i → test (families.getD k 0) = false) ∧
      (get_queue_family_index.search test families i = none →
        ∀ k, k < families.length → test (families.getD k 0) = false) := by
  intro families
  induction families with
  | nil =>
    intro i
    refine ⟨fun j h => ?_, fun _ k hk => ?_⟩
    · simp [get_queue_family_index.search] at h
    · simp at hk
  | cons flags rest ih =>
    intro i
    by_cases ht : test flags = true
    · have hs : get_queue_family_index.search test (flags :: rest) i = some i := by
        simp [get_queue_family_index.search, ht]
      rw [hs]
      refine ⟨fun j h => ?_, fun h => ?_⟩
      · have hj : i = j := by simpa using h
        subst hj
        refine ⟨le_refl _, by simp, by simpa using ht, ?_⟩
        intro k hk
        omega
      · simp at h
    · have hf : test flags = false := by simpa using ht
      have hs : get_queue_family_index.search test (flags :: rest) i =
          get_queue_family_index.search test rest (i + 1) := by
        simp [get_queue_family_index.search, hf]
      rw [hs]
      obtain ⟨ihsome, ihnone⟩ := ih (i + 1)
      refine ⟨fun j h => ?_, fun h k hk => ?_⟩
      · obtain ⟨hle, hlt, hj, hbelow⟩ := ihsome j h
        have hji : j - i = (j - (i + 1)) + 1 := by omega
        refine ⟨by omega, ?_, ?_, ?_⟩
        · rw [hji, List.length_cons]
          omega
        · rw [hji, List.getD_cons_succ]
          exact hj
        · intro k hk
          cases k with
          | zero => simpa using hf
          | succ k =>
            rw [List.getD_cons_succ]
            exact hbelow k (by omega)
      · cases k with
        | zero => simpa using hf
        | succ k =>
          rw [List.getD_cons_succ]
          exact ihnone h k (by simpa using hk)

/-- A loop of `get_queue_family_index` entered at index 0 returns the lowest
index whose family passes the test, and runs out exactly when no family of the
list passes. -/
theorem search_zero (test : VkFlags → Bool) (families : List VkFlags) :
    (∀ j, get_queue_family_index.search test families 0 = some j ↔
      (j < families.length ∧ test (families.getD j 0) = true ∧
        ∀ k, k < j → test (families.getD k 0) = false)) ∧
    (get_queue_family_index.search test families 0 = none ↔
      ∀ f ∈ families, test f = false) := by
  obtain ⟨hsome, hnone⟩ := search_spec test families 0
  simp only [Nat.sub_zero, Nat.zero_le, true_and] at hsome
  have hmem : (∀ k, k < families.length → test (families.getD k 0) = false) →
      ∀ f ∈ families, test f = false := by
    intro h f hf
    obtain ⟨k, hk, hkf⟩ := List.getElem_of_mem hf
    have := h k hk
    rw [List.getD_eq_getElem _ _ hk, hkf] at this
    exact this
  have hidx : (∀ f ∈ families, test f = false) →
      ∀ k, k < families.length → test (families.getD k 0) = false := by
    intro h k hk
    rw [List.getD_eq_getElem _ _ hk]
    exact h _ (List.getElem_mem _)
  constructor
  · intro j
    constructor
    · exact hsome j
    · intro hj
      cases hs : get_queue_family_index.search test families 0 with
      | none =>
        have := hnone hs j hj.1
        rw [hj.2.1] at this
        exact absurd this (by simp)
      | some m =>
        obtain ⟨hm1, hm2, hm3⟩ := hsome m hs
        rcases Nat.lt_trichotomy m j with h | h | h
        · have := hj.2.2 m h
          rw [hm2] at this
          exact absurd this (by simp)
        · rw [h]
        · have := hm3 j h
          rw [hj.2.1] at this
          exact absurd this (by simp)
  · constructor
    · intro hs
      exact hmem (hnone hs)
    · intro h
      cases hs : get_queue_family_index.search test families 0 with
      | none => rfl
      | some m =>
        obtain ⟨hm1, hm2, _⟩ := hsome m hs
        have := hidx h m hm1
        rw [hm2] at this
        exact absurd this (by simp)

/-- On a device with at least one queue family `get_queue_family_index` returns
what its three loops find and throws when they find nothing; it makes no
call. -/
theorem get_queue_family_index_eq (families : List VkFlags) (queueFlags : VkFlags)
    (hne : families ≠ []) :
    get_queue_family_index families queueFlags =
      match get_queue_family_index.lookup families queueFlags with
      | some i => ⟨[], .ok i⟩
      | none => ⟨[], .error (.uncaught "Could not find a matching queue family index")⟩ := by
  have hlen : decide (families.length > 0) = true := by
    simp [List.length_pos, hne]
  unfold get_queue_family_index
  rw [assert_bind, hlen]
  simp only [if_true]
  cases get_queue_family_index.lookup families queueFlags <;> rfl

/-- C25, the claim refuted at the empty list: no family intersects the
requested flags, yet `get_queue_family_index` does not throw; the assertion
`queueFamilyCount > 0` fails first and ends the process. -/
theorem get_queue_family_index_empty_counterexample :
    (∀ f ∈ ([] : List VkFlags), f &&& VK_QUEUE_GRAPHICS_BIT = 0) ∧
    get_queue_family_index [] VK_QUEUE_GRAPHICS_BIT = ⟨[], .error .abort⟩ ∧
    get_queue_family_index [] VK_QUEUE_GRAPHICS_BIT ≠
      ⟨[], .error (.uncaught "Could not find a matching queue family index")⟩ := by
  refine ⟨by simp, rfl, ?_⟩
  intro h
  have hres := congrArg Run.result h
  have habort : (get_queue_family_index [] VK_QUEUE_GRAPHICS_BIT).result = .error .abort := rfl
  rw [habort] at hres
  simp at hres

/-- C25 as amended: for every non-empty list of queue family properties and
every requested flag set, `get_queue_family_index` returns, when the flags
contain the compute bit and some family intersects them without having the
graphics bit, the lowest such index; else, when the flags contain the transfer
bit and some family intersects them without having the graphics or the compute
bit, the lowest such index; else the lowest index of a family whose flags
intersect the requested flags; and it throws `Could not find a matching queue
family index` exactly when no family intersects them.  An index it returns is
below the number of families. -/
theorem get_queue_family_index_selection (families : List VkFlags) (queueFlags : VkFlags)
    (hne : families ≠ []) :
    let run := get_queue_family_index families queueFlags
    let lowest : (VkFlags → Prop) → Nat → Prop := fun P i =>
      i < families.length ∧ P (families.getD i 0) ∧ ∀ k, k < i → ¬ P (families.getD k 0)
    let isCompute : VkFlags → Prop := fun f =>
      f &&& queueFlags ≠ 0 ∧ f &&& VK_QUEUE_GRAPHICS_BIT = 0
    let isTransfer : VkFlags → Prop := fun f =>
      f &&& queueFlags ≠ 0 ∧ f &&& VK_QUEUE_GRAPHICS_BIT = 0 ∧ f &&& VK_QUEUE_COMPUTE_BIT = 0
    let isAny : VkFlags → Prop := fun f => f &&& queueFlags ≠ 0
    let dedicatedCompute : Prop :=
      queueFlags &&& VK_QUEUE_COMPUTE_BIT ≠ 0 ∧ ∃ f ∈ families, isCompute f
    let dedicatedTransfer : Prop :=
      queueFlags &&& VK_QUEUE_TRANSFER_BIT ≠ 0 ∧ ∃ f ∈ families, isTransfer f
    (dedicatedCompute → ∃ i, run = ⟨[], .ok i⟩ ∧ lowest isCompute i) ∧
    (¬ dedicatedCompute → dedicatedTransfer → ∃ i, run = ⟨[], .ok i⟩ ∧ lowest isTransfer i) ∧
    (¬ dedicatedCompute → ¬ dedicatedTransfer → (∃ f ∈ families, isAny f) →
      ∃ i, run = ⟨[], .ok i⟩ ∧ lowest isAny i) ∧
    (run = ⟨[], .error (.uncaught "Could not find a matching queue family index")⟩ ↔
      ∀ f ∈ families, f &&& queueFlags = 0) ∧
    (∀ i, run.result = .ok i → i < families.length) := by
  intro run lowest isCompute isTransfer isAny dedicatedCompute dedicatedTransfer
  have hrun : run = match get_queue_family_index.lookup families queueFlags with
      | some i => ⟨[], .ok i⟩
      | none => ⟨[], .error (.uncaught "Could not find a matching queue family index")⟩ :=
    get_queue_family_index_eq families queueFlags hne
  obtain ⟨hcs, hcn⟩ := search_zero (get_queue_family_index.dedicatedCompute queueFlags) families
  obtain ⟨hts, htn⟩ := search_zero (get_queue_family_index.dedicatedTransfer queueFlags) families
  obtain ⟨has, han⟩ := search_zero (get_queue_family_index.anyMatch queueFlags) families
  have hc : ∀ f, get_queue_family_index.dedicatedCompute queueFlags f = true ↔ isCompute f := by
    intro f
    simp [get_queue_family_index.dedicatedCompute, isCompute]
  have ht : ∀ f, get_queue_family_index.dedicatedTransfer queueFlags f = true ↔
      isTransfer f := by
    intro f
    simp [get_queue_family_index.dedicatedTransfer, isTransfer, and_assoc]
  have ha : ∀ f, get_queue_family_index.anyMatch queueFlags f = true ↔ isAny f := by
    intro f
    simp [get_queue_family_index.anyMatch, isAny]
  have hlow : ∀ (test : VkFlags → Bool) (P : VkFlags → Prop), (∀ f, test f = true ↔ P f) →
      ∀ j, (j < families.length ∧ test (families.getD j 0) = true ∧
        ∀ k, k < j → test (families.getD k 0) = false) → lowest P j := by
    intro test P hP j hj
    refine ⟨hj.1, (hP _).1 hj.2.1, fun k hk hPk => ?_⟩
    have := hj.2.2 k hk
    rw [(hP _).2 hPk] at this
    simp at this
  have hnone_iff : ∀ (test : VkFlags → Bool) (P : VkFlags → Prop), (∀ f, test f = true ↔ P f) →
      ((∀ f ∈ families, test f = false) ↔ ¬ ∃ f ∈ families, P f) := by
    intro test P hP
    constructor
    · rintro h ⟨f, hf, hPf⟩
      have := h f hf
      rw [(hP f).2 hPf] at this
      simp at this
    · intro h f hf
      by_contra hne
      exact h ⟨f, hf, (hP f).1 (by simpa using hne)⟩
  -- the three stages of the lookup
  have hstage1 : dedicatedCompute → ∃ i,
      get_queue_family_index.lookup families queueFlags = some i ∧ lowest isCompute i := by
    rintro ⟨hbit, hex⟩
    cases hs : get_queue_family_index.search
        (get_queue_family_index.dedicatedCompute queueFlags) families 0 with
    | none => exact absurd hex ((hnone_iff _ _ hc).1 (hcn.1 hs))
    | some i =>
      refine ⟨i, ?_, hlow _ _ hc i ((hcs i).1 hs)⟩
      simp [get_queue_family_index.lookup, hbit, hs]
  have hskip1 : ¬ dedicatedCompute →
      (if (queueFlags &&& VK_QUEUE_COMPUTE_BIT != 0) = true then
        get_queue_family_index.search (get_queue_family_index.dedicatedCompute queueFlags)
          families 0
      else none) = none := by
    intro hnot
    by_cases hbit : queueFlags &&& VK_QUEUE_COMPUTE_BIT = 0
    · simp [hbit]
    · have hnex : ¬ ∃ f ∈ families, isCompute f := fun hex => hnot ⟨hbit, hex⟩
      simp only [bne_iff_ne, ne_eq, hbit, not_false_eq_true, if_true]
      exact hcn.2 ((hnone_iff _ _ hc).2 hnex)
  have hstage2 : ¬ dedicatedCompute → dedicatedTransfer → ∃ i,
      get_queue_family_index.lookup families queueFlags = some i ∧ lowest isTransfer i := by
    rintro hnot ⟨hbit, hex⟩
    cases hs : get_queue_family_index.search
        (get_queue_family_index.dedicatedTransfer queueFlags) families 0 with
    | none => exact absurd hex ((hnone_iff _ _ ht).1 (htn.1 hs))
    | some i =>
      refine ⟨i, ?_, hlow _ _ ht i ((hts i).1 hs)⟩
      simp only [get_queue_family_index.lookup, hskip1 hnot]
      simp [hbit, hs]
  have hskip2 : ¬ dedicatedTransfer →
      (if (queueFlags &&& VK_QUEUE_TRANSFER_BIT != 0) = true then
        get_queue_family_index.search (get_queue_family_index.dedicatedTransfer queueFlags)
          families 0
      else none) = none := by
    intro hnot
    by_cases hbit : queueFlags &&& VK_QUEUE_TRANSFER_BIT = 0
    · simp [hbit]
    · have hnex : ¬ ∃ f ∈ families, isTransfer f := fun hex => hnot ⟨hbit, hex⟩
      simp only [bne_iff_ne, ne_eq, hbit, not_false_eq_true, if_true]
      exact htn.2 ((hnone_iff _ _ ht).2 hnex)
  have hstage3 : ¬ dedicatedCompute → ¬ dedicatedTransfer →
      get_queue_family_index.lookup families queueFlags =
        get_queue_family_index.search (get_queue_family_index.anyMatch queueFlags)
          families 0 := by
    intro h1 h2
    simp only [get_queue_family_index.lookup, hskip1 h1, hskip2 h2]
  have hany_of : ∀ P : VkFlags → Prop, (∀ f, P f → isAny f) → (∃ f ∈ families, P f) →
      ∃ f ∈ families, isAny f := by
    rintro P hP ⟨f, hf, hPf⟩
    exact ⟨f, hf, hP f hPf⟩
  have hlookup_none : get_queue_family_index.lookup families queueFlags = none ↔
      ∀ f ∈ families, f &&& queueFlags = 0 := by
    have hall : (∀ f ∈ families, f &&& queueFlags = 0) ↔ ¬ ∃ f ∈ families, isAny f := by
      constructor
      · rintro h ⟨f, hf, hPf⟩
        exact hPf (h f hf)
      · intro h f hf
        by_contra hne
        exact h ⟨f, hf, hne⟩
    rw [hall]
    by_cases h1 : dedicatedCompute
    · obtain ⟨i, hi, _⟩ := hstage1 h1
      rw [hi]
      constructor
      · intro h
        simp at h
      · intro h
        exact absurd (hany_of isCompute (fun f hf => hf.1) h1.2) h
    · by_cases h2 : dedicatedTransfer
      · obtain ⟨i, hi, _⟩ := hstage2 h1 h2
        rw [hi]
        constructor
        · intro h
          simp at h
        · intro h
          exact absurd (hany_of isTransfer (fun f hf => hf.1) h2.2) h
      · rw [hstage3 h1 h2, han, hnone_iff _ _ ha]
  refine ⟨?_, ?_, ?_, ?_, ?_⟩
  · intro h1
    obtain ⟨i, hi, hlowest⟩ := hstage1 h1
    exact ⟨i, by rw [hrun, hi], hlowest⟩
  · intro h1 h2
    obtain ⟨i, hi, hlowest⟩ := hstage2 h1 h2
    exact ⟨i, by rw [hrun, hi], hlowest⟩
  · intro h1 h2 hex
    cases hs : get_queue_family_index.search
        (get_queue_family_index.anyMatch queueFlags) families 0 with
    | none => exact absurd hex ((hnone_iff _ _ ha).1 (han.1 hs))
    | some i =>
      refine ⟨i, ?_, hlow _ _ ha i ((has i).1 hs)⟩
      rw [hrun, hstage3 h1 h2, hs]
  · rw [← hlookup_none, hrun]
    cases hl : get_queue_family_index.lookup families queueFlags with
    | none => simp
    | some i => simp
  · intro i hi
    rw [hrun] at hi
    cases hl : get_queue_family_index.lookup families queueFlags with
    | none =>
      rw [hl] at hi
      simp at hi
    | some j =>
      rw [hl] at hi
      have hji : j = i := by simpa using hi
      subst hji
      by_cases h1 : dedicatedCompute
      · obtain ⟨i, hi, hlowest⟩ := hstage1 h1
        rw [hl] at hi
        have : j = i := by simpa using hi
        rw [this]
        exact hlowest.1
      · by_cases h2 : dedicatedTransfer
        · obtain ⟨i, hi, hlowest⟩ := hstage2 h1 h2
          rw [hl] at hi
          have : j = i := by simpa using hi
          rw [this]
          exact hlowest.1
        · rw [hstage3 h1 h2] at hl
          exact ((has j).1 hl).1

/-- Witness for C25: on a device with a graphics+compute+transfer family, a
compute-only family and a transfer-only family, the compute lookup returns
index 1, the lowest family with compute and without graphics. -/
theorem get_queue_family_index_selection_witness :
    ∃ i, get_queue_family_index [7, 2, 4] VK_QUEUE_COMPUTE_BIT = ⟨[], .ok i⟩ ∧
      (i < [7, 2, 4].length ∧
        (([7, 2, 4] : List VkFlags).getD i 0 &&& VK_QUEUE_COMPUTE_BIT ≠ 0 ∧
          ([7, 2, 4] : List VkFlags).getD i 0 &&& VK_QUEUE_GRAPHICS_BIT = 0) ∧
        ∀ k, k < i →
          ¬ (([7, 2, 4] : List VkFlags).getD k 0 &&& VK_QUEUE_COMPUTE_BIT ≠ 0 ∧
            ([7, 2, 4] : List VkFlags).getD k 0 &&& VK_QUEUE_GRAPHICS_BIT = 0)) :=
  (get_queue_family_index_selection [7, 2, 4] VK_QUEUE_COMPUTE_BIT (by decide)).1
    ⟨by decide, 2, by decide, by decide, by decide⟩

end vulkan
end ct

/-! ## The queue create-infos of `create_device` -/

namespace ct
namespace vulkan
open Run

/-- When both lookups return, `create_device` makes one call, `vkCreateDevice`
with the graphics and the compute family in this order, one queue each. -/
theorem create_device_trace (families : List VkFlags) (answer : VkResult × Option Handle)
    (ld : LogicalDevice) (g c : Nat)
    (hg : get_queue_family_index families VK_QUEUE_GRAPHICS_BIT = ⟨[], .ok g⟩)
    (hc : get_queue_family_index families VK_QUEUE_COMPUTE_BIT = ⟨[], .ok c⟩) :
    (create_device families answer ld).trace =
      Call.createDevice [(g, 1), (c, 1)] answer.1 ::
        (if answer.1 = VK_SUCCESS then [] else [Call.fatalDiag answer.1 .VulkanHelper 286]) := by
  unfold create_device
  rw [hg, mk_ok_bind, hc, mk_ok_bind]
  by_cases hres : answer.1 = VK_SUCCESS
  · simp [hres]
  · simp [hres]

/-- The graphics lookup returns the lowest family with the graphics bit. -/
theorem graphics_lookup (families : List VkFlags) (g : Nat)
    (hg : get_queue_family_index families VK_QUEUE_GRAPHICS_BIT = ⟨[], .ok g⟩) :
    g < families.length ∧ families.getD g 0 &&& VK_QUEUE_GRAPHICS_BIT ≠ 0 ∧
      ∀ k, k < g → families.getD k 0 &&& VK_QUEUE_GRAPHICS_BIT = 0 := by
  have hne : families ≠ [] := by
    rintro rfl
    have hres := congrArg Run.result hg
    have habort : (get_queue_family_index [] VK_QUEUE_GRAPHICS_BIT).result = .error .abort := rfl
    rw [habort] at hres
    simp at hres
  rw [get_queue_family_index_eq families _ hne] at hg
  have hlookup : get_queue_family_index.lookup families VK_QUEUE_GRAPHICS_BIT =
      get_queue_family_index.search
        (get_queue_family_index.anyMatch VK_QUEUE_GRAPHICS_BIT) families 0 := by
    have h1 : (VK_QUEUE_GRAPHICS_BIT &&& VK_QUEUE_COMPUTE_BIT != 0) = false := by decide
    have h2 : (VK_QUEUE_GRAPHICS_BIT &&& VK_QUEUE_TRANSFER_BIT != 0) = false := by decide
    simp only [get_queue_family_index.lookup, h1, h2, Bool.false_eq_true, if_false]
  rw [hlookup] at hg
  cases hs : get_queue_family_index.search
      (get_queue_family_index.anyMatch VK_QUEUE_GRAPHICS_BIT) families 0 with
  | none =>
    rw [hs] at hg
    simp at hg
  | some j =>
    rw [hs] at hg
    have hjg : j = g := by simpa using hg
    subst hjg
    obtain ⟨h1, h2, h3⟩ :=
      ((search_zero (get_queue_family_index.anyMatch VK_QUEUE_GRAPHICS_BIT) families).1 j).1 hs
    refine ⟨h1, by simpa [get_queue_family_index.anyMatch] using h2, fun k hk => ?_⟩
    simpa [get_queue_family_index.anyMatch] using h3 k hk

/-- The compute lookup returns a family with the compute bit: the lowest one
without the graphics bit when there is one, and otherwise the lowest one. -/
theorem compute_lookup (families : List VkFlags) (c : Nat)
    (hc : get_queue_family_index families VK_QUEUE_COMPUTE_BIT = ⟨[], .ok c⟩) :
    c < families.length ∧ families.getD c 0 &&& VK_QUEUE_COMPUTE_BIT ≠ 0 ∧
      (families.getD c 0 &&& VK_QUEUE_GRAPHICS_BIT = 0 ∨
        ((∀ f ∈ families, f &&& VK_QUEUE_COMPUTE_BIT ≠ 0 → f &&& VK_QUEUE_GRAPHICS_BIT ≠ 0) ∧
          ∀ k, k < c → families.getD k 0 &&& VK_QUEUE_COMPUTE_BIT = 0)) := by
  have hne : families ≠ [] := by
    rintro rfl
    have hres := congrArg Run.result hc
    have habort : (get_queue_family_index [] VK_QUEUE_COMPUTE_BIT).result = .error .abort := rfl
    rw [habort] at hres
    simp at hres
  rw [get_queue_family_index_eq families _ hne] at hc
  have h1 : (VK_QUEUE_COMPUTE_BIT &&& VK_QUEUE_COMPUTE_BIT != 0) = true := by decide
  have h2 : (VK_QUEUE_COMPUTE_BIT &&& VK_QUEUE_TRANSFER_BIT != 0) = false := by decide
  cases hs : get_queue_family_index.search
      (get_queue_family_index.dedicatedCompute VK_QUEUE_COMPUTE_BIT) families 0 with
  | some j =>
    have hlookup : get_queue_family_index.lookup families VK_QUEUE_COMPUTE_BIT = some j := by
      simp only [get_queue_family_index.lookup, h1, if_true, hs]
    rw [hlookup] at hc
    have hjc : j = c := by simpa using hc
    subst hjc
    obtain ⟨h3, h4, _⟩ :=
      ((search_zero (get_queue_family_index.dedicatedCompute VK_QUEUE_COMPUTE_BIT)
        families).1 j).1 hs
    have h4p : families.getD j 0 &&& VK_QUEUE_COMPUTE_BIT ≠ 0 ∧
        families.getD j 0 &&& VK_QUEUE_GRAPHICS_BIT = 0 := by
      simpa [get_queue_family_index.dedicatedCompute] using h4
    exact ⟨h3, h4p.1, Or.inl h4p.2⟩
  | none =>
    have hlookup : get_queue_family_index.lookup families VK_QUEUE_COMPUTE_BIT =
        get_queue_family_index.search
          (get_queue_family_index.anyMatch VK_QUEUE_COMPUTE_BIT) families 0 := by
      simp only [get_queue_family_index.lookup, h1, h2, if_true, hs, Bool.false_eq_true,
        if_false]
    have hall := (search_zero (get_queue_family_index.dedicatedCompute VK_QUEUE_COMPUTE_BIT)
      families).2.1 hs
    rw [hlookup] at hc
    cases hs3 : get_queue_family_index.search
        (get_queue_family_index.anyMatch VK_QUEUE_COMPUTE_BIT) families 0 with
    | none =>
      rw [hs3] at hc
      simp at hc
    | some j =>
      rw [hs3] at hc
      have hjc : j = c := by simpa using hc
      subst hjc
      obtain ⟨h3, h4, h5⟩ :=
        ((search_zero (get_queue_family_index.anyMatch VK_QUEUE_COMPUTE_BIT) families).1 j).1 hs3
      refine ⟨h3, by simpa [get_queue_family_index.anyMatch] using h4, Or.inr ⟨?_, ?_⟩⟩
      · intro f hf hcomp hgraph
        have := hall f hf
        simp [get_queue_family_index.dedicatedCompute, hcomp, hgraph] at this
      · intro k hk
        simpa [get_queue_family_index.anyMatch] using h5 k hk

/-- C23, the claim refuted on a device: with one queue family that supports
graphics, compute and transfer, both lookups succeed with index 0 and
`create_device` passes two queue create-infos that both name family 0. -/
theorem queue_create_infos_counterexample :
    get_queue_family_index [7] VK_QUEUE_GRAPHICS_BIT = ⟨[], .ok 0⟩ ∧
    get_queue_family_index [7] VK_QUEUE_COMPUTE_BIT = ⟨[], .ok 0⟩ ∧
    (create_device [7] (VK_SUCCESS, some 2) sample.device).trace =
      [Call.createDevice [(0, 1), (0, 1)] VK_SUCCESS] ∧
    trace.requestedQueueFamilies
      (create_device [7] (VK_SUCCESS, some 2) sample.device).trace = [[0, 0]] ∧
    (create_device [7] (VK_SUCCESS, some 2) sample.device).result =
      .ok { sample.device with queue_family_indices := ⟨0, 0, 0⟩ } := by
  refine ⟨rfl, rfl, by decide, by decide, rfl⟩

/-- C23 as amended: for every device whose queue families let both lookups in
`create_device` succeed, `create_device` passes two queue create-infos, the
first for the graphics family `g` and the second for the compute family `c`,
one queue each.  The two indices differ exactly when family `c` lacks the
graphics bit or family `g` lacks the compute bit; in particular they differ
whenever some family supports compute without graphics, and they are the same
whenever every family with the compute bit has the graphics bit and the lowest
family with the graphics bit has the compute bit. -/
theorem queue_create_infos_differ_iff (families : List VkFlags)
    (answer : VkResult × Option Handle) (ld : LogicalDevice) (g c : Nat)
    (hg : get_queue_family_index families VK_QUEUE_GRAPHICS_BIT = ⟨[], .ok g⟩)
    (hc : get_queue_family_index families VK_QUEUE_COMPUTE_BIT = ⟨[], .ok c⟩) :
    trace.requestedQueueFamilies (create_device families answer ld).trace = [[g, c]] ∧
    (g ≠ c ↔ (families.getD c 0 &&& VK_QUEUE_GRAPHICS_BIT = 0 ∨
      families.getD g 0 &&& VK_QUEUE_COMPUTE_BIT = 0)) ∧
    ((∃ f ∈ families, f &&& VK_QUEUE_COMPUTE_BIT ≠ 0 ∧ f &&& VK_QUEUE_GRAPHICS_BIT = 0) →
      g ≠ c) ∧
    ((∀ f ∈ families, f &&& VK_QUEUE_COMPUTE_BIT ≠ 0 → f &&& VK_QUEUE_GRAPHICS_BIT ≠ 0) →
      families.getD g 0 &&& VK_QUEUE_COMPUTE_BIT ≠ 0 → g = c) := by
  obtain ⟨hg1, hg2, hg3⟩ := graphics_lookup families g hg
  obtain ⟨hc1, hc2, hc3⟩ := compute_lookup families c hc
  have hiff : g ≠ c ↔ (families.getD c 0 &&& VK_QUEUE_GRAPHICS_BIT = 0 ∨
      families.getD g 0 &&& VK_QUEUE_COMPUTE_BIT = 0) := by
    constructor
    · intro hne
      by_contra hnot
      have hcg : families.getD c 0 &&& VK_QUEUE_GRAPHICS_BIT ≠ 0 := fun h => hnot (Or.inl h)
      have hgc : families.getD g 0 &&& VK_QUEUE_COMPUTE_BIT ≠ 0 := fun h => hnot (Or.inr h)
      rcases hc3 with h | ⟨_, hbelow⟩
      · exact hcg h
      · rcases Nat.lt_trichotomy g c with h | h | h
        · exact hgc (hbelow g h)
        · exact hne h
        · exact hcg (hg3 c h)
    · rintro (h | h) heq
      · rw [← heq] at h
        exact hg2 h
      · rw [heq] at h
        exact hc2 h
  refine ⟨?_, hiff, ?_, ?_⟩
  · rw [create_device_trace families answer ld g c hg hc]
    by_cases hres : answer.1 = VK_SUCCESS
    · simp [hres, trace.requestedQueueFamilies]
    · simp [hres, trace.requestedQueueFamilies]
  · rintro ⟨f, hf, hfc, hfg⟩
    rcases hc3 with h | ⟨hall, _⟩
    · exact hiff.2 (Or.inl h)
    · exact absurd hfg (hall f hf hfc)
  · intro hall hgc
    by_contra hne
    rcases hiff.1 hne with h | h
    · have hmem : families.getD c 0 ∈ families := by
        rw [List.getD_eq_getElem _ _ hc1]
        exact List.getElem_mem _
      exact hall _ hmem hc2 h
    · exact hgc h

/-- Witness for C23: with a graphics+compute+transfer family at index 0 and a
compute family without graphics at index 1, the create-infos name the families
0 and 1. -/
theorem queue_create_infos_differ_iff_witness :
    trace.requestedQueueFamilies
      (create_device [7, 2] (VK_SUCCESS, some 2) sample.device).trace = [[0, 1]] ∧
    (0 : Nat) ≠ 1 :=
  ⟨(queue_create_infos_differ_iff [7, 2] (VK_SUCCESS, some 2) sample.device 0 1 rfl rfl).1,
   (queue_create_infos_differ_iff [7, 2] (VK_SUCCESS, some 2) sample.device 0 1 rfl rfl).2.2.1
     ⟨2, by decide, by decide, by decide⟩⟩

end vulkan
end ct
